import Mathlib

/-!
# Verification of the BambuRFID tag codec, key derivation, bridge and catalog

Shallow embedding of the core of the BambuRFID repository:

* `backend/rfid/bambu_format.py` — `FilamentData`, `parse_tag_dump`,
  `build_tag_blocks`, the RSA block layout;
* `backend/rfid/tag_builder.py`  — the transport encoders;
* `backend/crypto/kdf.py`        — HKDF-SHA256 key derivation;
* `backend/bridge/nfc_bridge.py` — the bridge session state machine;
* `backend/library/catalog.py`   — the community dump catalog.

Bytes are modelled as natural numbers (`< 256` where it matters, carried as a
hypothesis), byte strings as `List Nat`, Python `str` values as lists of
Unicode code points (`List Nat`), Python `int` as `Int`.  Python's IEEE-754
doubles are modelled exactly by non-negative dyadic rationals together with a
correctly-rounding 53-bit rounding function (`fl53`), which is what CPython's
`/` and `*` perform on the values arising here.  The two `f32` fields
(`filament_diameter_mm`, `nozzle_diameter`) are modelled by their little-endian
byte encoding: CPython unpacks the f32 into a double and re-packs it, which is
the identity on the stored bytes for every value flowing through this code.
Fallible operations (`struct.pack` range errors, `str.encode("ascii")`) return
`Option`.
-/

namespace BambuRFID

/-! ## Byte / list primitives -/

/-- Python slice assignment `l[start:stop] = new` (for `start ≤ stop ≤ len l`):
the segment is replaced by `new`, which may have a different length. -/
def setSlice (l : List Nat) (start stop : Nat) (new : List Nat) : List Nat :=
  l.take start ++ new ++ l.drop stop

/-- `bytes[start:stop]`, a Python slice read (for `start ≤ stop`). -/
def getSlice (l : List Nat) (start stop : Nat) : List Nat :=
  (l.drop start).take (stop - start)

/-- `s.ljust(n, b"\x00")`: right-pad with NUL bytes up to length `n`. -/
def padTo (n : Nat) (s : List Nat) : List Nat :=
  s ++ List.replicate (n - s.length) 0

/-- `struct.unpack_from("<H", data, off)`: little-endian u16 read. -/
def readU16 (blk : List Nat) (off : Nat) : Int :=
  (blk.getD off 0 : Int) + 256 * (blk.getD (off + 1) 0 : Int)

/-- `struct.pack("<H", v)`: little-endian u16 write; `struct.error` (modelled
as `none`) outside `0 ≤ v < 65536`. -/
def u16le (v : Int) : Option (List Nat) :=
  if 0 ≤ v ∧ v < 65536 then some [v.toNat % 256, v.toNat / 256] else none

/-- Code points Python's `str.strip()` removes in the ASCII range. -/
def isPySpace (c : Nat) : Bool :=
  c = 9 ∨ c = 10 ∨ c = 11 ∨ c = 12 ∨ c = 13 ∨ c = 28 ∨ c = 29 ∨ c = 30 ∨ c = 31 ∨ c = 32

/-- Python `str.strip()` on a string of code points `< 0x10000`. -/
def pyStrip (s : List Nat) : List Nat :=
  ((s.dropWhile isPySpace).reverse.dropWhile isPySpace).reverse

/-- `bytes.decode("ascii", errors="replace")`: bytes `≥ 0x80` become U+FFFD. -/
def decodeAsciiReplace (bs : List Nat) : List Nat :=
  bs.map (fun b => if b < 128 then b else 0xFFFD)

/-- `str.encode("ascii")`: fails (`UnicodeEncodeError`) on any code point `≥ 0x80`. -/
def encodeAscii (s : List Nat) : Option (List Nat) :=
  if s.all (fun c => c < 128) then some s else none

/-- `_read_string(block_data, start, length)` from `bambu_format.py`:
slice, split at the first NUL, decode with replacement, strip whitespace. -/
def readString (blk : List Nat) (start len : Nat) : List Nat :=
  pyStrip (decodeAsciiReplace (((blk.drop start).take len).takeWhile (fun b => b ≠ 0)))

/-! ## Exact model of CPython's binary64 arithmetic (`fl53`)

`fl53 n d` is the IEEE-754 binary64 (round-to-nearest, ties-to-even) value of
the exact rational `n / d`, represented as a dyadic pair `m * 2 ^ e`.  The
exponent is unbounded (no overflow/underflow handling); every value reached in
this development lies comfortably inside the normal range of binary64. -/

/-- A non-negative dyadic rational `m * 2 ^ e`, the value of a CPython float. -/
structure PyF where
  m : Nat
  e : Int
  deriving Repr, DecidableEq

/-- `⌊log₂ n⌋` by structural recursion on a fuel bound (so that concrete
values reduce inside the kernel); `plog2 128 n` is exact for every `n < 2 ^ 128`,
far beyond any value reached here. -/
def plog2 : Nat → Nat → Nat
  | 0, _ => 0
  | fuel + 1, n => if 2 ≤ n then plog2 fuel (n / 2) + 1 else 0

/-- `⌊log₂ (n / d)⌋` for positive naturals `n`, `d`. -/
def floorLog2Q (n d : Nat) : Int :=
  let c : Int := (plog2 128 n : Int) - (plog2 128 d : Int)
  let ok : Bool :=
    if 0 ≤ c then decide (d * 2 ^ c.toNat ≤ n) else decide (d ≤ n * 2 ^ (-c).toNat)
  if ok then c else c - 1

/-- Round-to-nearest, ties-to-even of the fraction `nn / dd` (`dd > 0`). -/
def rndNE (nn dd : Nat) : Nat :=
  let q := nn / dd
  let r := nn % dd
  if 2 * r < dd then q
  else if dd < 2 * r then q + 1
  else if q % 2 = 0 then q else q + 1

/-- Correctly-rounded binary64 value of `n / d` (round to 53 significant bits,
nearest, ties to even).  `0` if `n = 0` or `d = 0`. -/
def fl53 (n d : Nat) : PyF :=
  if n = 0 ∨ d = 0 then ⟨0, 0⟩
  else
    let L := floorLog2Q n d
    let sh : Int := 52 - L
    if 0 ≤ sh then ⟨rndNE (n * 2 ^ sh.toNat) d, L - 52⟩
    else ⟨rndNE n (d * 2 ^ (-sh).toNat), L - 52⟩

/-- CPython `x * 100` on a double `x`: exact product, rounded back to 53 bits. -/
def mulF100 (f : PyF) : PyF :=
  if 0 ≤ f.e then fl53 (f.m * 100 * 2 ^ f.e.toNat) 1
  else fl53 (f.m * 100) (2 ^ (-f.e).toNat)

/-- CPython `int(x)` on a non-negative double: truncation toward zero. -/
def truncF (f : PyF) : Nat :=
  if 0 ≤ f.e then f.m * 2 ^ f.e.toNat else f.m / 2 ^ (-f.e).toNat

/-- The full spool-width round trip performed by `parse_tag_dump` followed by
`build_tag_blocks`: `int(float(w / 100.0) * 100)` in CPython semantics. -/
def pyWidthRoundTrip (w : Nat) : Nat :=
  truncF (mulF100 (fl53 w 100))

/-- `round()` (banker's rounding) of `mm * 100` on the parsed double — the
computation the specification prescribes for the spool-width field. -/
def pyWidthRoundTripRounded (w : Nat) : Nat :=
  let f := mulF100 (fl53 w 100)
  if 0 ≤ f.e then f.m * 2 ^ f.e.toNat
  else rndNE f.m (2 ^ (-f.e).toNat)

/-! ## MIFARE geometry (`backend/rfid/mifare.py`) -/

/-- `is_sector_trailer(block)`: every fourth block holds keys and access bits. -/
def is_sector_trailer (block : Nat) : Bool :=
  (block + 1) % 4 == 0

/-! ## The Bambu tag field codec (`backend/rfid/bambu_format.py`) -/

/-- The blocks carrying the RSA signature: the three data blocks of each of
sectors 10–15, in ascending order (`RSA_DATA_BLOCKS` in the source). -/
def RSA_DATA_BLOCKS : List Nat :=
  (List.range' 10 6).flatMap (fun s => (List.range 3).map (fun i => s * 4 + i))

/-- A CPython f32 value, identified with its four little-endian storage bytes.
CPython unpacks an f32 into a double and re-packs it on build; on every value
arising here that composite is the identity on the four bytes, so the field is
carried as its byte encoding. -/
structure F32 where
  b0 : Nat
  b1 : Nat
  b2 : Nat
  b3 : Nat
  deriving Repr, DecidableEq

/-- The effect on a 4-byte little-endian f32 pattern of CPython's
`struct.unpack("<f", …)[0]` (a float→double conversion): the identity on
every pattern except NaNs, whose quiet bit (f32 bit 22, bit 6 of the third
byte) the conversion sets — a signaling NaN such as `0100807f` comes back
from the unpack/pack round trip as `0100c07f`. -/
def quietF32 (l : List Nat) : List Nat :=
  let b0 := l.getD 0 0
  let b1 := l.getD 1 0
  let b2 := l.getD 2 0
  let b3 := l.getD 3 0
  if 128 ≤ b2 ∧ b3 % 128 = 127 ∧ ¬(b0 = 0 ∧ b1 = 0 ∧ b2 % 128 = 0) then
    [b0, b1, (b2 / 128) * 128 + 64 + b2 % 64, b3]
  else l

/-- Read an `F32` from its four little-endian bytes, as
`struct.unpack("<f", …)[0]` stores it in the record: the double carries the
quiet bit for any NaN pattern, so packing back yields the quieted bytes. -/
def F32.ofList (l : List Nat) : F32 :=
  let q := quietF32 l
  ⟨q.getD 0 0, q.getD 1 0, q.getD 2 0, q.getD 3 0⟩

/-- `struct.pack("<f", ...)`: the four little-endian bytes, always length 4. -/
def F32.toList (f : F32) : List Nat :=
  [f.b0, f.b1, f.b2, f.b3]

/-- A full tag image: intended to be 64 blocks of 16 bytes. -/
abbrev Blocks := List (List Nat)

/-- `FilamentData` from `bambu_format.py`, with the defaults of the dataclass.
Strings are lists of code points, `int` fields are `Int`, the two f32 fields
are `F32`, and `spool_width_mm` (a double) is a `PyF`. -/
structure FilamentData where
  uid : List Nat := []
  manufacturer_data : List Nat := []
  material_variant_id : List Nat := []
  material_id : List Nat := []
  filament_type : List Nat := []
  detailed_filament_type : List Nat := []
  color_rgba : List Nat := [0, 0, 0, 0xFF]
  spool_weight_g : Int := 0
  filament_diameter_mm : F32 := ⟨0x00, 0x00, 0xE0, 0x3F⟩
  drying_temp_c : Int := 0
  drying_time_h : Int := 0
  bed_temp_type : Int := 0
  bed_temp_c : Int := 0
  max_hotend_temp_c : Int := 0
  min_hotend_temp_c : Int := 0
  xcam_info : List Nat := []
  nozzle_diameter : F32 := ⟨0, 0, 0, 0⟩
  tray_uid : List Nat := []
  spool_width_mm : PyF := ⟨0, 0⟩
  production_datetime : List Nat := []
  short_production_datetime : List Nat := []
  filament_length_m : Int := 0
  color_format : Int := 0
  color_count : Int := 0
  secondary_color_abgr : List Nat := []
  rsa_signature : List Nat := []
  raw_blocks : Blocks := []
  deriving Repr, DecidableEq

/-- The field extraction performed by `parse_tag_dump` on a validated image. -/
def parseFields (b : Blocks) : FilamentData :=
  let blk := fun i => b.getD i []
  { uid := getSlice (blk 0) 0 4
    manufacturer_data := getSlice (blk 0) 4 16
    material_variant_id := readString (blk 1) 0 8
    material_id := readString (blk 1) 8 8
    filament_type := readString (blk 2) 0 16
    detailed_filament_type := readString (blk 4) 0 16
    color_rgba := getSlice (blk 5) 0 4
    spool_weight_g := readU16 (blk 5) 4
    filament_diameter_mm := F32.ofList (getSlice (blk 5) 8 12)
    drying_temp_c := readU16 (blk 6) 0
    drying_time_h := readU16 (blk 6) 2
    bed_temp_type := readU16 (blk 6) 4
    bed_temp_c := readU16 (blk 6) 6
    max_hotend_temp_c := readU16 (blk 6) 8
    min_hotend_temp_c := readU16 (blk 6) 10
    xcam_info := getSlice (blk 8) 0 12
    nozzle_diameter := F32.ofList (getSlice (blk 8) 12 16)
    tray_uid := readString (blk 9) 0 16
    spool_width_mm := fl53 (readU16 (blk 10) 4).toNat 100
    production_datetime := readString (blk 12) 0 16
    short_production_datetime := readString (blk 13) 0 16
    filament_length_m := readU16 (blk 14) 4
    color_format := readU16 (blk 16) 0
    color_count := readU16 (blk 16) 2
    secondary_color_abgr :=
      if readU16 (blk 16) 0 = 2 ∧ 8 ≤ (blk 16).length then getSlice (blk 16) 4 8 else []
    rsa_signature := ((RSA_DATA_BLOCKS.map blk).flatten).take 256
    raw_blocks := b }

/-- `parse_tag_dump(blocks)`: `ValueError` (modelled as `none`) unless the dump
has 64 blocks of 16 bytes each; otherwise every field is populated. -/
def parse_tag_dump (blocks : Blocks) : Option FilamentData :=
  if blocks.length = 64 ∧ blocks.all (fun b => b.length = 16) then
    some (parseFields blocks)
  else none

/-- The base image `build_tag_blocks` starts from: the retained raw blocks in
clone mode (`fd.raw_blocks and len(fd.raw_blocks) == 64`), else all zeros. -/
def buildBase (fd : FilamentData) : Blocks :=
  if fd.raw_blocks ≠ [] ∧ fd.raw_blocks.length = 64 then fd.raw_blocks
  else List.replicate 64 (List.replicate 16 0)

/-- Apply a function to block `i` of an image (mutation of `blocks[i]`). -/
def upd (bs : Blocks) (i : Nat) (f : List Nat → List Nat) : Blocks :=
  bs.set i (f (bs.getD i []))

/-- `blocks[i][start:stop] = v`: slice assignment into one block. -/
def wr (i start stop : Nat) (v : List Nat) (bs : Blocks) : Blocks :=
  upd bs i (fun blk => setSlice blk start stop v)

/-- One iteration of the RSA write loop: replace block `p.2` by the 16-byte
chunk of `sig` at cursor `16 * p.1`, skipping short chunks. -/
def rsaStep (sig : List Nat) (acc : Blocks) (p : Nat × Nat) : Blocks :=
  let chunk := (sig.drop (16 * p.1)).take 16
  if chunk.length = 16 then acc.set p.2 chunk else acc

/-- The RSA write loop of `build_tag_blocks`: walk `RSA_DATA_BLOCKS` with a
16-byte cursor into `sig`, replacing a whole block whenever a full 16-byte
chunk remains. -/
def rsaWrite (sig : List Nat) (bs : Blocks) : Blocks :=
  RSA_DATA_BLOCKS.enum.foldl (rsaStep sig) bs

/-- Sector-0 writes of `build_tag_blocks`: block 0 (UID and manufacturer
data, gated on truthiness), block 1 (the two material ids), block 2 (the
short filament type). -/
def buildSector0 (fd : FilamentData) (b : Blocks) : Option Blocks := do
  let b := if fd.uid ≠ [] then wr 0 0 4 (padTo 4 (fd.uid.take 4)) b else b
  let b := if fd.manufacturer_data ≠ [] then
      wr 0 4 16 (padTo 12 (fd.manufacturer_data.take 12)) b else b
  let mv ← encodeAscii fd.material_variant_id
  let b := wr 1 0 8 (padTo 8 (mv.take 8)) b
  let mi ← encodeAscii fd.material_id
  let b := wr 1 8 16 (padTo 8 (mi.take 8)) b
  let ft ← encodeAscii fd.filament_type
  pure (wr 2 0 16 (padTo 16 (ft.take 16)) b)

/-- Sector-1 writes of `build_tag_blocks`: block 4 (detailed type) and
block 5 (colour RGBA, spool weight, filament diameter; bytes 6–7 are left
as they are). -/
def buildSector1 (fd : FilamentData) (b : Blocks) : Option Blocks := do
  let dt ← encodeAscii fd.detailed_filament_type
  let b := wr 4 0 16 (padTo 16 (dt.take 16)) b
  let b := wr 5 0 4 (fd.color_rgba.take 4) b
  let wgt ← u16le fd.spool_weight_g
  let b := wr 5 4 6 wgt b
  pure (wr 5 8 12 fd.filament_diameter_mm.toList b)

/-- Block-6 writes of `build_tag_blocks`: the six u16 temperature fields. -/
def buildBlock6 (fd : FilamentData) (b : Blocks) : Option Blocks := do
  let v1 ← u16le fd.drying_temp_c
  let b := wr 6 0 2 v1 b
  let v2 ← u16le fd.drying_time_h
  let b := wr 6 2 4 v2 b
  let v3 ← u16le fd.bed_temp_type
  let b := wr 6 4 6 v3 b
  let v4 ← u16le fd.bed_temp_c
  let b := wr 6 6 8 v4 b
  let v5 ← u16le fd.max_hotend_temp_c
  let b := wr 6 8 10 v5 b
  let v6 ← u16le fd.min_hotend_temp_c
  pure (wr 6 10 12 v6 b)

/-- Sector-2 writes of `build_tag_blocks`: block 8 (xcam info, gated on
truthiness, and nozzle diameter), block 9 (tray UID), block 10 (spool width
at bytes 4–5, `int(fd.spool_width_mm * 100)` as u16 LE). -/
def buildSector2 (fd : FilamentData) (b : Blocks) : Option Blocks := do
  let b := if fd.xcam_info ≠ [] then wr 8 0 12 (padTo 12 (fd.xcam_info.take 12)) b else b
  let b := wr 8 12 16 fd.nozzle_diameter.toList b
  let tu ← encodeAscii fd.tray_uid
  let b := wr 9 0 16 (padTo 16 (tu.take 16)) b
  let wv ← u16le (truncF (mulF100 fd.spool_width_mm) : Int)
  pure (wr 10 4 6 wv b)

/-- Sector-3 writes of `build_tag_blocks`: blocks 12–13 (the production
datetimes) and block 14 (filament length at bytes 4–5). -/
def buildSector3 (fd : FilamentData) (b : Blocks) : Option Blocks := do
  let pd ← encodeAscii fd.production_datetime
  let b := wr 12 0 16 (padTo 16 (pd.take 16)) b
  let sp ← encodeAscii fd.short_production_datetime
  let b := wr 13 0 16 (padTo 16 (sp.take 16)) b
  let fl ← u16le fd.filament_length_m
  pure (wr 14 4 6 fl b)

/-- Sector-4 writes of `build_tag_blocks`: block 16 (colour format, colour
count, and — when the field is non-empty — the secondary colour bytes). -/
def buildSector4 (fd : FilamentData) (b : Blocks) : Option Blocks := do
  let cf ← u16le fd.color_format
  let b := wr 16 0 2 cf b
  let cc ← u16le fd.color_count
  let b := wr 16 2 4 cc b
  pure (if fd.secondary_color_abgr ≠ [] then
      wr 16 4 8 (fd.secondary_color_abgr.take 4) b else b)

/-- The final RSA stage of `build_tag_blocks`: when the signature field is
non-empty, write its 256 bytes (truncated and NUL-padded) over the RSA data
blocks. -/
def buildRsa (fd : FilamentData) (b : Blocks) : Blocks :=
  if fd.rsa_signature ≠ [] then
    rsaWrite (padTo 256 (fd.rsa_signature.take 256)) b
  else b

/-- `build_tag_blocks(fd)`: rebuild a 64-block image, starting from the raw
blocks when present, and overwrite the byte ranges of the semantic fields in
the order of the source (stage after stage, each stage propagating failure).
`none` models the exceptions CPython can raise (`UnicodeEncodeError` from
`str.encode("ascii")`, `struct.error` from an out-of-range u16). -/
def build_tag_blocks (fd : FilamentData) : Option Blocks :=
  ((((((buildSector0 fd (buildBase fd)).bind
      (buildSector1 fd)).bind
      (buildBlock6 fd)).bind
      (buildSector2 fd)).bind
      (buildSector3 fd)).bind
      (buildSector4 fd)).map (buildRsa fd)

/-! ## Transport encoders (`backend/rfid/tag_builder.py`) -/

/-- Upper-case hex digit of a value `< 16`. -/
def hexDigitU (n : Nat) : Char :=
  if n < 10 then Char.ofNat (48 + n) else Char.ofNat (55 + n)

/-- Two upper-case hex digits of a byte (`f"{b:02X}"`, and also
`bytes.hex().upper()` per byte). -/
def hexByteU (b : Nat) : List Char :=
  [hexDigitU (b / 16), hexDigitU (b % 16)]

/-- `data.hex().upper()`: upper-case hex of a byte string. -/
def bytesToHexU (bs : List Nat) : String :=
  ⟨bs.flatMap hexByteU⟩

/-- Character `n` of the standard base-64 alphabet (`n < 64`). -/
def b64Char (n : Nat) : Char :=
  if n < 26 then Char.ofNat (65 + n)
  else if n < 52 then Char.ofNat (97 + (n - 26))
  else if n < 62 then Char.ofNat (48 + (n - 52))
  else if n = 62 then Char.ofNat 43
  else Char.ofNat 47

/-- Standard base-64 encoding of a byte string (RFC 4648, with `=` padding),
as performed by `base64.b64encode(...).decode("ascii")`. -/
def b64EncodeList : List Nat → List Char
  | [] => []
  | [a] => [b64Char (a / 4), b64Char (a % 4 * 16), Char.ofNat 61, Char.ofNat 61]
  | [a, b] => [b64Char (a / 4), b64Char (a % 4 * 16 + b / 16), b64Char (b % 16 * 4), Char.ofNat 61]
  | a :: b :: c :: rest =>
    b64Char (a / 4) :: b64Char (a % 4 * 16 + b / 16) ::
      b64Char (b % 16 * 4 + c / 64) :: b64Char (c % 64) :: b64EncodeList rest

/-- `base64.b64encode(bs).decode("ascii")`. -/
def b64encode (bs : List Nat) : String :=
  ⟨b64EncodeList bs⟩

/-- Two-digit zero-padded decimal (`f"{i:02d}"` for `i < 100`). -/
def dec2 (i : Nat) : List Char :=
  [Char.ofNat (48 + i / 10 % 10), Char.ofNat (48 + i % 10)]

/-- One line of `build_proxmark3_dump`. -/
def proxmarkLine (i : Nat) (block : List Nat) : String :=
  "Block " ++ (⟨dec2 i⟩ : String) ++ ": " ++
    String.intercalate " " (block.map (fun b => (⟨hexByteU b⟩ : String)))

/-- `build_blocks(fd)`: the 64 blocks themselves. -/
def build_blocks (fd : FilamentData) : Option Blocks :=
  build_tag_blocks fd

/-- `build_binary(fd)`: the 1024-byte concatenation of the built blocks. -/
def build_binary (fd : FilamentData) : Option (List Nat) :=
  (build_tag_blocks fd).map List.flatten

/-- `build_hex(fd)`: upper-case hex of the raw binary. -/
def build_hex (fd : FilamentData) : Option String :=
  (build_binary fd).map bytesToHexU

/-- `build_base64(fd)`: base-64 of the raw binary. -/
def build_base64 (fd : FilamentData) : Option String :=
  (build_binary fd).map b64encode

/-- `build_base64_blocks(fd)`: 64 per-block base-64 strings. -/
def build_base64_blocks (fd : FilamentData) : Option (List String) :=
  (build_tag_blocks fd).map (fun bs => bs.map (fun b => b64encode b))

/-- `build_hex_blocks(fd)`: 64 per-block upper-case hex strings. -/
def build_hex_blocks (fd : FilamentData) : Option (List String) :=
  (build_tag_blocks fd).map (fun bs => bs.map (fun b => bytesToHexU b))

/-- `build_proxmark3_dump(fd)`: line-oriented text dump. -/
def build_proxmark3_dump (fd : FilamentData) : Option String :=
  (build_tag_blocks fd).map (fun bs =>
    String.intercalate "\n" (bs.enum.map (fun p => proxmarkLine p.1 p.2)))

/-! ## Key derivation (`backend/crypto/kdf.py`)

SHA-256, HMAC-SHA256 and RFC-5869 HKDF are embedded in full; 32-bit words
are naturals reduced modulo `2 ^ 32`. -/

/-- Reduce to a 32-bit word. -/
def w32 (x : Nat) : Nat := x % 4294967296

/-- Right-rotation of a 32-bit word by `n` (`0 < n < 32`). -/
def rotr32 (n x : Nat) : Nat := w32 (x / 2 ^ n + x % 2 ^ n * 2 ^ (32 - n))

/-- Logical right shift of a 32-bit word. -/
def shr32 (n x : Nat) : Nat := x / 2 ^ n

/-- Bitwise complement of a 32-bit word. -/
def compl32 (x : Nat) : Nat := 4294967295 - x

/-- SHA-256 `Ch(x, y, z)`. -/
def shaCh (x y z : Nat) : Nat := (x &&& y) ^^^ (compl32 x &&& z)

/-- SHA-256 `Maj(x, y, z)`. -/
def shaMaj (x y z : Nat) : Nat := (x &&& y) ^^^ (x &&& z) ^^^ (y &&& z)

/-- The 64 SHA-256 round constants. -/
def shaK : List Nat :=
  [1116352408, 1899447441, 3049323471, 3921009573, 961987163, 1508970993,
   2453635748, 2870763221, 3624381080, 310598401, 607225278, 1426881987,
   1925078388, 2162078206, 2614888103, 3248222580, 3835390401, 4022224774,
   264347078, 604807628, 770255983, 1249150122, 1555081692, 1996064986,
   2554220882, 2821834349, 2952996808, 3210313671, 3336571891, 3584528711,
   113926993, 338241895, 666307205, 773529912, 1294757372, 1396182291,
   1695183700, 1986661051, 2177026350, 2456956037, 2730485921, 2820302411,
   3259730800, 3345764771, 3516065817, 3600352804, 4094571909, 275423344,
   430227734, 506948616, 659060556, 883997877, 958139571, 1322822218,
   1537002063, 1747873779, 1955562222, 2024104815, 2227730452, 2361852424,
   2428436474, 2756734187, 3204031479, 3329325298]

/-- The eight working registers of SHA-256. -/
structure H8 where
  a : Nat
  b : Nat
  c : Nat
  d : Nat
  e : Nat
  f : Nat
  g : Nat
  h : Nat
  deriving Repr, DecidableEq

/-- SHA-256 initial hash value. -/
def shaInit : H8 :=
  ⟨0x6a09e667, 0xbb67ae85, 0x3c6ef372, 0xa54ff53a, 0x510e527f, 0x9b05688c, 0x1f83d9ab, 0x5be0cd19⟩

/-- Group bytes into big-endian 32-bit words, four at a time. -/
def be32Words : List Nat → List Nat
  | a :: b :: c :: d :: rest => (((a * 256 + b) * 256 + c) * 256 + d) :: be32Words rest
  | _ => []

/-- Big-endian bytes of a 32-bit word. -/
def be32Bytes (x : Nat) : List Nat :=
  [x / 2 ^ 24 % 256, x / 2 ^ 16 % 256, x / 2 ^ 8 % 256, x % 256]

/-- Big-endian bytes of a 64-bit length field. -/
def be64Bytes (x : Nat) : List Nat :=
  [x / 2 ^ 56 % 256, x / 2 ^ 48 % 256, x / 2 ^ 40 % 256, x / 2 ^ 32 % 256,
   x / 2 ^ 24 % 256, x / 2 ^ 16 % 256, x / 2 ^ 8 % 256, x % 256]

/-- Extend the 16 message-schedule words to 64. -/
def extendW (ws : List Nat) : List Nat :=
  (List.range 48).foldl
    (fun acc _ =>
      let n := acc.length
      let w15 := acc.getD (n - 15) 0
      let w2 := acc.getD (n - 2) 0
      let s0 := rotr32 7 w15 ^^^ rotr32 18 w15 ^^^ shr32 3 w15
      let s1 := rotr32 17 w2 ^^^ rotr32 19 w2 ^^^ shr32 10 w2
      acc ++ [w32 (acc.getD (n - 16) 0 + s0 + acc.getD (n - 7) 0 + s1)])
    ws

/-- One SHA-256 round. -/
def shaRound (t : H8) (p : Nat × Nat) : H8 :=
  let S1 := rotr32 6 t.e ^^^ rotr32 11 t.e ^^^ rotr32 25 t.e
  let temp1 := w32 (t.h + S1 + shaCh t.e t.f t.g + p.2 + p.1)
  let S0 := rotr32 2 t.a ^^^ rotr32 13 t.a ^^^ rotr32 22 t.a
  let temp2 := w32 (S0 + shaMaj t.a t.b t.c)
  ⟨w32 (temp1 + temp2), t.a, t.b, t.c, w32 (t.d + temp1), t.e, t.f, t.g⟩

/-- Compress one 64-byte chunk into the running state. -/
def shaCompress (st : H8) (chunk : List Nat) : H8 :=
  let ws := extendW (be32Words chunk)
  let t := ((ws.zip shaK).foldl shaRound st)
  ⟨w32 (st.a + t.a), w32 (st.b + t.b), w32 (st.c + t.c), w32 (st.d + t.d),
   w32 (st.e + t.e), w32 (st.f + t.f), w32 (st.g + t.g), w32 (st.h + t.h)⟩

/-- SHA-256 padding: `0x80`, zeros to 56 mod 64, then the bit length. -/
def sha256pad (m : List Nat) : List Nat :=
  m ++ 0x80 :: List.replicate ((119 - m.length % 64) % 64) 0 ++ be64Bytes (8 * m.length)

/-- Split a byte string into 64-byte chunks. -/
def chunks64 : List Nat → List (List Nat)
  | [] => []
  | a :: rest => ((a :: rest).take 64) :: chunks64 (rest.drop 63)
  termination_by l => l.length
  decreasing_by simp [List.length_drop]; omega

/-- The SHA-256 digest (32 bytes) of a byte string. -/
def sha256 (m : List Nat) : List Nat :=
  let st := (chunks64 (sha256pad m)).foldl shaCompress shaInit
  be32Bytes st.a ++ be32Bytes st.b ++ be32Bytes st.c ++ be32Bytes st.d ++
    be32Bytes st.e ++ be32Bytes st.f ++ be32Bytes st.g ++ be32Bytes st.h

/-- HMAC-SHA256 with block size 64. -/
def hmacSha256 (key msg : List Nat) : List Nat :=
  let k1 := if 64 < key.length then sha256 key else key
  let k0 := k1 ++ List.replicate (64 - k1.length) 0
  sha256 ((k0.map (fun b => b ^^^ 0x5c)) ++ sha256 ((k0.map (fun b => b ^^^ 0x36)) ++ msg))

/-- The community master salt from `kdf.py` (`MASTER_KEY`). -/
def MASTER_KEY : List Nat :=
  [0x9A, 0x75, 0x9C, 0xF2, 0xC4, 0xF7, 0xCA, 0xFF, 0x22, 0x2C, 0xB9, 0x76, 0x9B, 0x41, 0xBC, 0x96]

/-- The HKDF context string from `kdf.py`: the bytes of "RFID-A" plus a NUL. -/
def CONTEXT : List Nat :=
  [0x52, 0x46, 0x49, 0x44, 0x2D, 0x41, 0x00]

/-- RFC-5869 HKDF-Extract with SHA-256. -/
def hkdfExtract (salt ikm : List Nat) : List Nat :=
  hmacSha256 salt ikm

/-- One round of HKDF-Expand: append `T(i+1) = HMAC(prk, T(i) ++ info ++ [i+1])`
to the accumulated output and carry it forward. -/
def hkdfStep (prk info : List Nat) (acc : List Nat × List Nat) (i : Nat) :
    List Nat × List Nat :=
  let t := hmacSha256 prk (acc.2 ++ info ++ [i + 1])
  (acc.1 ++ t, t)

/-- RFC-5869 HKDF-Expand with SHA-256: `T(i) = HMAC(prk, T(i-1) ++ info ++ [i])`,
concatenated and truncated to `l` bytes. -/
def hkdfExpand (prk info : List Nat) (l : Nat) : List Nat :=
  ((List.range ((l + 31) / 32)).foldl (hkdfStep prk info) ([], [])).1.take l

/-- The 96-byte HKDF-SHA256 output `derive_keys` expands: IKM is the UID,
salt is `MASTER_KEY`, info is `CONTEXT`. -/
def hkdfOutput96 (uid : List Nat) : List Nat :=
  hkdfExpand (hkdfExtract MASTER_KEY uid) CONTEXT 96

/-- `derive_keys(uid)` from `kdf.py`: the 16 sector keys, the in-order 6-byte
chunks of the 96-byte HKDF output (matching pycryptodome's
`HKDF(master=uid, key_len=6, salt=MASTER_KEY, hashmod=SHA256, num_keys=16,
context=CONTEXT)`). -/
def derive_keys (uid : List Nat) : List (List Nat) :=
  let okm := hkdfOutput96 uid
  (List.range 16).map (fun i => (okm.drop (6 * i)).take 6)

/-! ## Bridge session (`backend/bridge/nfc_bridge.py`)

The `NFCBridgeManager` is modelled as a state machine.  Connections are
numbered; request ids are the decimal rendering of the monotonically
increasing `_request_counter` and are modelled by the counter value itself
(the rendering is injective).  An `asyncio.Future` outlives its entry in the
pending dict, so future fates are tracked in a separate `futures` table that
is never shrunk, while `pending_reads` / `pending_writes` hold only the ids
currently present in the two dicts. -/

/-- The fate of one `asyncio.Future` correlation slot. -/
inductive SlotState
  | pending
  | resolved
  | failed (msg : String)
  | cancelled
  deriving Repr, DecidableEq

/-- An incoming phone message, as dispatched by `handle_message`. -/
inductive BridgeMsg
  | tagData (request_id : Nat)
  | writeResult (request_id : Nat)
  | tagDetected
  | statusMsg
  | errorMsg (message : String)
  deriving Repr, DecidableEq

/-- The mutable state of `NFCBridgeManager`. -/
structure BridgeState where
  phone : Option Nat
  futures : List (Nat × SlotState)
  pending_reads : List Nat
  pending_writes : List Nat
  request_counter : Nat
  deriving Repr, DecidableEq

/-- The state constructed by `NFCBridgeManager.__init__`. -/
def bridgeInit : BridgeState :=
  ⟨none, [], [], [], 0⟩

/-- `fut.cancel()` on every not-yet-done future among `ids`. -/
def cancelFutures (futures : List (Nat × SlotState)) (ids : List Nat) :
    List (Nat × SlotState) :=
  futures.map (fun p => if p.1 ∈ ids ∧ p.2 = SlotState.pending then (p.1, SlotState.cancelled) else p)

/-- `fut.set_exception(Exception(msg))` on every not-yet-done future among `ids`. -/
def failFutures (futures : List (Nat × SlotState)) (ids : List Nat) (msg : String) :
    List (Nat × SlotState) :=
  futures.map (fun p => if p.1 ∈ ids ∧ p.2 = SlotState.pending then (p.1, SlotState.failed msg) else p)

/-- `fut.set_result(data)` on the future with id `rid` (the code only reaches
this on a slot still present in the dict; a non-pending future would raise
`InvalidStateError`, a corner no modelled trace enters). -/
def resolveFuture (futures : List (Nat × SlotState)) (rid : Nat) :
    List (Nat × SlotState) :=
  futures.map (fun p => if p.1 = rid ∧ p.2 = SlotState.pending then (p.1, SlotState.resolved) else p)

/-- `NFCBridgeManager.connect(websocket)`: accept and store the new
connection.  The previous socket is asked to close, which mutates no manager
state here; the tables and futures are untouched. -/
def bridgeConnect (st : BridgeState) (ws : Nat) : BridgeState :=
  { st with phone := some ws }

/-- `NFCBridgeManager.disconnect()`: drop the connection, cancel every
pending future of both dicts and clear the dicts. -/
def bridgeDisconnect (st : BridgeState) : BridgeState :=
  { st with
    phone := none
    futures := cancelFutures st.futures (st.pending_reads ++ st.pending_writes)
    pending_reads := []
    pending_writes := [] }

/-- `NFCBridgeManager.handle_message(data)`. -/
def handle_message (st : BridgeState) (msg : BridgeMsg) : BridgeState :=
  match msg with
  | BridgeMsg.tagData rid =>
      if rid ∈ st.pending_reads then
        { st with
          futures := resolveFuture st.futures rid
          pending_reads := st.pending_reads.erase rid }
      else st
  | BridgeMsg.writeResult rid =>
      if rid ∈ st.pending_writes then
        { st with
          futures := resolveFuture st.futures rid
          pending_writes := st.pending_writes.erase rid }
      else st
  | BridgeMsg.tagDetected => st
  | BridgeMsg.statusMsg => st
  | BridgeMsg.errorMsg m =>
      { st with futures := failFutures st.futures (st.pending_reads ++ st.pending_writes) m }

/-- The send half of `request_read`: `ConnectionError` (modelled `none`) when
no phone is connected, else allocate the next id, register a fresh pending
future in `_pending_reads`, and send `READ_TAG`. -/
def request_read_send (st : BridgeState) : Option (BridgeState × Nat) :=
  match st.phone with
  | none => none
  | some _ =>
    let rid := st.request_counter + 1
    some ({ st with
            request_counter := rid
            futures := st.futures ++ [(rid, SlotState.pending)]
            pending_reads := st.pending_reads ++ [rid] }, rid)

/-- The send half of `request_write`, mirroring `request_read_send` on
`_pending_writes`. -/
def request_write_send (st : BridgeState) : Option (BridgeState × Nat) :=
  match st.phone with
  | none => none
  | some _ =>
    let rid := st.request_counter + 1
    some ({ st with
            request_counter := rid
            futures := st.futures ++ [(rid, SlotState.pending)]
            pending_writes := st.pending_writes ++ [rid] }, rid)

/-- The `asyncio.TimeoutError` branch of `request_read`: `wait_for` cancels
the future and the handler pops the id from `_pending_reads`. -/
def request_read_timeout (st : BridgeState) (rid : Nat) : BridgeState :=
  { st with
    futures := cancelFutures st.futures [rid]
    pending_reads := st.pending_reads.erase rid }

/-- The `asyncio.TimeoutError` branch of `request_write`. -/
def request_write_timeout (st : BridgeState) (rid : Nat) : BridgeState :=
  { st with
    futures := cancelFutures st.futures [rid]
    pending_writes := st.pending_writes.erase rid }

/-! ## Community dump catalog (`backend/library/catalog.py`) -/

/-- A `TagEntry` dataclass value. -/
structure TagEntry where
  material : String
  subtype : String
  color : String
  uid : String
  json_path : String
  bin_path : String
  deriving Repr, DecidableEq

/-- `TagEntry.display_name`. -/
def TagEntry.display_name (e : TagEntry) : String :=
  e.subtype ++ " - " ++ e.color

/-- `TagEntry.id`. -/
def TagEntry.entryId (e : TagEntry) : String :=
  e.material ++ "/" ++ e.subtype ++ "/" ++ e.color ++ "/" ++ e.uid

/-- The dict produced by `TagEntry.to_dict` (the persisted snapshot is the
JSON rendering of a list of these; JSON round-trips this flat string record
faithfully). -/
structure TagEntryDict where
  id : String
  material : String
  subtype : String
  color : String
  uid : String
  display_name : String
  json_path : String
  deriving Repr, DecidableEq

/-- `TagEntry.to_dict`. -/
def TagEntry.to_dict (e : TagEntry) : TagEntryDict :=
  ⟨e.entryId, e.material, e.subtype, e.color, e.uid, e.display_name, e.json_path⟩

/-- The per-item body of the tree loop in `TagLibrary.load_index`: keep paths
ending in `-dump.json` with at least four `/`-separated components, and build
a `TagEntry` from the first four components. -/
def entryOfPath (path : String) : Option TagEntry :=
  if path.endsWith "-dump.json" then
    let parts := path.splitOn "/"
    if 4 ≤ parts.length then
      some ⟨parts.getD 0 "", parts.getD 1 "", parts.getD 2 "", parts.getD 3 "", path, ""⟩
    else none
  else none

/-- The entry list `TagLibrary.load_index` constructs from the remote tree
listing (one `path` per tree item). -/
def loadEntries (paths : List String) : List TagEntry :=
  paths.filterMap entryOfPath

/-- `TagLibrary._rebuild_from_cache(data)`: rebuild the entries from the
persisted dicts (`bin_path` is not persisted and is left at its default). -/
def rebuildFromCache (data : List TagEntryDict) : List TagEntry :=
  data.map (fun d => ⟨d.material, d.subtype, d.color, d.uid, d.json_path, ""⟩)

/-- Insert a string into an ascending list (used to model Python `sorted`). -/
def insSorted (s : String) : List String → List String
  | [] => [s]
  | x :: xs => if s ≤ x then s :: x :: xs else x :: insSorted s xs

/-- Python `sorted` on a list of strings (insertion sort; code-point order). -/
def sortStr (l : List String) : List String :=
  l.foldr insSorted []

/-- `TagLibrary._build_material_index()`: the material → sorted-subtypes
mapping, with materials in sorted order (`sorted(materials.items())` over the
per-material subtype sets). -/
def buildMaterialIndex (entries : List TagEntry) : List (String × List String) :=
  (sortStr (entries.map (fun e => e.material)).dedup).map
    (fun m =>
      (m, sortStr ((entries.filter (fun e => e.material = m)).map (fun e => e.subtype)).dedup))

/-! ## Single-field edits of a filament record

The cloning flow parses an image, has the user change one field of the
record, and rebuilds.  `Edit` enumerates the writable fields of
`FilamentData` (one constructor per field, carrying the new value);
`applyEdit` performs the record update. -/

/-- One single-field edit of a `FilamentData` record. -/
inductive Edit
  | uid (v : List Nat)
  | manufacturer_data (v : List Nat)
  | material_variant_id (v : List Nat)
  | material_id (v : List Nat)
  | filament_type (v : List Nat)
  | detailed_filament_type (v : List Nat)
  | color_rgba (v : List Nat)
  | spool_weight_g (v : Int)
  | filament_diameter_mm (v : F32)
  | drying_temp_c (v : Int)
  | drying_time_h (v : Int)
  | bed_temp_type (v : Int)
  | bed_temp_c (v : Int)
  | max_hotend_temp_c (v : Int)
  | min_hotend_temp_c (v : Int)
  | xcam_info (v : List Nat)
  | nozzle_diameter (v : F32)
  | tray_uid (v : List Nat)
  | spool_width_mm (v : PyF)
  | production_datetime (v : List Nat)
  | short_production_datetime (v : List Nat)
  | filament_length_m (v : Int)
  | color_format (v : Int)
  | color_count (v : Int)
  | secondary_color_abgr (v : List Nat)
  | rsa_signature (v : List Nat)
  deriving Repr, DecidableEq

/-- Apply a single-field edit to a record. -/
def applyEdit : Edit → FilamentData → FilamentData
  | Edit.uid v, fd => { fd with uid := v }
  | Edit.manufacturer_data v, fd => { fd with manufacturer_data := v }
  | Edit.material_variant_id v, fd => { fd with material_variant_id := v }
  | Edit.material_id v, fd => { fd with material_id := v }
  | Edit.filament_type v, fd => { fd with filament_type := v }
  | Edit.detailed_filament_type v, fd => { fd with detailed_filament_type := v }
  | Edit.color_rgba v, fd => { fd with color_rgba := v }
  | Edit.spool_weight_g v, fd => { fd with spool_weight_g := v }
  | Edit.filament_diameter_mm v, fd => { fd with filament_diameter_mm := v }
  | Edit.drying_temp_c v, fd => { fd with drying_temp_c := v }
  | Edit.drying_time_h v, fd => { fd with drying_time_h := v }
  | Edit.bed_temp_type v, fd => { fd with bed_temp_type := v }
  | Edit.bed_temp_c v, fd => { fd with bed_temp_c := v }
  | Edit.max_hotend_temp_c v, fd => { fd with max_hotend_temp_c := v }
  | Edit.min_hotend_temp_c v, fd => { fd with min_hotend_temp_c := v }
  | Edit.xcam_info v, fd => { fd with xcam_info := v }
  | Edit.nozzle_diameter v, fd => { fd with nozzle_diameter := v }
  | Edit.tray_uid v, fd => { fd with tray_uid := v }
  | Edit.spool_width_mm v, fd => { fd with spool_width_mm := v }
  | Edit.production_datetime v, fd => { fd with production_datetime := v }
  | Edit.short_production_datetime v, fd => { fd with short_production_datetime := v }
  | Edit.filament_length_m v, fd => { fd with filament_length_m := v }
  | Edit.color_format v, fd => { fd with color_format := v }
  | Edit.color_count v, fd => { fd with color_count := v }
  | Edit.secondary_color_abgr v, fd => { fd with secondary_color_abgr := v }
  | Edit.rsa_signature v, fd => { fd with rsa_signature := v }

/-- A well-formed edit value: one on which `build_tag_blocks` neither raises
nor writes a slice of the wrong width (CPython's slice assignment would then
shift the rest of the block, which is never intended). -/
def editOk : Edit → Bool
  | Edit.uid _ => true
  | Edit.manufacturer_data _ => true
  | Edit.material_variant_id v => v.all (fun c => c < 128)
  | Edit.material_id v => v.all (fun c => c < 128)
  | Edit.filament_type v => v.all (fun c => c < 128)
  | Edit.detailed_filament_type v => v.all (fun c => c < 128)
  | Edit.color_rgba v => 4 ≤ v.length
  | Edit.spool_weight_g v => 0 ≤ v && v < 65536
  | Edit.filament_diameter_mm _ => true
  | Edit.drying_temp_c v => 0 ≤ v && v < 65536
  | Edit.drying_time_h v => 0 ≤ v && v < 65536
  | Edit.bed_temp_type v => 0 ≤ v && v < 65536
  | Edit.bed_temp_c v => 0 ≤ v && v < 65536
  | Edit.max_hotend_temp_c v => 0 ≤ v && v < 65536
  | Edit.min_hotend_temp_c v => 0 ≤ v && v < 65536
  | Edit.xcam_info _ => true
  | Edit.nozzle_diameter _ => true
  | Edit.tray_uid v => v.all (fun c => c < 128)
  | Edit.spool_width_mm v => truncF (mulF100 v) < 65536
  | Edit.production_datetime v => v.all (fun c => c < 128)
  | Edit.short_production_datetime v => v.all (fun c => c < 128)
  | Edit.filament_length_m v => 0 ≤ v && v < 65536
  | Edit.color_format v => 0 ≤ v && v < 65536
  | Edit.color_count v => 0 ≤ v && v < 65536
  | Edit.secondary_color_abgr v => v.length = 0 || 4 ≤ v.length
  | Edit.rsa_signature _ => true

/-- The 16 blocks actually carrying signature bytes (`RSA_DATA_BLOCKS`
minus the two trailing blocks beyond the 256-byte signature). -/
def RSA_WRITE_BLOCKS : List Nat :=
  RSA_DATA_BLOCKS.take 16

/-- The byte range of the edited field: `editTouches e i p` holds when byte
`p` of block `i` lies inside the byte range `build_tag_blocks` writes for
the field changed by `e`. -/
def editTouches : Edit → Nat → Nat → Bool
  | Edit.uid _, i, p => i = 0 && p < 4
  | Edit.manufacturer_data _, i, p => i = 0 && 4 ≤ p && p < 16
  | Edit.material_variant_id _, i, p => i = 1 && p < 8
  | Edit.material_id _, i, p => i = 1 && 8 ≤ p && p < 16
  | Edit.filament_type _, i, p => i = 2 && p < 16
  | Edit.detailed_filament_type _, i, p => i = 4 && p < 16
  | Edit.color_rgba _, i, p => i = 5 && p < 4
  | Edit.spool_weight_g _, i, p => i = 5 && 4 ≤ p && p < 6
  | Edit.filament_diameter_mm _, i, p => i = 5 && 8 ≤ p && p < 12
  | Edit.drying_temp_c _, i, p => i = 6 && p < 2
  | Edit.drying_time_h _, i, p => i = 6 && 2 ≤ p && p < 4
  | Edit.bed_temp_type _, i, p => i = 6 && 4 ≤ p && p < 6
  | Edit.bed_temp_c _, i, p => i = 6 && 6 ≤ p && p < 8
  | Edit.max_hotend_temp_c _, i, p => i = 6 && 8 ≤ p && p < 10
  | Edit.min_hotend_temp_c _, i, p => i = 6 && 10 ≤ p && p < 12
  | Edit.xcam_info _, i, p => i = 8 && p < 12
  | Edit.nozzle_diameter _, i, p => i = 8 && 12 ≤ p && p < 16
  | Edit.tray_uid _, i, p => i = 9 && p < 16
  | Edit.spool_width_mm _, i, p => i = 10 && 4 ≤ p && p < 6
  | Edit.production_datetime _, i, p => i = 12 && p < 16
  | Edit.short_production_datetime _, i, p => i = 13 && p < 16
  | Edit.filament_length_m _, i, p => i = 14 && 4 ≤ p && p < 6
  | Edit.color_format _, i, p => i = 16 && p < 2
  | Edit.color_count _, i, p => i = 16 && 2 ≤ p && p < 4
  | Edit.secondary_color_abgr _, i, p => i = 16 && 4 ≤ p && p < 8
  | Edit.rsa_signature _, i, p => decide (i ∈ RSA_WRITE_BLOCKS) && p < 16

/-! ## Concrete fixture images and records -/

/-- The all-zero 64-block image. -/
def zeroImage : Blocks :=
  List.replicate 64 (List.replicate 16 0)

/-- An image whose block 4 carries a non-NUL byte after the first NUL —
a detail the ASCII field decode cannot represent. -/
def imgJunk : Blocks :=
  zeroImage.set 4 [65, 0, 66, 0, 0, 0, 0, 0, 0, 0, 0, 0, 0, 0, 0, 0]

/-- An image whose spool-width word is 29 (0.29 mm × 100). -/
def imgWidth29 : Blocks :=
  zeroImage.set 10 [0, 0, 0, 0, 29, 0, 0, 0, 0, 0, 0, 0, 0, 0, 0, 0]

/-- An image whose filament-diameter f32 region carries a signaling-NaN
pattern (`0100807f` little-endian). -/
def imgSNaN : Blocks :=
  zeroImage.set 5 [0, 0, 0, 0, 0, 0, 0, 0, 0x01, 0x00, 0x80, 0x7f, 0, 0, 0, 0]

/-- A canonical synthetic image mirroring the repository's test fixture:
material ids, filament types, colour/weight/diameter, spool width 56.00 mm
and a non-trivial signature block. -/
def imgCanon : Blocks :=
  ((((((zeroImage.set 0
    [0x7A, 0xD4, 0x3F, 0x1C, 0x88, 0x04, 0, 0, 0, 0, 0, 0, 0, 0, 0, 0]).set 1
    [65, 53, 48, 45, 75, 48, 0, 0, 71, 70, 65, 48, 48, 0, 0, 0]).set 2
    [80, 76, 65, 0, 0, 0, 0, 0, 0, 0, 0, 0, 0, 0, 0, 0]).set 4
    [80, 76, 65, 32, 66, 97, 115, 105, 99, 0, 0, 0, 0, 0, 0, 0]).set 5
    [255, 255, 255, 255, 232, 3, 0, 0, 0, 0, 0xE0, 0x3F, 0, 0, 0, 0]).set 10
    [0, 0, 0, 0, 0xE0, 0x15, 0, 0, 0, 0, 0, 0, 0, 0, 0, 0]).set 42
    (List.replicate 16 7)

/-- A record holding a full raw image but `color_format = 0` and a
user-supplied secondary colour. -/
def fdSecondaryStray : FilamentData :=
  { raw_blocks := zeroImage, color_format := 0, secondary_color_abgr := [1, 2, 3, 4] }

/-- Two records with identical raw block arrays but different
`filament_type` fields. -/
def fdPlain : FilamentData :=
  { raw_blocks := zeroImage }

/-- Companion of `fdPlain`: same raw blocks, different filament type. -/
def fdPETG : FilamentData :=
  { raw_blocks := zeroImage, filament_type := [80, 69, 84, 71] }

/-! ## Validity and canonicity predicates for tag images -/

/-- A structurally valid image: 64 blocks, 16 bytes each, true byte values. -/
def validImage (b : Blocks) : Prop :=
  b.length = 64 ∧ ∀ blk ∈ b, blk.length = 16 ∧ ∀ x ∈ blk, x < 256

instance : DecidablePred validImage := fun b => by
  unfold validImage; infer_instance

/-- The bytes parsed out of an ASCII field region: split at the first NUL,
decode with replacement, strip whitespace. -/
def asciiRound (bs : List Nat) : List Nat :=
  pyStrip (decodeAsciiReplace (bs.takeWhile (fun b => b ≠ 0)))

/-- A canonical ASCII field region: a pure-ASCII, NUL-free text without
leading or trailing whitespace, right-padded with NUL bytes.  Exactly the
regions that survive the parse/build round trip byte-for-byte. -/
def canonAscii (bs : List Nat) : Bool :=
  let s := bs.takeWhile (fun b => b ≠ 0)
  s.all (fun c => c < 128) && (pyStrip s == s) &&
    (bs.drop s.length == List.replicate (bs.length - s.length) 0)

/-- Canonicity of the seven ASCII field regions of an image. -/
def canonImage (b : Blocks) : Prop :=
  canonAscii (getSlice (b.getD 1 []) 0 8) = true ∧
  canonAscii (getSlice (b.getD 1 []) 8 16) = true ∧
  canonAscii (getSlice (b.getD 2 []) 0 16) = true ∧
  canonAscii (getSlice (b.getD 4 []) 0 16) = true ∧
  canonAscii (getSlice (b.getD 9 []) 0 16) = true ∧
  canonAscii (getSlice (b.getD 12 []) 0 16) = true ∧
  canonAscii (getSlice (b.getD 13 []) 0 16) = true

instance : DecidablePred canonImage := fun b => by
  unfold canonImage; infer_instance

/-- The spool-width word of an image survives CPython's
`/ 100.0` … `* 100` … `int(…)` round trip (true for most, but not all,
u16 values). -/
def widthStable (b : Blocks) : Prop :=
  pyWidthRoundTrip (readU16 (b.getD 10 []) 4).toNat = (readU16 (b.getD 10 []) 4).toNat

instance : DecidablePred widthStable := fun b => by
  unfold widthStable; infer_instance

/-- The two f32 regions of an image (filament diameter, nozzle diameter)
survive the `struct.unpack("<f")` / `struct.pack("<f")` round trip byte for
byte — true of every pattern except signaling NaNs, which CPython quiets. -/
def f32Stable (b : Blocks) : Prop :=
  quietF32 (getSlice (b.getD 5 []) 8 12) = getSlice (b.getD 5 []) 8 12 ∧
  quietF32 (getSlice (b.getD 8 []) 12 16) = getSlice (b.getD 8 []) 12 16

instance : DecidablePred f32Stable := fun b => by
  unfold f32Stable; infer_instance

/-! ## Lemmas: list toolkit -/

theorem take_takeWhile_length {α : Type} (p : α → Bool) :
    ∀ l : List α, l.take (l.takeWhile p).length = l.takeWhile p := by
  intro l
  induction l with
  | nil => simp
  | cons a l ih =>
    by_cases h : p a
    · simp [List.takeWhile_cons, h, ih]
    · simp [List.takeWhile_cons, h]

theorem takeWhile_append_all {α : Type} (p : α → Bool) (s r : List α)
    (h : ∀ x ∈ s, p x = true) : (s ++ r).takeWhile p = s ++ r.takeWhile p := by
  induction s with
  | nil => simp
  | cons a s ih =>
    simp only [List.cons_append, List.takeWhile_cons]
    rw [h a (by simp), ih (fun x hx => h x (by simp [hx]))]
    simp

theorem takeWhile_replicate_zero (k : Nat) :
    (List.replicate k 0).takeWhile (fun b : Nat => b ≠ 0) = [] := by
  cases k <;> simp [List.replicate, List.takeWhile_cons]

theorem set_getD_self : ∀ (l : Blocks) (i : Nat), l.set i (l.getD i []) = l := by
  intro l
  induction l with
  | nil => intro i; simp
  | cons a l ih =>
    intro i
    cases i with
    | zero => simp
    | succ j => simpa using ih j

theorem setSlice_self (l : List Nat) (s t : Nat) (hs : s ≤ t) :
    setSlice l s t (getSlice l s t) = l := by
  unfold setSlice getSlice
  have h1 : (l.drop s).take (t - s) ++ l.drop t = l.drop s := by
    have : l.drop t = (l.drop s).drop (t - s) := by
      rw [List.drop_drop]
      congr 1
      omega
    rw [this, List.take_append_drop]
  rw [List.append_assoc, h1, List.take_append_drop]

theorem wr_id (bs : Blocks) (i s t : Nat) (v : List Nat) (hs : s ≤ t)
    (hv : v = getSlice (bs.getD i []) s t) : wr i s t v bs = bs := by
  unfold wr upd
  rw [hv]
  show bs.set i (setSlice (bs.getD i []) s t (getSlice (bs.getD i []) s t)) = bs
  rw [setSlice_self _ _ _ hs, set_getD_self]

theorem getD_lt_256 (blk : List Nat) (h : ∀ x ∈ blk, x < 256) (i : Nat) :
    blk.getD i 0 < 256 := by
  by_cases hi : i < blk.length
  · rw [List.getD_eq_getElem blk 0 hi]
    exact h _ (List.getElem_mem hi)
  · rw [List.getD_eq_default blk 0 (by omega)]
    omega

theorem u16le_readU16 (blk : List Nat) (off : Nat) (h : ∀ x ∈ blk, x < 256) :
    u16le (readU16 blk off) = some [blk.getD off 0, blk.getD (off + 1) 0] := by
  have h0 := getD_lt_256 blk h off
  have h1 := getD_lt_256 blk h (off + 1)
  unfold u16le readU16
  rw [if_pos (by constructor <;> omega)]
  congr 1
  have : ((blk.getD off 0 : Int) + 256 * (blk.getD (off + 1) 0 : Int)).toNat
      = blk.getD off 0 + 256 * blk.getD (off + 1) 0 := by omega
  rw [this]
  congr 1
  · omega
  · congr 1
    omega

theorem validImage_block (b : Blocks) (hv : validImage b) (i : Nat) (hi : i < 64) :
    (b.getD i []).length = 16 ∧ ∀ x ∈ b.getD i [], x < 256 := by
  obtain ⟨hlen, hall⟩ := hv
  have hmem : b.getD i [] ∈ b := by
    rw [List.getD_eq_getElem _ _ (by omega)]
    exact List.getElem_mem _
  exact hall _ hmem

theorem asciiRound_canon (bs : List Nat) (h : canonAscii bs = true) :
    asciiRound bs = bs.takeWhile (fun b => b ≠ 0) := by
  unfold canonAscii at h
  simp only [Bool.and_eq_true, beq_iff_eq, List.all_eq_true, decide_eq_true_eq] at h
  obtain ⟨⟨hascii, hstrip⟩, -⟩ := h
  unfold asciiRound decodeAsciiReplace
  rw [List.map_congr_left (fun c hc => if_pos (hascii c hc))]
  simpa using hstrip

theorem encodeAscii_asciiRound (bs : List Nat) (h : canonAscii bs = true) :
    encodeAscii (asciiRound bs) = some (bs.takeWhile (fun b => b ≠ 0)) := by
  rw [asciiRound_canon bs h]
  unfold canonAscii at h
  simp only [Bool.and_eq_true, beq_iff_eq, List.all_eq_true, decide_eq_true_eq] at h
  unfold encodeAscii
  rw [if_pos]
  simp only [List.all_eq_true, decide_eq_true_eq]
  exact h.1.1

theorem takeWhile_length_le {α : Type} (p : α → Bool) (l : List α) :
    (l.takeWhile p).length ≤ l.length := by
  conv_rhs => rw [← List.takeWhile_append_dropWhile p l]
  simp only [List.length_append]
  omega

theorem canon_region_split (bs : List Nat) (h : canonAscii bs = true) :
    bs = bs.takeWhile (fun b => b ≠ 0) ++
      List.replicate (bs.length - (bs.takeWhile (fun b => b ≠ 0)).length) 0 := by
  unfold canonAscii at h
  simp only [Bool.and_eq_true, beq_iff_eq, List.all_eq_true, decide_eq_true_eq] at h
  conv_lhs => rw [← List.take_append_drop (bs.takeWhile (fun b => b ≠ 0)).length bs]
  rw [take_takeWhile_length, h.2]

theorem padTo_take_self (v : List Nat) (n : Nat) (h : v.length = n) :
    padTo n (v.take n) = v := by
  rw [List.take_of_length_le (le_of_eq h), padTo]
  simp [h]

theorem padTo_asciiRound (bs : List Nat) (n : Nat) (h : canonAscii bs = true)
    (hl : bs.length = n) :
    padTo n ((bs.takeWhile (fun b => b ≠ 0)).take n) = bs := by
  have hle : (bs.takeWhile (fun b => b ≠ 0)).length ≤ n :=
    hl ▸ takeWhile_length_le _ bs
  rw [List.take_of_length_le hle, padTo]
  conv_rhs => rw [canon_region_split bs h]
  rw [hl]

theorem getSlice_length (l : List Nat) (s t : Nat) (hst : s ≤ t) (ht : t ≤ l.length) :
    (getSlice l s t).length = t - s := by
  simp only [getSlice, List.length_take, List.length_drop]
  omega

theorem getSlice_ne_nil (l : List Nat) (s t : Nat) (hst : s < t) (ht : t ≤ l.length) :
    getSlice l s t ≠ [] := by
  have := getSlice_length l s t (by omega) ht
  intro hc
  rw [hc] at this
  simp at this
  omega

/-! ## Lemmas: the field values extracted by `parseFields` -/

theorem parseFields_uid (b : Blocks) :
    (parseFields b).uid = getSlice (b.getD 0 []) 0 4 := rfl

theorem parseFields_mfr (b : Blocks) :
    (parseFields b).manufacturer_data = getSlice (b.getD 0 []) 4 16 := rfl

theorem parseFields_mvid (b : Blocks) :
    (parseFields b).material_variant_id = readString (b.getD 1 []) 0 8 := rfl

theorem parseFields_mid (b : Blocks) :
    (parseFields b).material_id = readString (b.getD 1 []) 8 8 := rfl

theorem parseFields_ftype (b : Blocks) :
    (parseFields b).filament_type = readString (b.getD 2 []) 0 16 := rfl

theorem parseFields_dtype (b : Blocks) :
    (parseFields b).detailed_filament_type = readString (b.getD 4 []) 0 16 := rfl

theorem parseFields_color (b : Blocks) :
    (parseFields b).color_rgba = getSlice (b.getD 5 []) 0 4 := rfl

theorem parseFields_weight (b : Blocks) :
    (parseFields b).spool_weight_g = readU16 (b.getD 5 []) 4 := rfl

theorem parseFields_diam (b : Blocks) :
    (parseFields b).filament_diameter_mm = F32.ofList (getSlice (b.getD 5 []) 8 12) := rfl

theorem parseFields_xcam (b : Blocks) :
    (parseFields b).xcam_info = getSlice (b.getD 8 []) 0 12 := rfl

theorem parseFields_nozzle (b : Blocks) :
    (parseFields b).nozzle_diameter = F32.ofList (getSlice (b.getD 8 []) 12 16) := rfl

theorem parseFields_tray (b : Blocks) :
    (parseFields b).tray_uid = readString (b.getD 9 []) 0 16 := rfl

theorem parseFields_width (b : Blocks) :
    (parseFields b).spool_width_mm = fl53 (readU16 (b.getD 10 []) 4).toNat 100 := rfl

theorem parseFields_pdt (b : Blocks) :
    (parseFields b).production_datetime = readString (b.getD 12 []) 0 16 := rfl

theorem parseFields_spdt (b : Blocks) :
    (parseFields b).short_production_datetime = readString (b.getD 13 []) 0 16 := rfl

theorem parseFields_length (b : Blocks) :
    (parseFields b).filament_length_m = readU16 (b.getD 14 []) 4 := rfl

theorem parseFields_cfmt (b : Blocks) :
    (parseFields b).color_format = readU16 (b.getD 16 []) 0 := rfl

theorem parseFields_ccnt (b : Blocks) :
    (parseFields b).color_count = readU16 (b.getD 16 []) 2 := rfl

theorem parseFields_secondary (b : Blocks) :
    (parseFields b).secondary_color_abgr =
      if readU16 (b.getD 16 []) 0 = 2 ∧ 8 ≤ (b.getD 16 []).length then
        getSlice (b.getD 16 []) 4 8 else [] := rfl

theorem parseFields_rsa (b : Blocks) :
    (parseFields b).rsa_signature =
      ((RSA_DATA_BLOCKS.map (fun i => b.getD i [])).flatten).take 256 := rfl

theorem parseFields_raw (b : Blocks) :
    (parseFields b).raw_blocks = b := rfl

theorem parseFields_temps (b : Blocks) :
    (parseFields b).drying_temp_c = readU16 (b.getD 6 []) 0 ∧
    (parseFields b).drying_time_h = readU16 (b.getD 6 []) 2 ∧
    (parseFields b).bed_temp_type = readU16 (b.getD 6 []) 4 ∧
    (parseFields b).bed_temp_c = readU16 (b.getD 6 []) 6 ∧
    (parseFields b).max_hotend_temp_c = readU16 (b.getD 6 []) 8 ∧
    (parseFields b).min_hotend_temp_c = readU16 (b.getD 6 []) 10 :=
  ⟨rfl, rfl, rfl, rfl, rfl, rfl⟩

/-! ## Lemmas: each build stage reproduces a canonically parsed image -/

theorem buildSector0_id (b x : Blocks) (fd : FilamentData) (hv : validImage b)
    (h1 : canonAscii (getSlice (b.getD 1 []) 0 8) = true)
    (h2 : canonAscii (getSlice (b.getD 1 []) 8 16) = true)
    (h3 : canonAscii (getSlice (b.getD 2 []) 0 16) = true)
    (ex0 : x.getD 0 [] = b.getD 0 []) (ex1 : x.getD 1 [] = b.getD 1 [])
    (ex2 : x.getD 2 [] = b.getD 2 [])
    (f1 : fd.uid = getSlice (b.getD 0 []) 0 4)
    (f2 : fd.manufacturer_data = getSlice (b.getD 0 []) 4 16)
    (f3 : fd.material_variant_id = readString (b.getD 1 []) 0 8)
    (f4 : fd.material_id = readString (b.getD 1 []) 8 8)
    (f5 : fd.filament_type = readString (b.getD 2 []) 0 16) :
    buildSector0 fd x = some x := by
  obtain ⟨hl0, -⟩ := validImage_block b hv 0 (by omega)
  obtain ⟨hl1, -⟩ := validImage_block b hv 1 (by omega)
  obtain ⟨hl2, -⟩ := validImage_block b hv 2 (by omega)
  have r1 : readString (b.getD 1 []) 0 8 = asciiRound (getSlice (b.getD 1 []) 0 8) := rfl
  have r2 : readString (b.getD 1 []) 8 8 = asciiRound (getSlice (b.getD 1 []) 8 16) := rfl
  have r3 : readString (b.getD 2 []) 0 16 = asciiRound (getSlice (b.getD 2 []) 0 16) := rfl
  have huid : getSlice (b.getD 0 []) 0 4 ≠ [] :=
    getSlice_ne_nil _ 0 4 (by omega) (by omega)
  have hmfr : getSlice (b.getD 0 []) 4 16 ≠ [] :=
    getSlice_ne_nil _ 4 16 (by omega) (by omega)
  have puid : padTo 4 ((getSlice (b.getD 0 []) 0 4).take 4) = getSlice (b.getD 0 []) 0 4 := by
    rw [padTo_take_self]
    exact getSlice_length _ 0 4 (by omega) (by omega)
  have pmfr : padTo 12 ((getSlice (b.getD 0 []) 4 16).take 12) = getSlice (b.getD 0 []) 4 16 := by
    rw [padTo_take_self]
    exact getSlice_length _ 4 16 (by omega) (by omega)
  have w1 : padTo 8 (((getSlice (b.getD 1 []) 0 8).takeWhile (fun c => c ≠ 0)).take 8)
      = getSlice (b.getD 1 []) 0 8 :=
    padTo_asciiRound _ 8 h1 (getSlice_length _ 0 8 (by omega) (by omega))
  have w2 : padTo 8 (((getSlice (b.getD 1 []) 8 16).takeWhile (fun c => c ≠ 0)).take 8)
      = getSlice (b.getD 1 []) 8 16 :=
    padTo_asciiRound _ 8 h2 (getSlice_length _ 8 16 (by omega) (by omega))
  have w3 : padTo 16 (((getSlice (b.getD 2 []) 0 16).takeWhile (fun c => c ≠ 0)).take 16)
      = getSlice (b.getD 2 []) 0 16 :=
    padTo_asciiRound _ 16 h3 (getSlice_length _ 0 16 (by omega) (by omega))
  have e1 : wr 0 0 4 (getSlice (b.getD 0 []) 0 4) x = x := by
    rw [← ex0]
    exact wr_id x 0 0 4 _ (by omega) rfl
  have e2 : wr 0 4 16 (getSlice (b.getD 0 []) 4 16) x = x := by
    rw [← ex0]
    exact wr_id x 0 4 16 _ (by omega) rfl
  have e3 : wr 1 0 8 (getSlice (b.getD 1 []) 0 8) x = x := by
    rw [← ex1]
    exact wr_id x 1 0 8 _ (by omega) rfl
  have e4 : wr 1 8 16 (getSlice (b.getD 1 []) 8 16) x = x := by
    rw [← ex1]
    exact wr_id x 1 8 16 _ (by omega) rfl
  have e5 : wr 2 0 16 (getSlice (b.getD 2 []) 0 16) x = x := by
    rw [← ex2]
    exact wr_id x 2 0 16 _ (by omega) rfl
  unfold buildSector0
  simp only [f1, f2, f3, f4, f5, r1, r2, r3,
    encodeAscii_asciiRound _ h1, encodeAscii_asciiRound _ h2,
    encodeAscii_asciiRound _ h3, huid, hmfr, ne_eq, not_false_eq_true, if_true,
    Option.bind_eq_bind, Option.some_bind, puid, pmfr, w1, w2, w3, e1, e2, e3, e4, e5,
    Option.pure_def]

theorem take_two (l : List Nat) (h : 2 ≤ l.length) : l.take 2 = [l.getD 0 0, l.getD 1 0] := by
  match l, h with
  | a :: b :: rest, _ => rfl

theorem getD_drop (l : List Nat) (s i : Nat) : (l.drop s).getD i 0 = l.getD (s + i) 0 := by
  simp [List.getD_eq_getElem?_getD, List.getElem?_drop]

theorem u16le_readU16_slice (blk : List Nat) (off : Nat) (hb : ∀ x ∈ blk, x < 256)
    (h : off + 2 ≤ blk.length) :
    u16le (readU16 blk off) = some (getSlice blk off (off + 2)) := by
  rw [u16le_readU16 blk off hb]
  congr 1
  unfold getSlice
  have h2 : off + 2 - off = 2 := by omega
  rw [h2, take_two _ (by simp [List.length_drop]; omega), getD_drop, getD_drop]
  simp

theorem F32_ofList_toList (l : List Nat) (h : l.length = 4)
    (hq : quietF32 l = l) : (F32.ofList l).toList = l := by
  have hr : (F32.ofList l).toList
      = [(quietF32 l).getD 0 0, (quietF32 l).getD 1 0,
         (quietF32 l).getD 2 0, (quietF32 l).getD 3 0] := rfl
  rw [hr, hq]
  match l, h with
  | [a, b, c, d], _ => rfl

theorem buildSector1_id (b x : Blocks) (fd : FilamentData) (hv : validImage b)
    (h4 : canonAscii (getSlice (b.getD 4 []) 0 16) = true)
    (hq5 : quietF32 (getSlice (b.getD 5 []) 8 12) = getSlice (b.getD 5 []) 8 12)
    (ex4 : x.getD 4 [] = b.getD 4 []) (ex5 : x.getD 5 [] = b.getD 5 [])
    (f1 : fd.detailed_filament_type = readString (b.getD 4 []) 0 16)
    (f2 : fd.color_rgba = getSlice (b.getD 5 []) 0 4)
    (f3 : fd.spool_weight_g = readU16 (b.getD 5 []) 4)
    (f4 : fd.filament_diameter_mm = F32.ofList (getSlice (b.getD 5 []) 8 12)) :
    buildSector1 fd x = some x := by
  obtain ⟨hl4, -⟩ := validImage_block b hv 4 (by omega)
  obtain ⟨hl5, hb5⟩ := validImage_block b hv 5 (by omega)
  have r4 : readString (b.getD 4 []) 0 16 = asciiRound (getSlice (b.getD 4 []) 0 16) := rfl
  have w4 : padTo 16 (((getSlice (b.getD 4 []) 0 16).takeWhile (fun c => c ≠ 0)).take 16)
      = getSlice (b.getD 4 []) 0 16 :=
    padTo_asciiRound _ 16 h4 (getSlice_length _ 0 16 (by omega) (by omega))
  have hcol : (getSlice (b.getD 5 []) 0 4).take 4 = getSlice (b.getD 5 []) 0 4 :=
    List.take_of_length_le (le_of_eq (getSlice_length _ 0 4 (by omega) (by omega)))
  have hwgt : u16le (readU16 (b.getD 5 []) 4) = some (getSlice (b.getD 5 []) 4 6) :=
    u16le_readU16_slice _ 4 hb5 (by omega)
  have hdia : (F32.ofList (getSlice (b.getD 5 []) 8 12)).toList = getSlice (b.getD 5 []) 8 12 :=
    F32_ofList_toList _ (getSlice_length _ 8 12 (by omega) (by omega)) hq5
  have e1 : wr 4 0 16 (getSlice (b.getD 4 []) 0 16) x = x := by
    rw [← ex4]
    exact wr_id x 4 0 16 _ (by omega) rfl
  have e2 : wr 5 0 4 (getSlice (b.getD 5 []) 0 4) x = x := by
    rw [← ex5]
    exact wr_id x 5 0 4 _ (by omega) rfl
  have e3 : wr 5 4 6 (getSlice (b.getD 5 []) 4 6) x = x := by
    rw [← ex5]
    exact wr_id x 5 4 6 _ (by omega) rfl
  have e4 : wr 5 8 12 (getSlice (b.getD 5 []) 8 12) x = x := by
    rw [← ex5]
    exact wr_id x 5 8 12 _ (by omega) rfl
  unfold buildSector1
  simp only [f1, f2, f3, f4, r4, encodeAscii_asciiRound _ h4, w4, hcol, hwgt, hdia,
    Option.bind_eq_bind, Option.some_bind, e1, e2, e3, e4, Option.pure_def]

theorem buildBlock6_id (b x : Blocks) (fd : FilamentData) (hv : validImage b)
    (ex6 : x.getD 6 [] = b.getD 6 [])
    (ht1 : fd.drying_temp_c = readU16 (b.getD 6 []) 0)
    (ht2 : fd.drying_time_h = readU16 (b.getD 6 []) 2)
    (ht3 : fd.bed_temp_type = readU16 (b.getD 6 []) 4)
    (ht4 : fd.bed_temp_c = readU16 (b.getD 6 []) 6)
    (ht5 : fd.max_hotend_temp_c = readU16 (b.getD 6 []) 8)
    (ht6 : fd.min_hotend_temp_c = readU16 (b.getD 6 []) 10) :
    buildBlock6 fd x = some x := by
  obtain ⟨hl6, hb6⟩ := validImage_block b hv 6 (by omega)
  have q1 : u16le (readU16 (b.getD 6 []) 0) = some (getSlice (b.getD 6 []) 0 2) :=
    u16le_readU16_slice _ 0 hb6 (by omega)
  have q2 : u16le (readU16 (b.getD 6 []) 2) = some (getSlice (b.getD 6 []) 2 4) :=
    u16le_readU16_slice _ 2 hb6 (by omega)
  have q3 : u16le (readU16 (b.getD 6 []) 4) = some (getSlice (b.getD 6 []) 4 6) :=
    u16le_readU16_slice _ 4 hb6 (by omega)
  have q4 : u16le (readU16 (b.getD 6 []) 6) = some (getSlice (b.getD 6 []) 6 8) :=
    u16le_readU16_slice _ 6 hb6 (by omega)
  have q5 : u16le (readU16 (b.getD 6 []) 8) = some (getSlice (b.getD 6 []) 8 10) :=
    u16le_readU16_slice _ 8 hb6 (by omega)
  have q6 : u16le (readU16 (b.getD 6 []) 10) = some (getSlice (b.getD 6 []) 10 12) :=
    u16le_readU16_slice _ 10 hb6 (by omega)
  have e1 : wr 6 0 2 (getSlice (b.getD 6 []) 0 2) x = x := by
    rw [← ex6]
    exact wr_id x 6 0 2 _ (by omega) rfl
  have e2 : wr 6 2 4 (getSlice (b.getD 6 []) 2 4) x = x := by
    rw [← ex6]
    exact wr_id x 6 2 4 _ (by omega) rfl
  have e3 : wr 6 4 6 (getSlice (b.getD 6 []) 4 6) x = x := by
    rw [← ex6]
    exact wr_id x 6 4 6 _ (by omega) rfl
  have e4 : wr 6 6 8 (getSlice (b.getD 6 []) 6 8) x = x := by
    rw [← ex6]
    exact wr_id x 6 6 8 _ (by omega) rfl
  have e5 : wr 6 8 10 (getSlice (b.getD 6 []) 8 10) x = x := by
    rw [← ex6]
    exact wr_id x 6 8 10 _ (by omega) rfl
  have e6 : wr 6 10 12 (getSlice (b.getD 6 []) 10 12) x = x := by
    rw [← ex6]
    exact wr_id x 6 10 12 _ (by omega) rfl
  unfold buildBlock6
  simp only [ht1, ht2, ht3, ht4, ht5, ht6, q1, q2, q3, q4, q5, q6,
    Option.bind_eq_bind, Option.some_bind, e1, e2, e3, e4, e5, e6, Option.pure_def]

theorem readU16_nonneg (blk : List Nat) (off : Nat) : 0 ≤ readU16 blk off := by
  unfold readU16
  positivity

theorem buildSector2_id (b x : Blocks) (fd : FilamentData) (hv : validImage b)
    (h5 : canonAscii (getSlice (b.getD 9 []) 0 16) = true)
    (hw : widthStable b)
    (hq8 : quietF32 (getSlice (b.getD 8 []) 12 16) = getSlice (b.getD 8 []) 12 16)
    (ex8 : x.getD 8 [] = b.getD 8 []) (ex9 : x.getD 9 [] = b.getD 9 [])
    (ex10 : x.getD 10 [] = b.getD 10 [])
    (f1 : fd.xcam_info = getSlice (b.getD 8 []) 0 12)
    (f2 : fd.nozzle_diameter = F32.ofList (getSlice (b.getD 8 []) 12 16))
    (f3 : fd.tray_uid = readString (b.getD 9 []) 0 16)
    (f4 : fd.spool_width_mm = fl53 (readU16 (b.getD 10 []) 4).toNat 100) :
    buildSector2 fd x = some x := by
  obtain ⟨hl8, -⟩ := validImage_block b hv 8 (by omega)
  obtain ⟨hl9, -⟩ := validImage_block b hv 9 (by omega)
  obtain ⟨hl10, hb10⟩ := validImage_block b hv 10 (by omega)
  have hx : getSlice (b.getD 8 []) 0 12 ≠ [] := getSlice_ne_nil _ 0 12 (by omega) (by omega)
  have px : padTo 12 ((getSlice (b.getD 8 []) 0 12).take 12) = getSlice (b.getD 8 []) 0 12 := by
    rw [padTo_take_self]
    exact getSlice_length _ 0 12 (by omega) (by omega)
  have hnoz : (F32.ofList (getSlice (b.getD 8 []) 12 16)).toList = getSlice (b.getD 8 []) 12 16 :=
    F32_ofList_toList _ (getSlice_length _ 12 16 (by omega) (by omega)) hq8
  have r5 : readString (b.getD 9 []) 0 16 = asciiRound (getSlice (b.getD 9 []) 0 16) := rfl
  have w5 : padTo 16 (((getSlice (b.getD 9 []) 0 16).takeWhile (fun c => c ≠ 0)).take 16)
      = getSlice (b.getD 9 []) 0 16 :=
    padTo_asciiRound _ 16 h5 (getSlice_length _ 0 16 (by omega) (by omega))
  have hwid : (truncF (mulF100 (fl53 (readU16 (b.getD 10 []) 4).toNat 100)) : Int)
      = readU16 (b.getD 10 []) 4 := by
    have := hw
    unfold widthStable pyWidthRoundTrip at this
    rw [this]
    exact Int.toNat_of_nonneg (readU16_nonneg _ _)
  have hwv : u16le (readU16 (b.getD 10 []) 4) = some (getSlice (b.getD 10 []) 4 6) :=
    u16le_readU16_slice _ 4 hb10 (by omega)
  have e1 : wr 8 0 12 (getSlice (b.getD 8 []) 0 12) x = x := by
    rw [← ex8]
    exact wr_id x 8 0 12 _ (by omega) rfl
  have e2 : wr 8 12 16 (getSlice (b.getD 8 []) 12 16) x = x := by
    rw [← ex8]
    exact wr_id x 8 12 16 _ (by omega) rfl
  have e3 : wr 9 0 16 (getSlice (b.getD 9 []) 0 16) x = x := by
    rw [← ex9]
    exact wr_id x 9 0 16 _ (by omega) rfl
  have e4 : wr 10 4 6 (getSlice (b.getD 10 []) 4 6) x = x := by
    rw [← ex10]
    exact wr_id x 10 4 6 _ (by omega) rfl
  unfold buildSector2
  simp only [f1, f2, f3, f4,
    hx, ne_eq, not_false_eq_true, if_true, px, hnoz, r5, encodeAscii_asciiRound _ h5, w5,
    hwid, hwv, Option.bind_eq_bind, Option.some_bind, e1, e2, e3, e4, Option.pure_def]

theorem buildSector3_id (b x : Blocks) (fd : FilamentData) (hv : validImage b)
    (h6 : canonAscii (getSlice (b.getD 12 []) 0 16) = true)
    (h7 : canonAscii (getSlice (b.getD 13 []) 0 16) = true)
    (ex12 : x.getD 12 [] = b.getD 12 []) (ex13 : x.getD 13 [] = b.getD 13 [])
    (ex14 : x.getD 14 [] = b.getD 14 [])
    (f1 : fd.production_datetime = readString (b.getD 12 []) 0 16)
    (f2 : fd.short_production_datetime = readString (b.getD 13 []) 0 16)
    (f3 : fd.filament_length_m = readU16 (b.getD 14 []) 4) :
    buildSector3 fd x = some x := by
  obtain ⟨hl12, -⟩ := validImage_block b hv 12 (by omega)
  obtain ⟨hl13, -⟩ := validImage_block b hv 13 (by omega)
  obtain ⟨hl14, hb14⟩ := validImage_block b hv 14 (by omega)
  have r6 : readString (b.getD 12 []) 0 16 = asciiRound (getSlice (b.getD 12 []) 0 16) := rfl
  have r7 : readString (b.getD 13 []) 0 16 = asciiRound (getSlice (b.getD 13 []) 0 16) := rfl
  have w6 : padTo 16 (((getSlice (b.getD 12 []) 0 16).takeWhile (fun c => c ≠ 0)).take 16)
      = getSlice (b.getD 12 []) 0 16 :=
    padTo_asciiRound _ 16 h6 (getSlice_length _ 0 16 (by omega) (by omega))
  have w7 : padTo 16 (((getSlice (b.getD 13 []) 0 16).takeWhile (fun c => c ≠ 0)).take 16)
      = getSlice (b.getD 13 []) 0 16 :=
    padTo_asciiRound _ 16 h7 (getSlice_length _ 0 16 (by omega) (by omega))
  have hlen : u16le (readU16 (b.getD 14 []) 4) = some (getSlice (b.getD 14 []) 4 6) :=
    u16le_readU16_slice _ 4 hb14 (by omega)
  have e1 : wr 12 0 16 (getSlice (b.getD 12 []) 0 16) x = x := by
    rw [← ex12]
    exact wr_id x 12 0 16 _ (by omega) rfl
  have e2 : wr 13 0 16 (getSlice (b.getD 13 []) 0 16) x = x := by
    rw [← ex13]
    exact wr_id x 13 0 16 _ (by omega) rfl
  have e3 : wr 14 4 6 (getSlice (b.getD 14 []) 4 6) x = x := by
    rw [← ex14]
    exact wr_id x 14 4 6 _ (by omega) rfl
  unfold buildSector3
  simp only [f1, f2, f3, r6, r7,
    encodeAscii_asciiRound _ h6, encodeAscii_asciiRound _ h7, w6, w7, hlen,
    Option.bind_eq_bind, Option.some_bind, e1, e2, e3, Option.pure_def]

theorem buildSector4_id (b x : Blocks) (fd : FilamentData) (hv : validImage b)
    (ex16 : x.getD 16 [] = b.getD 16 [])
    (f1 : fd.color_format = readU16 (b.getD 16 []) 0)
    (f2 : fd.color_count = readU16 (b.getD 16 []) 2)
    (f3 : fd.secondary_color_abgr =
      (if readU16 (b.getD 16 []) 0 = 2 ∧ 8 ≤ (b.getD 16 []).length then
        getSlice (b.getD 16 []) 4 8 else [])) :
    buildSector4 fd x = some x := by
  obtain ⟨hl16, hb16⟩ := validImage_block b hv 16 (by omega)
  have qf : u16le (readU16 (b.getD 16 []) 0) = some (getSlice (b.getD 16 []) 0 2) :=
    u16le_readU16_slice _ 0 hb16 (by omega)
  have qc : u16le (readU16 (b.getD 16 []) 2) = some (getSlice (b.getD 16 []) 2 4) :=
    u16le_readU16_slice _ 2 hb16 (by omega)
  have e1 : wr 16 0 2 (getSlice (b.getD 16 []) 0 2) x = x := by
    rw [← ex16]
    exact wr_id x 16 0 2 _ (by omega) rfl
  have e2 : wr 16 2 4 (getSlice (b.getD 16 []) 2 4) x = x := by
    rw [← ex16]
    exact wr_id x 16 2 4 _ (by omega) rfl
  unfold buildSector4
  by_cases hfmt : readU16 (b.getD 16 []) 0 = 2 ∧ 8 ≤ (b.getD 16 []).length
  · have hsec : fd.secondary_color_abgr = getSlice (b.getD 16 []) 4 8 := by
      rw [f3, if_pos hfmt]
    have hne : getSlice (b.getD 16 []) 4 8 ≠ [] := getSlice_ne_nil _ 4 8 (by omega) (by omega)
    have htk : (getSlice (b.getD 16 []) 4 8).take 4 = getSlice (b.getD 16 []) 4 8 :=
      List.take_of_length_le (le_of_eq (getSlice_length _ 4 8 (by omega) (by omega)))
    have e3 : wr 16 4 8 (getSlice (b.getD 16 []) 4 8) x = x := by
      rw [← ex16]
      exact wr_id x 16 4 8 _ (by omega) rfl
    simp only [f1, f2, hsec, qf, qc, hne, ne_eq,
      not_false_eq_true, if_true, htk, Option.bind_eq_bind, Option.some_bind,
      e1, e2, e3, Option.pure_def]
  · have hsec : fd.secondary_color_abgr = [] := by
      rw [f3, if_neg hfmt]
    simp only [f1, f2, hsec, qf, qc, ne_eq,
      not_true_eq_false, if_false, Option.bind_eq_bind, Option.some_bind,
      e1, e2, Option.pure_def]

/-! ## Lemmas: the RSA write loop -/

theorem flatten_chunk : ∀ (L : List (List Nat)) (k : Nat),
    (∀ x ∈ L, x.length = 16) → k < L.length →
    (L.flatten.drop (16 * k)).take 16 = L.getD k [] := by
  intro L
  induction L with
  | nil => intro k _ hk; simp at hk
  | cons x L ih =>
    intro k hall hk
    have hx : x.length = 16 := hall x (by simp)
    cases k with
    | zero =>
      simp only [List.flatten_cons, Nat.mul_zero, List.drop_zero]
      rw [List.take_left' hx]
      rfl
    | succ j =>
      have hd : (x ++ L.flatten).drop (16 * (j + 1)) = L.flatten.drop (16 * j) := by
        have h1 : ((x ++ L.flatten).drop 16).drop (16 * j) = (x ++ L.flatten).drop (16 + 16 * j) :=
          List.drop_drop _ _ _
        have h2 : (x ++ L.flatten).drop 16 = L.flatten := List.drop_left' hx
        rw [h2] at h1
        rw [show 16 * (j + 1) = 16 + 16 * j from by ring, ← h1]
      simp only [List.flatten_cons, hd]
      rw [ih j (fun y hy => hall y (by simp [hy])) (by simpa using hk)]
      rfl

theorem take256_chunk (l : List Nat) (s : Nat) (h : s + 16 ≤ 256) :
    ((l.take 256).drop s).take 16 = (l.drop s).take 16 := by
  rw [List.drop_take, List.take_take]
  congr 1
  omega

theorem rsa_map_all16 (b : Blocks) (hv : validImage b) :
    ∀ x ∈ RSA_DATA_BLOCKS.map (fun i => b.getD i []), x.length = 16 := by
  intro x hx
  obtain ⟨i, hi, rfl⟩ := List.mem_map.mp hx
  have hi64 : i < 64 := by
    have hj : ∀ j ∈ RSA_DATA_BLOCKS, j < 64 := by decide
    exact hj i hi
  exact (validImage_block b hv i hi64).1

theorem rsa_flatten_length (b : Blocks) (hv : validImage b) :
    ((RSA_DATA_BLOCKS.map (fun i => b.getD i [])).flatten).length = 288 := by
  rw [List.length_flatten]
  have h1 : (RSA_DATA_BLOCKS.map (fun i => b.getD i [])).map List.length
      = RSA_DATA_BLOCKS.map (fun _ => 16) := by
    rw [List.map_map]
    exact List.map_congr_left (fun i hi => by
      have hi64 : i < 64 := by
        have hj : ∀ j ∈ RSA_DATA_BLOCKS, j < 64 := by decide
        exact hj i hi
      exact (validImage_block b hv i hi64).1)
  rw [h1]
  decide

theorem rsaWrite_parse_id (b x : Blocks) (hv : validImage b)
    (hxr : ∀ j ∈ RSA_DATA_BLOCKS, x.getD j [] = b.getD j []) :
    rsaWrite (((RSA_DATA_BLOCKS.map (fun i => b.getD i [])).flatten).take 256) x = x := by
  have hall := rsa_map_all16 b hv
  have hflat := rsa_flatten_length b hv
  have hRlen : RSA_DATA_BLOCKS.length = 18 := by decide
  have hchunk : ∀ k blk, 16 * k + 16 ≤ 256 → k < 18 →
      (RSA_DATA_BLOCKS.map (fun i => b.getD i [])).getD k [] = b.getD blk [] →
      (((((RSA_DATA_BLOCKS.map (fun i => b.getD i [])).flatten).take 256).drop (16 * k)).take 16)
        = b.getD blk [] := by
    intro k blk hk hk18 hgd
    rw [take256_chunk _ _ hk,
      flatten_chunk _ k hall (by rw [List.length_map, hRlen]; omega), hgd]
  have hsl : (((RSA_DATA_BLOCKS.map (fun i => b.getD i [])).flatten).take 256).length = 256 := by
    rw [List.length_take, hflat]
    omega
  have hdrop : ∀ s, 256 ≤ s →
      (((((RSA_DATA_BLOCKS.map (fun i => b.getD i [])).flatten).take 256).drop s).take 16)
        = ([] : List Nat) := by
    intro s hs
    rw [List.drop_of_length_le (by omega), List.take_nil]
  have c0 := hchunk 0 40 (by omega) (by omega) rfl
  have c1 := hchunk 1 41 (by omega) (by omega) rfl
  have c2 := hchunk 2 42 (by omega) (by omega) rfl
  have c3 := hchunk 3 44 (by omega) (by omega) rfl
  have c4 := hchunk 4 45 (by omega) (by omega) rfl
  have c5 := hchunk 5 46 (by omega) (by omega) rfl
  have c6 := hchunk 6 48 (by omega) (by omega) rfl
  have c7 := hchunk 7 49 (by omega) (by omega) rfl
  have c8 := hchunk 8 50 (by omega) (by omega) rfl
  have c9 := hchunk 9 52 (by omega) (by omega) rfl
  have c10 := hchunk 10 53 (by omega) (by omega) rfl
  have c11 := hchunk 11 54 (by omega) (by omega) rfl
  have c12 := hchunk 12 56 (by omega) (by omega) rfl
  have c13 := hchunk 13 57 (by omega) (by omega) rfl
  have c14 := hchunk 14 58 (by omega) (by omega) rfl
  have c15 := hchunk 15 60 (by omega) (by omega) rfl
  have c16 := hdrop (16 * 16) (by omega)
  have c17 := hdrop (16 * 17) (by omega)
  have hlen16 : ∀ i, i < 64 → (b.getD i []).length = 16 := fun i hi =>
    (validImage_block b hv i hi).1
  have hset : ∀ j, j ∈ RSA_DATA_BLOCKS → x.set j (b.getD j []) = x := by
    intro j hj
    rw [← hxr j hj]
    exact set_getD_self x j
  have s40 := hset 40 (by decide)
  have s41 := hset 41 (by decide)
  have s42 := hset 42 (by decide)
  have s44 := hset 44 (by decide)
  have s45 := hset 45 (by decide)
  have s46 := hset 46 (by decide)
  have s48 := hset 48 (by decide)
  have s49 := hset 49 (by decide)
  have s50 := hset 50 (by decide)
  have s52 := hset 52 (by decide)
  have s53 := hset 53 (by decide)
  have s54 := hset 54 (by decide)
  have s56 := hset 56 (by decide)
  have s57 := hset 57 (by decide)
  have s58 := hset 58 (by decide)
  have s60 := hset 60 (by decide)
  have henum : RSA_DATA_BLOCKS.enum =
      [(0, 40), (1, 41), (2, 42), (3, 44), (4, 45), (5, 46), (6, 48), (7, 49), (8, 50),
       (9, 52), (10, 53), (11, 54), (12, 56), (13, 57), (14, 58), (15, 60), (16, 61), (17, 62)] := by
    decide
  unfold rsaWrite
  rw [henum]
  simp only [rsaStep, List.foldl_cons, List.foldl_nil, c0, c1, c2, c3, c4, c5, c6, c7, c8, c9,
    c10, c11, c12, c13, c14, c15, c16, c17,
    hlen16 40 (by omega), hlen16 41 (by omega), hlen16 42 (by omega), hlen16 44 (by omega),
    hlen16 45 (by omega), hlen16 46 (by omega), hlen16 48 (by omega), hlen16 49 (by omega),
    hlen16 50 (by omega), hlen16 52 (by omega), hlen16 53 (by omega), hlen16 54 (by omega),
    hlen16 56 (by omega), hlen16 57 (by omega), hlen16 58 (by omega), hlen16 60 (by omega),
    List.length_nil, if_true, s40, s41, s42, s44, s45, s46, s48, s49, s50, s52, s53, s54,
    s56, s57, s58, s60]
  simp

theorem rsa_stage_idg (b x : Blocks) (fd : FilamentData) (hv : validImage b)
    (hxr : ∀ j ∈ RSA_DATA_BLOCKS, x.getD j [] = b.getD j [])
    (f1 : fd.rsa_signature = ((RSA_DATA_BLOCKS.map (fun i => b.getD i [])).flatten).take 256) :
    buildRsa fd x = x := by
  have hflat := rsa_flatten_length b hv
  have hsl : (fd.rsa_signature).length = 256 := by
    rw [f1, List.length_take, hflat]
    omega
  have hne : fd.rsa_signature ≠ [] := by
    intro hcon
    rw [hcon] at hsl
    simp at hsl
  unfold buildRsa
  rw [if_pos hne, padTo_take_self _ _ hsl, f1, rsaWrite_parse_id b x hv hxr]

/-! ## Frame lemmas: what a slice write leaves unchanged -/

theorem getD_set_ne (l : Blocks) (i j : Nat) (v : List Nat) (h : i ≠ j) :
    (l.set i v).getD j [] = l.getD j [] := by
  simp [List.getD_eq_getElem?_getD, List.getElem?_set_ne h]

theorem getD_set_self (l : Blocks) (i : Nat) (v : List Nat) (h : i < l.length) :
    (l.set i v).getD i [] = v := by
  simp [List.getD_eq_getElem?_getD, List.getElem?_set_self, h]

theorem wr_getD_ne (x : Blocks) (i s t : Nat) (v : List Nat) (j : Nat) (h : i ≠ j) :
    (wr i s t v x).getD j [] = x.getD j [] := by
  unfold wr upd
  exact getD_set_ne _ _ _ _ h

theorem wr_getD_self (x : Blocks) (i s t : Nat) (v : List Nat) (h : i < x.length) :
    (wr i s t v x).getD i [] = setSlice (x.getD i []) s t v := by
  unfold wr upd
  exact getD_set_self _ _ _ h

theorem wr_length (x : Blocks) (i s t : Nat) (v : List Nat) :
    (wr i s t v x).length = x.length := by
  unfold wr upd
  simp

theorem setSlice_length (blk : List Nat) (s t : Nat) (V : List Nat)
    (hV : V.length = t - s) (hst : s ≤ t) (ht : t ≤ blk.length) :
    (setSlice blk s t V).length = blk.length := by
  simp only [setSlice, List.length_append, List.length_take, List.length_drop, hV]
  omega

theorem getSlice_setSlice_right (blk : List Nat) (s t s2 t2 : Nat) (V : List Nat)
    (hV : V.length = t - s) (hst : s ≤ t) (ht : t ≤ blk.length) (h : t ≤ s2) :
    getSlice (setSlice blk s t V) s2 t2 = getSlice blk s2 t2 := by
  unfold setSlice getSlice
  have hA : (blk.take s ++ V).length = t := by
    simp only [List.length_append, List.length_take]
    omega
  have hd : ((blk.take s ++ V) ++ blk.drop t).drop t = blk.drop t := List.drop_left' hA
  have key : ((blk.take s ++ V) ++ blk.drop t).drop s2 = blk.drop s2 := by
    calc ((blk.take s ++ V) ++ blk.drop t).drop s2
        = ((blk.take s ++ V) ++ blk.drop t).drop (t + (s2 - t)) := by congr 1; omega
      _ = (((blk.take s ++ V) ++ blk.drop t).drop t).drop (s2 - t) :=
          (List.drop_drop (s2 - t) t _).symm
      _ = (blk.drop t).drop (s2 - t) := by rw [hd]
      _ = blk.drop (t + (s2 - t)) := List.drop_drop _ _ _
      _ = blk.drop s2 := by congr 1; omega
  rw [key]

theorem getSlice_setSlice_left (blk : List Nat) (s t s2 t2 : Nat) (V : List Nat)
    (hst : s ≤ t) (ht : t ≤ blk.length) (h : t2 ≤ s) (hs2 : s2 ≤ t2) :
    getSlice (setSlice blk s t V) s2 t2 = getSlice blk s2 t2 := by
  unfold setSlice getSlice
  rw [List.append_assoc,
    List.drop_append_of_le_length (by simp only [List.length_take]; omega),
    List.take_append_of_le_length (by simp only [List.length_drop, List.length_take]; omega),
    List.drop_take, List.take_take]
  congr 1
  omega

theorem getSlice_one (blk : List Nat) (p : Nat) (h : p < blk.length) :
    getSlice blk p (p + 1) = [blk.getD p 0] := by
  unfold getSlice
  have h1 : p + 1 - p = 1 := by omega
  rw [h1]
  have h2 : 1 ≤ (blk.drop p).length := by
    simp only [List.length_drop]
    omega
  match hd : blk.drop p, h2 with
  | a :: rest, _ =>
    have hg : (blk.drop p).getD 0 0 = blk.getD p 0 := by
      rw [getD_drop, Nat.add_zero]
    rw [hd] at hg
    simp only [List.take_succ_cons, List.take_zero]
    rw [← hg]
    rfl

theorem setSlice_getD_outside (blk : List Nat) (s t : Nat) (V : List Nat)
    (hV : V.length = t - s) (hst : s ≤ t) (ht : t ≤ blk.length)
    (p : Nat) (hp : p < s ∨ t ≤ p) :
    (setSlice blk s t V).getD p 0 = blk.getD p 0 := by
  have hlen := setSlice_length blk s t V hV hst ht
  by_cases hpl : p < blk.length
  · have h1 : getSlice (setSlice blk s t V) p (p + 1) = getSlice blk p (p + 1) := by
      rcases hp with hp | hp
      · exact getSlice_setSlice_left blk s t p (p + 1) V hst ht (by omega) (by omega)
      · exact getSlice_setSlice_right blk s t p (p + 1) V hV hst ht (by omega)
    rw [getSlice_one _ _ (by omega), getSlice_one _ _ hpl] at h1
    exact List.head_eq_of_cons_eq h1
  · rw [List.getD_eq_default _ _ (by omega), List.getD_eq_default _ _ (by omega)]

/-! ## Evaluation lemmas: the symbolic output of each build stage -/

theorem buildSector0_eval (fd : FilamentData) (x : Blocks) (mv mi ft : List Nat)
    (hmv : encodeAscii fd.material_variant_id = some mv)
    (hmi : encodeAscii fd.material_id = some mi)
    (hft : encodeAscii fd.filament_type = some ft) :
    buildSector0 fd x = some
      (wr 2 0 16 (padTo 16 (ft.take 16))
        (wr 1 8 16 (padTo 8 (mi.take 8))
          (wr 1 0 8 (padTo 8 (mv.take 8))
            (if fd.manufacturer_data ≠ [] then
              wr 0 4 16 (padTo 12 (fd.manufacturer_data.take 12))
                (if fd.uid ≠ [] then wr 0 0 4 (padTo 4 (fd.uid.take 4)) x else x)
             else (if fd.uid ≠ [] then wr 0 0 4 (padTo 4 (fd.uid.take 4)) x else x))))) := by
  unfold buildSector0
  rw [hmv, hmi, hft]
  rfl

theorem buildSector1_eval (fd : FilamentData) (x : Blocks) (dt wgt : List Nat)
    (hdt : encodeAscii fd.detailed_filament_type = some dt)
    (hwgt : u16le fd.spool_weight_g = some wgt) :
    buildSector1 fd x = some
      (wr 5 8 12 fd.filament_diameter_mm.toList
        (wr 5 4 6 wgt
          (wr 5 0 4 (fd.color_rgba.take 4)
            (wr 4 0 16 (padTo 16 (dt.take 16)) x)))) := by
  unfold buildSector1
  rw [hdt, hwgt]
  rfl

theorem buildBlock6_eval (fd : FilamentData) (x : Blocks) (v1 v2 v3 v4 v5 v6 : List Nat)
    (h1 : u16le fd.drying_temp_c = some v1)
    (h2 : u16le fd.drying_time_h = some v2)
    (h3 : u16le fd.bed_temp_type = some v3)
    (h4 : u16le fd.bed_temp_c = some v4)
    (h5 : u16le fd.max_hotend_temp_c = some v5)
    (h6 : u16le fd.min_hotend_temp_c = some v6) :
    buildBlock6 fd x = some
      (wr 6 10 12 v6 (wr 6 8 10 v5 (wr 6 6 8 v4 (wr 6 4 6 v3
        (wr 6 2 4 v2 (wr 6 0 2 v1 x)))))) := by
  unfold buildBlock6
  rw [h1, h2, h3, h4, h5, h6]
  rfl

theorem buildSector2_eval (fd : FilamentData) (x : Blocks) (tu wv : List Nat)
    (htu : encodeAscii fd.tray_uid = some tu)
    (hwv : u16le (truncF (mulF100 fd.spool_width_mm) : Int) = some wv) :
    buildSector2 fd x = some
      (wr 10 4 6 wv
        (wr 9 0 16 (padTo 16 (tu.take 16))
          (wr 8 12 16 fd.nozzle_diameter.toList
            (if fd.xcam_info ≠ [] then
              wr 8 0 12 (padTo 12 (fd.xcam_info.take 12)) x else x)))) := by
  unfold buildSector2
  rw [htu, hwv]
  rfl

theorem buildSector3_eval (fd : FilamentData) (x : Blocks) (pd sp fl : List Nat)
    (hpd : encodeAscii fd.production_datetime = some pd)
    (hsp : encodeAscii fd.short_production_datetime = some sp)
    (hfl : u16le fd.filament_length_m = some fl) :
    buildSector3 fd x = some
      (wr 14 4 6 fl
        (wr 13 0 16 (padTo 16 (sp.take 16))
          (wr 12 0 16 (padTo 16 (pd.take 16)) x))) := by
  unfold buildSector3
  rw [hpd, hsp, hfl]
  rfl

theorem buildSector4_eval (fd : FilamentData) (x : Blocks) (cf cc : List Nat)
    (hcf : u16le fd.color_format = some cf)
    (hcc : u16le fd.color_count = some cc) :
    buildSector4 fd x = some
      (if fd.secondary_color_abgr ≠ [] then
        wr 16 4 8 (fd.secondary_color_abgr.take 4) (wr 16 2 4 cc (wr 16 0 2 cf x))
       else wr 16 2 4 cc (wr 16 0 2 cf x)) := by
  unfold buildSector4
  rw [hcf, hcc]
  rfl

/-! ## The master round-trip lemma -/

theorem build_parse_id (b : Blocks) (hv : validImage b) (hc : canonImage b)
    (hw : widthStable b) (hf : f32Stable b) : build_tag_blocks (parseFields b) = some b := by
  obtain ⟨h1, h2, h3, h4, h5, h6, h7⟩ := hc
  have hbase : buildBase (parseFields b) = b := by
    unfold buildBase
    rw [parseFields_raw, if_pos]
    refine ⟨?_, hv.1⟩
    intro hnil
    rw [hnil] at hv
    simp [validImage] at hv
  have obind : ∀ (x : Blocks) (f : Blocks → Option Blocks), (some x).bind f = f x :=
    fun _ _ => rfl
  have omap : ∀ (x : Blocks) (f : Blocks → Blocks), (some x).map f = some (f x) :=
    fun _ _ => rfl
  rw [build_tag_blocks, hbase,
    buildSector0_id b b (parseFields b) hv h1 h2 h3 rfl rfl rfl rfl rfl rfl rfl rfl, obind,
    buildSector1_id b b (parseFields b) hv h4 hf.1 rfl rfl rfl rfl rfl rfl, obind,
    buildBlock6_id b b (parseFields b) hv rfl rfl rfl rfl rfl rfl rfl, obind,
    buildSector2_id b b (parseFields b) hv h5 hw hf.2 rfl rfl rfl rfl rfl rfl rfl, obind,
    buildSector3_id b b (parseFields b) hv h6 h7 rfl rfl rfl rfl rfl rfl, obind,
    buildSector4_id b b (parseFields b) hv rfl rfl rfl rfl, omap,
    rsa_stage_idg b b (parseFields b) hv (fun j hj => rfl) rfl]

theorem padTo_take_length (u : List Nat) (n : Nat) : (padTo n (u.take n)).length = n := by
  simp only [padTo, List.length_append, List.length_take, List.length_replicate]
  omega

theorem getSlice_wr_right (b : Blocks) (iw s t : Nat) (V : List Nat)
    (hiw : iw < b.length)
    (hVlen : V.length = t - s) (hst : s ≤ t) (ht : t ≤ (b.getD iw []).length)
    (s2 t2 : Nat) (h : t ≤ s2) :
    getSlice ((wr iw s t V b).getD iw []) s2 t2 = getSlice (b.getD iw []) s2 t2 := by
  rw [wr_getD_self b iw s t V hiw]
  exact getSlice_setSlice_right _ s t s2 t2 V hVlen hst ht h

theorem rsaFold_getD_frame (sig : List Nat) :
    ∀ (ps : List (Nat × Nat)) (acc : Blocks) (j : Nat),
    (∀ q ∈ ps, q.2 ≠ j ∨ ((sig.drop (16 * q.1)).take 16).length ≠ 16) →
    (ps.foldl (rsaStep sig) acc).getD j [] = acc.getD j [] := by
  intro ps
  induction ps with
  | nil => intro acc j _; rfl
  | cons q ps ih =>
    intro acc j hq
    rw [List.foldl_cons, ih _ j (fun r hr => hq r (by simp [hr]))]
    unfold rsaStep
    rcases hq q (by simp) with h | h
    · by_cases hc : ((sig.drop (16 * q.1)).take 16).length = 16
      · rw [if_pos hc]
        exact getD_set_ne _ _ _ _ h
      · rw [if_neg hc]
    · rw [if_neg h]

theorem rsaFold_getD_find (sig : List Nat) :
    ∀ (ps : List (Nat × Nat)) (acc : Blocks) (k j : Nat),
    (k, j) ∈ ps → ((ps.map Prod.snd).Nodup) →
    ((sig.drop (16 * k)).take 16).length = 16 → j < acc.length →
    (ps.foldl (rsaStep sig) acc).getD j [] = (sig.drop (16 * k)).take 16 := by
  intro ps
  induction ps with
  | nil => intro acc k j hm _ _ _; simp at hm
  | cons q ps ih =>
    intro acc k j hm hnd hck hj
    rw [List.map_cons, List.nodup_cons] at hnd
    rcases List.mem_cons.mp hm with hq | hm2
    · have hqj : q.2 = j := by rw [← hq]
      have hqk : q.1 = k := by rw [← hq]
      rw [List.foldl_cons]
      rw [rsaFold_getD_frame sig ps _ j
        (fun r hr => Or.inl (fun hc => hnd.1 (by
          rw [hqj]
          exact hc ▸ List.mem_map.mpr ⟨r, hr, rfl⟩)))]
      unfold rsaStep
      rw [hqk, hqj, if_pos hck]
      exact getD_set_self _ _ _ (hqj ▸ hj)
    · rw [List.foldl_cons]
      apply ih _ k j hm2 hnd.2 hck
      unfold rsaStep
      by_cases hc : ((sig.drop (16 * q.1)).take 16).length = 16
      · rw [if_pos hc]
        simpa using hj
      · rw [if_neg hc]
        exact hj

/-! ## Lemmas: building after a single-field edit -/

theorem build_patched (b X : Blocks) (fd : FilamentData)
    (hbase : buildBase fd = b)
    (hs0 : buildSector0 fd b = some X)
    (hs1 : buildSector1 fd X = some X)
    (hs6 : buildBlock6 fd X = some X)
    (hs2 : buildSector2 fd X = some X)
    (hs3 : buildSector3 fd X = some X)
    (hs4 : buildSector4 fd X = some X)
    (hrsa : buildRsa fd X = X) :
    build_tag_blocks fd = some X := by
  have obind : ∀ (y : Blocks) (f : Blocks → Option Blocks), (some y).bind f = f y :=
    fun _ _ => rfl
  have omap : ∀ (y : Blocks) (f : Blocks → Blocks), (some y).map f = some (f y) :=
    fun _ _ => rfl
  rw [build_tag_blocks, hbase, hs0, obind, hs1, obind, hs6, obind, hs2, obind,
    hs3, obind, hs4, omap, hrsa]

theorem applyEdit_raw (b : Blocks) (e : Edit) :
    (applyEdit e (parseFields b)).raw_blocks = b := by
  cases e <;> rfl

theorem buildBase_edit (b : Blocks) (e : Edit) (hv : validImage b) :
    buildBase (applyEdit e (parseFields b)) = b := by
  have hr := applyEdit_raw b e
  unfold buildBase
  rw [hr, if_pos]
  refine ⟨?_, hv.1⟩
  intro hnil
  rw [hnil] at hv
  simp [validImage] at hv

theorem wr_frame (b : Blocks) (iw s t : Nat) (V : List Nat)
    (hb : b.length = 64) (hiw : iw < 64)
    (hVlen : V.length = t - s) (hst : s ≤ t) (ht : t ≤ (b.getD iw []).length)
    (i p : Nat) (h : ¬(i = iw ∧ s ≤ p ∧ p < t)) :
    ((wr iw s t V b).getD i []).getD p 0 = (b.getD i []).getD p 0 := by
  by_cases hi : i = iw
  · subst hi
    rw [wr_getD_self b i s t V (by omega)]
    apply setSlice_getD_outside _ _ _ _ hVlen hst ht
    by_cases hps : p < s
    · exact Or.inl hps
    · right
      by_cases hpt : p < t
      · exact absurd ⟨rfl, by omega, hpt⟩ h
      · omega
  · rw [wr_getD_ne b iw s t V i (fun hh => hi hh.symm)]

theorem parse_tag_dump_valid (b : Blocks) (hv : validImage b) :
    parse_tag_dump b = some (parseFields b) := by
  unfold parse_tag_dump
  rw [if_pos]
  refine ⟨hv.1, ?_⟩
  rw [List.all_eq_true]
  intro blk hblk
  simp [(hv.2 blk hblk).1]

theorem sha256_length (m : List Nat) : (sha256 m).length = 32 := by
  simp [sha256, be32Bytes]

theorem hmacSha256_length (key msg : List Nat) : (hmacSha256 key msg).length = 32 := by
  simp [hmacSha256, sha256_length]

theorem hkdfStep_foldl_length (prk info : List Nat) :
    ∀ (is : List Nat) (a t : List Nat),
      ((is.foldl (hkdfStep prk info) (a, t)).1).length = a.length + 32 * is.length := by
  intro is
  induction is with
  | nil => intro a t; simp
  | cons i is ih =>
    intro a t
    simp only [List.foldl_cons, hkdfStep]
    rw [ih]
    simp [hmacSha256_length]
    ring

theorem hkdfOutput96_length (uid : List Nat) : (hkdfOutput96 uid).length = 96 := by
  simp only [hkdfOutput96, hkdfExpand, List.length_take]
  rw [hkdfStep_foldl_length]
  simp

theorem derive_keys_shape (uid : List Nat) :
    (derive_keys uid).map List.length = List.replicate 16 6 := by
  have h := hkdfOutput96_length uid
  simp only [derive_keys, List.map_map]
  have : ∀ i : Nat,
      (List.length ∘ fun i => ((hkdfOutput96 uid).drop (6 * i)).take 6) i = min 6 (96 - 6 * i) := by
    intro i
    simp [List.length_take, List.length_drop, h]
  rw [List.map_congr_left (fun i _ => this i)]
  decide

/-! ## Per-field edit lemmas: the image a single edit rebuilds -/

/-- Building after editing `uid` to a non-empty value writes exactly block 0
bytes 0-3 of the image. -/
theorem editBuild_uid (b : Blocks) (v : List Nat) (hv : validImage b)
    (hc : canonImage b) (hw : widthStable b) (hf : f32Stable b) (hve : v ≠ []) :
    build_tag_blocks (applyEdit (Edit.uid v) (parseFields b))
      = some (wr 0 0 4 (padTo 4 (v.take 4)) b) := by
  obtain ⟨h1, h2, h3, h4, h5, h6, h7⟩ := hc
  have hb64 : b.length = 64 := hv.1
  obtain ⟨hl0, -⟩ := validImage_block b hv 0 (by omega)
  obtain ⟨hl1, -⟩ := validImage_block b hv 1 (by omega)
  obtain ⟨hl2, -⟩ := validImage_block b hv 2 (by omega)
  have hX2 : ∀ j, (0 : Nat) ≠ j →
      (wr 0 0 4 (padTo 4 (v.take 4)) b).getD j [] = b.getD j [] :=
    fun j hj => wr_getD_ne b 0 0 4 _ j hj
  have hVlen : (padTo 4 (v.take 4)).length = 4 - 0 := padTo_take_length v 4
  apply build_patched b _ _ (buildBase_edit b _ hv)
  ·
    have hmv : encodeAscii (applyEdit (Edit.uid v) (parseFields b)).material_variant_id
        = some ((getSlice (b.getD 1 []) 0 8).takeWhile (fun c => c ≠ 0)) :=
      encodeAscii_asciiRound _ h1
    have hmi : encodeAscii (applyEdit (Edit.uid v) (parseFields b)).material_id
        = some ((getSlice (b.getD 1 []) 8 16).takeWhile (fun c => c ≠ 0)) :=
      encodeAscii_asciiRound _ h2
    have hft : encodeAscii (applyEdit (Edit.uid v) (parseFields b)).filament_type
        = some ((getSlice (b.getD 2 []) 0 16).takeWhile (fun c => c ≠ 0)) :=
      encodeAscii_asciiRound _ h3
    rw [buildSector0_eval _ b _ _ _ hmv hmi hft]
    have fu : (applyEdit (Edit.uid v) (parseFields b)).uid = v := rfl
    have fm : (applyEdit (Edit.uid v) (parseFields b)).manufacturer_data
        = getSlice (b.getD 0 []) 4 16 := rfl
    have hmfr : getSlice (b.getD 0 []) 4 16 ≠ [] :=
      getSlice_ne_nil _ 4 16 (by omega) (by omega)
    have pmfr : padTo 12 ((getSlice (b.getD 0 []) 4 16).take 12)
        = getSlice (b.getD 0 []) 4 16 := by
      rw [padTo_take_self]
      exact getSlice_length _ 4 16 (by omega) (by omega)
    have w1 : padTo 8 (((getSlice (b.getD 1 []) 0 8).takeWhile (fun c => c ≠ 0)).take 8)
        = getSlice (b.getD 1 []) 0 8 :=
      padTo_asciiRound _ 8 h1 (getSlice_length _ 0 8 (by omega) (by omega))
    have w2 : padTo 8 (((getSlice (b.getD 1 []) 8 16).takeWhile (fun c => c ≠ 0)).take 8)
        = getSlice (b.getD 1 []) 8 16 :=
      padTo_asciiRound _ 8 h2 (getSlice_length _ 8 16 (by omega) (by omega))
    have w3 : padTo 16 (((getSlice (b.getD 2 []) 0 16).takeWhile (fun c => c ≠ 0)).take 16)
        = getSlice (b.getD 2 []) 0 16 :=
      padTo_asciiRound _ 16 h3 (getSlice_length _ 0 16 (by omega) (by omega))
    have hsl : getSlice ((wr 0 0 4 (padTo 4 (v.take 4)) b).getD 0 []) 4 16
        = getSlice (b.getD 0 []) 4 16 :=
      getSlice_wr_right b 0 0 4 _ (by omega) hVlen (by omega) (by omega) 4 16 (by omega)
    rw [fu, if_pos hve, fm, if_pos hmfr, pmfr, wr_id _ 0 4 16 _ (by omega) hsl.symm,
      w1, wr_id _ 1 0 8 _ (by omega) (by rw [hX2 1 (by omega)]),
      w2, wr_id _ 1 8 16 _ (by omega) (by rw [hX2 1 (by omega)]),
      w3, wr_id _ 2 0 16 _ (by omega) (by rw [hX2 2 (by omega)])]
  · exact buildSector1_id b _ _ hv h4 hf.1 (hX2 4 (by omega)) (hX2 5 (by omega)) rfl rfl rfl rfl
  · exact buildBlock6_id b _ _ hv (hX2 6 (by omega)) rfl rfl rfl rfl rfl rfl
  · exact buildSector2_id b _ _ hv h5 hw hf.2 (hX2 8 (by omega)) (hX2 9 (by omega))
      (hX2 10 (by omega)) rfl rfl rfl rfl
  · exact buildSector3_id b _ _ hv h6 h7 (hX2 12 (by omega)) (hX2 13 (by omega))
      (hX2 14 (by omega)) rfl rfl rfl
  · exact buildSector4_id b _ _ hv (hX2 16 (by omega)) rfl rfl rfl
  · exact rsa_stage_idg b _ _ hv
      (fun j hj => hX2 j (by
        have hd : ∀ k ∈ RSA_DATA_BLOCKS, ¬((0 : Nat) = k) := by decide
        exact hd j hj)) rfl

/-- Editing `uid` to the empty value leaves the rebuilt image unchanged
(the write is gated on truthiness). -/
theorem editBuild_uid_nil (b : Blocks) (hv : validImage b)
    (hc : canonImage b) (hw : widthStable b) (hf : f32Stable b) :
    build_tag_blocks (applyEdit (Edit.uid []) (parseFields b)) = some b := by
  obtain ⟨h1, h2, h3, h4, h5, h6, h7⟩ := hc
  have hb64 : b.length = 64 := hv.1
  obtain ⟨hl0, -⟩ := validImage_block b hv 0 (by omega)
  obtain ⟨hl1, -⟩ := validImage_block b hv 1 (by omega)
  obtain ⟨hl2, -⟩ := validImage_block b hv 2 (by omega)
  have hX2 : ∀ j, (0 : Nat) ≠ j → (b : Blocks).getD j [] = b.getD j [] :=
    fun j _ => rfl
  apply build_patched b _ _ (buildBase_edit b _ hv)
  ·
    have hmv : encodeAscii (applyEdit (Edit.uid []) (parseFields b)).material_variant_id
        = some ((getSlice (b.getD 1 []) 0 8).takeWhile (fun c => c ≠ 0)) :=
      encodeAscii_asciiRound _ h1
    have hmi : encodeAscii (applyEdit (Edit.uid []) (parseFields b)).material_id
        = some ((getSlice (b.getD 1 []) 8 16).takeWhile (fun c => c ≠ 0)) :=
      encodeAscii_asciiRound _ h2
    have hft : encodeAscii (applyEdit (Edit.uid []) (parseFields b)).filament_type
        = some ((getSlice (b.getD 2 []) 0 16).takeWhile (fun c => c ≠ 0)) :=
      encodeAscii_asciiRound _ h3
    rw [buildSector0_eval _ b _ _ _ hmv hmi hft]
    have fu : (applyEdit (Edit.uid []) (parseFields b)).uid = ([] : List Nat) := rfl
    have fm : (applyEdit (Edit.uid []) (parseFields b)).manufacturer_data
        = getSlice (b.getD 0 []) 4 16 := rfl
    have hmfr : getSlice (b.getD 0 []) 4 16 ≠ [] :=
      getSlice_ne_nil _ 4 16 (by omega) (by omega)
    have pmfr : padTo 12 ((getSlice (b.getD 0 []) 4 16).take 12)
        = getSlice (b.getD 0 []) 4 16 := by
      rw [padTo_take_self]
      exact getSlice_length _ 4 16 (by omega) (by omega)
    have w1 : padTo 8 (((getSlice (b.getD 1 []) 0 8).takeWhile (fun c => c ≠ 0)).take 8)
        = getSlice (b.getD 1 []) 0 8 :=
      padTo_asciiRound _ 8 h1 (getSlice_length _ 0 8 (by omega) (by omega))
    have w2 : padTo 8 (((getSlice (b.getD 1 []) 8 16).takeWhile (fun c => c ≠ 0)).take 8)
        = getSlice (b.getD 1 []) 8 16 :=
      padTo_asciiRound _ 8 h2 (getSlice_length _ 8 16 (by omega) (by omega))
    have w3 : padTo 16 (((getSlice (b.getD 2 []) 0 16).takeWhile (fun c => c ≠ 0)).take 16)
        = getSlice (b.getD 2 []) 0 16 :=
      padTo_asciiRound _ 16 h3 (getSlice_length _ 0 16 (by omega) (by omega))
    rw [fu]
    rw [if_neg (show ¬(([] : List Nat) ≠ []) from fun hh => hh rfl)]
    rw [fm, if_pos hmfr, pmfr, wr_id b 0 4 16 _ (by omega) rfl,
      w1, wr_id b 1 0 8 _ (by omega) rfl,
      w2, wr_id b 1 8 16 _ (by omega) rfl,
      w3, wr_id b 2 0 16 _ (by omega) rfl]
  · exact buildSector1_id b _ _ hv h4 hf.1 (hX2 4 (by omega)) (hX2 5 (by omega)) rfl rfl rfl rfl
  · exact buildBlock6_id b _ _ hv (hX2 6 (by omega)) rfl rfl rfl rfl rfl rfl
  · exact buildSector2_id b _ _ hv h5 hw hf.2 (hX2 8 (by omega)) (hX2 9 (by omega))
      (hX2 10 (by omega)) rfl rfl rfl rfl
  · exact buildSector3_id b _ _ hv h6 h7 (hX2 12 (by omega)) (hX2 13 (by omega))
      (hX2 14 (by omega)) rfl rfl rfl
  · exact buildSector4_id b _ _ hv (hX2 16 (by omega)) rfl rfl rfl
  · exact rsa_stage_idg b _ _ hv
      (fun j hj => hX2 j (by
        have hd : ∀ k ∈ RSA_DATA_BLOCKS, ¬((0 : Nat) = k) := by decide
        exact hd j hj)) rfl

/-- Building after editing `manufacturer_data` to a non-empty value writes
exactly block 0 bytes 4-15. -/
theorem editBuild_manufacturer_data (b : Blocks) (v : List Nat) (hv : validImage b)
    (hc : canonImage b) (hw : widthStable b) (hf : f32Stable b) (hve : v ≠ []) :
    build_tag_blocks (applyEdit (Edit.manufacturer_data v) (parseFields b))
      = some (wr 0 4 16 (padTo 12 (v.take 12)) b) := by
  obtain ⟨h1, h2, h3, h4, h5, h6, h7⟩ := hc
  have hb64 : b.length = 64 := hv.1
  obtain ⟨hl0, -⟩ := validImage_block b hv 0 (by omega)
  obtain ⟨hl1, -⟩ := validImage_block b hv 1 (by omega)
  obtain ⟨hl2, -⟩ := validImage_block b hv 2 (by omega)
  have hX2 : ∀ j, (0 : Nat) ≠ j →
      (wr 0 4 16 (padTo 12 (v.take 12)) b).getD j [] = b.getD j [] :=
    fun j hj => wr_getD_ne b 0 4 16 _ j hj
  apply build_patched b _ _ (buildBase_edit b _ hv)
  ·
    have hmv : encodeAscii (applyEdit (Edit.manufacturer_data v) (parseFields b)).material_variant_id
        = some ((getSlice (b.getD 1 []) 0 8).takeWhile (fun c => c ≠ 0)) :=
      encodeAscii_asciiRound _ h1
    have hmi : encodeAscii (applyEdit (Edit.manufacturer_data v) (parseFields b)).material_id
        = some ((getSlice (b.getD 1 []) 8 16).takeWhile (fun c => c ≠ 0)) :=
      encodeAscii_asciiRound _ h2
    have hft : encodeAscii (applyEdit (Edit.manufacturer_data v) (parseFields b)).filament_type
        = some ((getSlice (b.getD 2 []) 0 16).takeWhile (fun c => c ≠ 0)) :=
      encodeAscii_asciiRound _ h3
    rw [buildSector0_eval _ b _ _ _ hmv hmi hft]
    have fu : (applyEdit (Edit.manufacturer_data v) (parseFields b)).uid = getSlice (b.getD 0 []) 0 4 := rfl
    have fm : (applyEdit (Edit.manufacturer_data v) (parseFields b)).manufacturer_data = v := rfl
    have huid : getSlice (b.getD 0 []) 0 4 ≠ [] :=
      getSlice_ne_nil _ 0 4 (by omega) (by omega)
    have puid : padTo 4 ((getSlice (b.getD 0 []) 0 4).take 4) = getSlice (b.getD 0 []) 0 4 := by
      rw [padTo_take_self]
      exact getSlice_length _ 0 4 (by omega) (by omega)
    have w1 : padTo 8 (((getSlice (b.getD 1 []) 0 8).takeWhile (fun c => c ≠ 0)).take 8)
        = getSlice (b.getD 1 []) 0 8 :=
      padTo_asciiRound _ 8 h1 (getSlice_length _ 0 8 (by omega) (by omega))
    have w2 : padTo 8 (((getSlice (b.getD 1 []) 8 16).takeWhile (fun c => c ≠ 0)).take 8)
        = getSlice (b.getD 1 []) 8 16 :=
      padTo_asciiRound _ 8 h2 (getSlice_length _ 8 16 (by omega) (by omega))
    have w3 : padTo 16 (((getSlice (b.getD 2 []) 0 16).takeWhile (fun c => c ≠ 0)).take 16)
        = getSlice (b.getD 2 []) 0 16 :=
      padTo_asciiRound _ 16 h3 (getSlice_length _ 0 16 (by omega) (by omega))
    rw [fu, if_pos huid, puid, wr_id b 0 0 4 _ (by omega) rfl, fm, if_pos hve]
    rw [w1, wr_id _ 1 0 8 _ (by omega) (by rw [hX2 1 (by omega)]),
      w2, wr_id _ 1 8 16 _ (by omega) (by rw [hX2 1 (by omega)]),
      w3, wr_id _ 2 0 16 _ (by omega) (by rw [hX2 2 (by omega)])]
  · exact buildSector1_id b _ _ hv h4 hf.1 (hX2 4 (by omega)) (hX2 5 (by omega)) rfl rfl rfl rfl
  · exact buildBlock6_id b _ _ hv (hX2 6 (by omega)) rfl rfl rfl rfl rfl rfl
  · exact buildSector2_id b _ _ hv h5 hw hf.2 (hX2 8 (by omega)) (hX2 9 (by omega))
      (hX2 10 (by omega)) rfl rfl rfl rfl
  · exact buildSector3_id b _ _ hv h6 h7 (hX2 12 (by omega)) (hX2 13 (by omega))
      (hX2 14 (by omega)) rfl rfl rfl
  · exact buildSector4_id b _ _ hv (hX2 16 (by omega)) rfl rfl rfl
  · exact rsa_stage_idg b _ _ hv
      (fun j hj => hX2 j (by
        have hd : ∀ k ∈ RSA_DATA_BLOCKS, ¬((0 : Nat) = k) := by decide
        exact hd j hj)) rfl

/-- Editing `manufacturer_data` to the empty value leaves the rebuilt image
unchanged. -/
theorem editBuild_manufacturer_data_nil (b : Blocks) (hv : validImage b)
    (hc : canonImage b) (hw : widthStable b) (hf : f32Stable b) :
    build_tag_blocks (applyEdit (Edit.manufacturer_data []) (parseFields b)) = some b := by
  obtain ⟨h1, h2, h3, h4, h5, h6, h7⟩ := hc
  have hb64 : b.length = 64 := hv.1
  obtain ⟨hl0, -⟩ := validImage_block b hv 0 (by omega)
  obtain ⟨hl1, -⟩ := validImage_block b hv 1 (by omega)
  obtain ⟨hl2, -⟩ := validImage_block b hv 2 (by omega)
  have hX2 : ∀ j, (0 : Nat) ≠ j → (b : Blocks).getD j [] = b.getD j [] :=
    fun j _ => rfl
  apply build_patched b _ _ (buildBase_edit b _ hv)
  ·
    have hmv : encodeAscii (applyEdit (Edit.manufacturer_data []) (parseFields b)).material_variant_id
        = some ((getSlice (b.getD 1 []) 0 8).takeWhile (fun c => c ≠ 0)) :=
      encodeAscii_asciiRound _ h1
    have hmi : encodeAscii (applyEdit (Edit.manufacturer_data []) (parseFields b)).material_id
        = some ((getSlice (b.getD 1 []) 8 16).takeWhile (fun c => c ≠ 0)) :=
      encodeAscii_asciiRound _ h2
    have hft : encodeAscii (applyEdit (Edit.manufacturer_data []) (parseFields b)).filament_type
        = some ((getSlice (b.getD 2 []) 0 16).takeWhile (fun c => c ≠ 0)) :=
      encodeAscii_asciiRound _ h3
    rw [buildSector0_eval _ b _ _ _ hmv hmi hft]
    have fu : (applyEdit (Edit.manufacturer_data []) (parseFields b)).uid = getSlice (b.getD 0 []) 0 4 := rfl
    have fm : (applyEdit (Edit.manufacturer_data []) (parseFields b)).manufacturer_data = ([] : List Nat) := rfl
    have huid : getSlice (b.getD 0 []) 0 4 ≠ [] :=
      getSlice_ne_nil _ 0 4 (by omega) (by omega)
    have puid : padTo 4 ((getSlice (b.getD 0 []) 0 4).take 4) = getSlice (b.getD 0 []) 0 4 := by
      rw [padTo_take_self]
      exact getSlice_length _ 0 4 (by omega) (by omega)
    have w1 : padTo 8 (((getSlice (b.getD 1 []) 0 8).takeWhile (fun c => c ≠ 0)).take 8)
        = getSlice (b.getD 1 []) 0 8 :=
      padTo_asciiRound _ 8 h1 (getSlice_length _ 0 8 (by omega) (by omega))
    have w2 : padTo 8 (((getSlice (b.getD 1 []) 8 16).takeWhile (fun c => c ≠ 0)).take 8)
        = getSlice (b.getD 1 []) 8 16 :=
      padTo_asciiRound _ 8 h2 (getSlice_length _ 8 16 (by omega) (by omega))
    have w3 : padTo 16 (((getSlice (b.getD 2 []) 0 16).takeWhile (fun c => c ≠ 0)).take 16)
        = getSlice (b.getD 2 []) 0 16 :=
      padTo_asciiRound _ 16 h3 (getSlice_length _ 0 16 (by omega) (by omega))
    rw [fu, if_pos huid, puid, wr_id b 0 0 4 _ (by omega) rfl, fm]
    rw [if_neg (show ¬(([] : List Nat) ≠ []) from fun hh => hh rfl)]
    rw [w1, wr_id b 1 0 8 _ (by omega) rfl,
      w2, wr_id b 1 8 16 _ (by omega) rfl,
      w3, wr_id b 2 0 16 _ (by omega) rfl]
  · exact buildSector1_id b _ _ hv h4 hf.1 (hX2 4 (by omega)) (hX2 5 (by omega)) rfl rfl rfl rfl
  · exact buildBlock6_id b _ _ hv (hX2 6 (by omega)) rfl rfl rfl rfl rfl rfl
  · exact buildSector2_id b _ _ hv h5 hw hf.2 (hX2 8 (by omega)) (hX2 9 (by omega))
      (hX2 10 (by omega)) rfl rfl rfl rfl
  · exact buildSector3_id b _ _ hv h6 h7 (hX2 12 (by omega)) (hX2 13 (by omega))
      (hX2 14 (by omega)) rfl rfl rfl
  · exact buildSector4_id b _ _ hv (hX2 16 (by omega)) rfl rfl rfl
  · exact rsa_stage_idg b _ _ hv
      (fun j hj => hX2 j (by
        have hd : ∀ k ∈ RSA_DATA_BLOCKS, ¬((0 : Nat) = k) := by decide
        exact hd j hj)) rfl

/-- Building after editing `material_variant_id` writes exactly block 1
bytes 0-7. -/
theorem editBuild_material_variant_id (b : Blocks) (v : List Nat) (hv : validImage b)
    (hc : canonImage b) (hw : widthStable b) (hf : f32Stable b) (hva : v.all (fun c => c < 128) = true) :
    build_tag_blocks (applyEdit (Edit.material_variant_id v) (parseFields b))
      = some (wr 1 0 8 (padTo 8 (v.take 8)) b) := by
  obtain ⟨h1, h2, h3, h4, h5, h6, h7⟩ := hc
  have hb64 : b.length = 64 := hv.1
  obtain ⟨hl0, -⟩ := validImage_block b hv 0 (by omega)
  obtain ⟨hl1, -⟩ := validImage_block b hv 1 (by omega)
  obtain ⟨hl2, -⟩ := validImage_block b hv 2 (by omega)
  have hX2 : ∀ j, (1 : Nat) ≠ j →
      (wr 1 0 8 (padTo 8 (v.take 8)) b).getD j [] = b.getD j [] :=
    fun j hj => wr_getD_ne b 1 0 8 _ j hj
  have hVlen : (padTo 8 (v.take 8)).length = 8 - 0 := padTo_take_length v 8
  apply build_patched b _ _ (buildBase_edit b _ hv)
  ·
    have hmv : encodeAscii (applyEdit (Edit.material_variant_id v) (parseFields b)).material_variant_id = some v := by
      show encodeAscii v = some v
      unfold encodeAscii
      rw [if_pos hva]
    have hmi : encodeAscii (applyEdit (Edit.material_variant_id v) (parseFields b)).material_id
        = some ((getSlice (b.getD 1 []) 8 16).takeWhile (fun c => c ≠ 0)) :=
      encodeAscii_asciiRound _ h2
    have hft : encodeAscii (applyEdit (Edit.material_variant_id v) (parseFields b)).filament_type
        = some ((getSlice (b.getD 2 []) 0 16).takeWhile (fun c => c ≠ 0)) :=
      encodeAscii_asciiRound _ h3
    rw [buildSector0_eval _ b _ _ _ hmv hmi hft]
    have fu : (applyEdit (Edit.material_variant_id v) (parseFields b)).uid = getSlice (b.getD 0 []) 0 4 := rfl
    have fm : (applyEdit (Edit.material_variant_id v) (parseFields b)).manufacturer_data
        = getSlice (b.getD 0 []) 4 16 := rfl
    have huid : getSlice (b.getD 0 []) 0 4 ≠ [] :=
      getSlice_ne_nil _ 0 4 (by omega) (by omega)
    have hmfr : getSlice (b.getD 0 []) 4 16 ≠ [] :=
      getSlice_ne_nil _ 4 16 (by omega) (by omega)
    have puid : padTo 4 ((getSlice (b.getD 0 []) 0 4).take 4) = getSlice (b.getD 0 []) 0 4 := by
      rw [padTo_take_self]
      exact getSlice_length _ 0 4 (by omega) (by omega)
    have pmfr : padTo 12 ((getSlice (b.getD 0 []) 4 16).take 12)
        = getSlice (b.getD 0 []) 4 16 := by
      rw [padTo_take_self]
      exact getSlice_length _ 4 16 (by omega) (by omega)
    have w2 : padTo 8 (((getSlice (b.getD 1 []) 8 16).takeWhile (fun c => c ≠ 0)).take 8)
        = getSlice (b.getD 1 []) 8 16 :=
      padTo_asciiRound _ 8 h2 (getSlice_length _ 8 16 (by omega) (by omega))
    have w3 : padTo 16 (((getSlice (b.getD 2 []) 0 16).takeWhile (fun c => c ≠ 0)).take 16)
        = getSlice (b.getD 2 []) 0 16 :=
      padTo_asciiRound _ 16 h3 (getSlice_length _ 0 16 (by omega) (by omega))
    have hsl : getSlice ((wr 1 0 8 (padTo 8 (v.take 8)) b).getD 1 []) 8 16
        = getSlice (b.getD 1 []) 8 16 :=
      getSlice_wr_right b 1 0 8 _ (by omega) hVlen (by omega) (by omega) 8 16 (by omega)
    rw [fu, fm, if_pos huid, puid, wr_id b 0 0 4 _ (by omega) rfl,
      if_pos hmfr, pmfr, wr_id b 0 4 16 _ (by omega) rfl,
      w2, wr_id _ 1 8 16 _ (by omega) hsl.symm,
      w3, wr_id _ 2 0 16 _ (by omega) (by rw [hX2 2 (by omega)])]
  · exact buildSector1_id b _ _ hv h4 hf.1 (hX2 4 (by omega)) (hX2 5 (by omega)) rfl rfl rfl rfl
  · exact buildBlock6_id b _ _ hv (hX2 6 (by omega)) rfl rfl rfl rfl rfl rfl
  · exact buildSector2_id b _ _ hv h5 hw hf.2 (hX2 8 (by omega)) (hX2 9 (by omega))
      (hX2 10 (by omega)) rfl rfl rfl rfl
  · exact buildSector3_id b _ _ hv h6 h7 (hX2 12 (by omega)) (hX2 13 (by omega))
      (hX2 14 (by omega)) rfl rfl rfl
  · exact buildSector4_id b _ _ hv (hX2 16 (by omega)) rfl rfl rfl
  · exact rsa_stage_idg b _ _ hv
      (fun j hj => hX2 j (by
        have hd : ∀ k ∈ RSA_DATA_BLOCKS, ¬((1 : Nat) = k) := by decide
        exact hd j hj)) rfl

/-- Building after editing `material_id` writes exactly block 1 bytes 8-15. -/
theorem editBuild_material_id (b : Blocks) (v : List Nat) (hv : validImage b)
    (hc : canonImage b) (hw : widthStable b) (hf : f32Stable b) (hva : v.all (fun c => c < 128) = true) :
    build_tag_blocks (applyEdit (Edit.material_id v) (parseFields b))
      = some (wr 1 8 16 (padTo 8 (v.take 8)) b) := by
  obtain ⟨h1, h2, h3, h4, h5, h6, h7⟩ := hc
  have hb64 : b.length = 64 := hv.1
  obtain ⟨hl0, -⟩ := validImage_block b hv 0 (by omega)
  obtain ⟨hl1, -⟩ := validImage_block b hv 1 (by omega)
  obtain ⟨hl2, -⟩ := validImage_block b hv 2 (by omega)
  have hX2 : ∀ j, (1 : Nat) ≠ j →
      (wr 1 8 16 (padTo 8 (v.take 8)) b).getD j [] = b.getD j [] :=
    fun j hj => wr_getD_ne b 1 8 16 _ j hj
  apply build_patched b _ _ (buildBase_edit b _ hv)
  ·
    have hmv : encodeAscii (applyEdit (Edit.material_id v) (parseFields b)).material_variant_id
        = some ((getSlice (b.getD 1 []) 0 8).takeWhile (fun c => c ≠ 0)) :=
      encodeAscii_asciiRound _ h1
    have hmi : encodeAscii (applyEdit (Edit.material_id v) (parseFields b)).material_id = some v := by
      show encodeAscii v = some v
      unfold encodeAscii
      rw [if_pos hva]
    have hft : encodeAscii (applyEdit (Edit.material_id v) (parseFields b)).filament_type
        = some ((getSlice (b.getD 2 []) 0 16).takeWhile (fun c => c ≠ 0)) :=
      encodeAscii_asciiRound _ h3
    rw [buildSector0_eval _ b _ _ _ hmv hmi hft]
    have fu : (applyEdit (Edit.material_id v) (parseFields b)).uid = getSlice (b.getD 0 []) 0 4 := rfl
    have fm : (applyEdit (Edit.material_id v) (parseFields b)).manufacturer_data
        = getSlice (b.getD 0 []) 4 16 := rfl
    have huid : getSlice (b.getD 0 []) 0 4 ≠ [] :=
      getSlice_ne_nil _ 0 4 (by omega) (by omega)
    have hmfr : getSlice (b.getD 0 []) 4 16 ≠ [] :=
      getSlice_ne_nil _ 4 16 (by omega) (by omega)
    have puid : padTo 4 ((getSlice (b.getD 0 []) 0 4).take 4) = getSlice (b.getD 0 []) 0 4 := by
      rw [padTo_take_self]
      exact getSlice_length _ 0 4 (by omega) (by omega)
    have pmfr : padTo 12 ((getSlice (b.getD 0 []) 4 16).take 12)
        = getSlice (b.getD 0 []) 4 16 := by
      rw [padTo_take_self]
      exact getSlice_length _ 4 16 (by omega) (by omega)
    have w1 : padTo 8 (((getSlice (b.getD 1 []) 0 8).takeWhile (fun c => c ≠ 0)).take 8)
        = getSlice (b.getD 1 []) 0 8 :=
      padTo_asciiRound _ 8 h1 (getSlice_length _ 0 8 (by omega) (by omega))
    have w3 : padTo 16 (((getSlice (b.getD 2 []) 0 16).takeWhile (fun c => c ≠ 0)).take 16)
        = getSlice (b.getD 2 []) 0 16 :=
      padTo_asciiRound _ 16 h3 (getSlice_length _ 0 16 (by omega) (by omega))
    rw [fu, fm, if_pos huid, puid, wr_id b 0 0 4 _ (by omega) rfl,
      if_pos hmfr, pmfr, wr_id b 0 4 16 _ (by omega) rfl,
      w1, wr_id b 1 0 8 _ (by omega) rfl,
      w3, wr_id _ 2 0 16 _ (by omega) (by rw [hX2 2 (by omega)])]
  · exact buildSector1_id b _ _ hv h4 hf.1 (hX2 4 (by omega)) (hX2 5 (by omega)) rfl rfl rfl rfl
  · exact buildBlock6_id b _ _ hv (hX2 6 (by omega)) rfl rfl rfl rfl rfl rfl
  · exact buildSector2_id b _ _ hv h5 hw hf.2 (hX2 8 (by omega)) (hX2 9 (by omega))
      (hX2 10 (by omega)) rfl rfl rfl rfl
  · exact buildSector3_id b _ _ hv h6 h7 (hX2 12 (by omega)) (hX2 13 (by omega))
      (hX2 14 (by omega)) rfl rfl rfl
  · exact buildSector4_id b _ _ hv (hX2 16 (by omega)) rfl rfl rfl
  · exact rsa_stage_idg b _ _ hv
      (fun j hj => hX2 j (by
        have hd : ∀ k ∈ RSA_DATA_BLOCKS, ¬((1 : Nat) = k) := by decide
        exact hd j hj)) rfl

/-- Building after editing `filament_type` writes exactly block 2 bytes 0-15. -/
theorem editBuild_filament_type (b : Blocks) (v : List Nat) (hv : validImage b)
    (hc : canonImage b) (hw : widthStable b) (hf : f32Stable b) (hva : v.all (fun c => c < 128) = true) :
    build_tag_blocks (applyEdit (Edit.filament_type v) (parseFields b))
      = some (wr 2 0 16 (padTo 16 (v.take 16)) b) := by
  obtain ⟨h1, h2, h3, h4, h5, h6, h7⟩ := hc
  obtain ⟨hl0, -⟩ := validImage_block b hv 0 (by omega)
  obtain ⟨hl1, -⟩ := validImage_block b hv 1 (by omega)
  have hX2 : ∀ j, 2 ≠ j → (wr 2 0 16 (padTo 16 (v.take 16)) b).getD j []
      = b.getD j [] := fun j hj => wr_getD_ne b 2 0 16 _ j hj
  apply build_patched b _ _ (buildBase_edit b _ hv)
  · -- sector 0 carries the edit
    have hmv : encodeAscii (applyEdit (Edit.filament_type v) (parseFields b)).material_variant_id
        = some ((getSlice (b.getD 1 []) 0 8).takeWhile (fun c => c ≠ 0)) :=
      encodeAscii_asciiRound _ h1
    have hmi : encodeAscii (applyEdit (Edit.filament_type v) (parseFields b)).material_id
        = some ((getSlice (b.getD 1 []) 8 16).takeWhile (fun c => c ≠ 0)) :=
      encodeAscii_asciiRound _ h2
    have hft : encodeAscii (applyEdit (Edit.filament_type v) (parseFields b)).filament_type
        = some v := by
      show encodeAscii v = some v
      unfold encodeAscii
      rw [if_pos hva]
    rw [buildSector0_eval _ b _ _ _ hmv hmi hft]
    have fu : (applyEdit (Edit.filament_type v) (parseFields b)).uid
        = getSlice (b.getD 0 []) 0 4 := rfl
    have fm : (applyEdit (Edit.filament_type v) (parseFields b)).manufacturer_data
        = getSlice (b.getD 0 []) 4 16 := rfl
    have huid : getSlice (b.getD 0 []) 0 4 ≠ [] :=
      getSlice_ne_nil _ 0 4 (by omega) (by omega)
    have hmfr : getSlice (b.getD 0 []) 4 16 ≠ [] :=
      getSlice_ne_nil _ 4 16 (by omega) (by omega)
    have puid : padTo 4 ((getSlice (b.getD 0 []) 0 4).take 4) = getSlice (b.getD 0 []) 0 4 := by
      rw [padTo_take_self]
      exact getSlice_length _ 0 4 (by omega) (by omega)
    have pmfr : padTo 12 ((getSlice (b.getD 0 []) 4 16).take 12) = getSlice (b.getD 0 []) 4 16 := by
      rw [padTo_take_self]
      exact getSlice_length _ 4 16 (by omega) (by omega)
    have w1 : padTo 8 (((getSlice (b.getD 1 []) 0 8).takeWhile (fun c => c ≠ 0)).take 8)
        = getSlice (b.getD 1 []) 0 8 :=
      padTo_asciiRound _ 8 h1 (getSlice_length _ 0 8 (by omega) (by omega))
    have w2 : padTo 8 (((getSlice (b.getD 1 []) 8 16).takeWhile (fun c => c ≠ 0)).take 8)
        = getSlice (b.getD 1 []) 8 16 :=
      padTo_asciiRound _ 8 h2 (getSlice_length _ 8 16 (by omega) (by omega))
    rw [fu, fm, if_pos huid, puid, wr_id b 0 0 4 _ (by omega) rfl,
      if_pos hmfr, pmfr, wr_id b 0 4 16 _ (by omega) rfl,
      w1, wr_id b 1 0 8 _ (by omega) rfl, w2, wr_id b 1 8 16 _ (by omega) rfl]
  · exact buildSector1_id b _ _ hv h4 hf.1 (hX2 4 (by omega)) (hX2 5 (by omega)) rfl rfl rfl rfl
  · exact buildBlock6_id b _ _ hv (hX2 6 (by omega)) rfl rfl rfl rfl rfl rfl
  · exact buildSector2_id b _ _ hv h5 hw hf.2 (hX2 8 (by omega)) (hX2 9 (by omega))
      (hX2 10 (by omega)) rfl rfl rfl rfl
  · exact buildSector3_id b _ _ hv h6 h7 (hX2 12 (by omega)) (hX2 13 (by omega))
      (hX2 14 (by omega)) rfl rfl rfl
  · exact buildSector4_id b _ _ hv (hX2 16 (by omega)) rfl rfl rfl
  · exact rsa_stage_idg b _ _ hv
      (fun j hj => hX2 j (by
        have : ∀ k ∈ RSA_DATA_BLOCKS, ¬(2 = k) := by decide
        exact this j hj)) rfl

/-- The build pipeline split stage by stage: if every stage maps its input
image as stated, `build_tag_blocks` returns the final image. -/
theorem build_chain (fd : FilamentData) (b y0 y1 y2 y3 y4 y5 Y : Blocks)
    (hbase : buildBase fd = b)
    (hs0 : buildSector0 fd b = some y0)
    (hs1 : buildSector1 fd y0 = some y1)
    (hs6 : buildBlock6 fd y1 = some y2)
    (hs2 : buildSector2 fd y2 = some y3)
    (hs3 : buildSector3 fd y3 = some y4)
    (hs4 : buildSector4 fd y4 = some y5)
    (hrsa : buildRsa fd y5 = Y) :
    build_tag_blocks fd = some Y := by
  have obind : ∀ (y : Blocks) (f : Blocks → Option Blocks), (some y).bind f = f y :=
    fun _ _ => rfl
  have omap : ∀ (y : Blocks) (f : Blocks → Blocks), (some y).map f = some (f y) :=
    fun _ _ => rfl
  rw [build_tag_blocks, hbase, hs0, obind, hs1, obind, hs6, obind, hs2, obind,
    hs3, obind, hs4, omap, hrsa]

/-- Building after editing `detailed_filament_type` writes exactly block 4
bytes 0-15. -/
theorem editBuild_detailed_filament_type (b : Blocks) (v : List Nat) (hv : validImage b)
    (hc : canonImage b) (hw : widthStable b) (hf : f32Stable b) (hva : v.all (fun c => c < 128) = true) :
    build_tag_blocks (applyEdit (Edit.detailed_filament_type v) (parseFields b))
      = some (wr 4 0 16 (padTo 16 (v.take 16)) b) := by
  obtain ⟨h1, h2, h3, h4, h5, h6, h7⟩ := hc
  have hb64 : b.length = 64 := hv.1
  obtain ⟨hl4, -⟩ := validImage_block b hv 4 (by omega)
  obtain ⟨hl5, hb5⟩ := validImage_block b hv 5 (by omega)
  have hX2 : ∀ j, (4 : Nat) ≠ j →
      (wr 4 0 16 (padTo 16 (v.take 16)) b).getD j [] = b.getD j [] :=
    fun j hj => wr_getD_ne b 4 0 16 _ j hj
  apply build_chain _ b b (wr 4 0 16 (padTo 16 (v.take 16)) b) (wr 4 0 16 (padTo 16 (v.take 16)) b) (wr 4 0 16 (padTo 16 (v.take 16)) b) (wr 4 0 16 (padTo 16 (v.take 16)) b) (wr 4 0 16 (padTo 16 (v.take 16)) b) _ (buildBase_edit b _ hv)
  · exact buildSector0_id b b _ hv h1 h2 h3 rfl rfl rfl rfl rfl rfl rfl rfl
  ·
    have hdt : encodeAscii (applyEdit (Edit.detailed_filament_type v) (parseFields b)).detailed_filament_type = some v := by
      show encodeAscii v = some v
      unfold encodeAscii
      rw [if_pos hva]
    have hwgt : u16le (applyEdit (Edit.detailed_filament_type v) (parseFields b)).spool_weight_g
        = some (getSlice (b.getD 5 []) 4 6) :=
      u16le_readU16_slice (b.getD 5 []) 4 hb5 (by omega)
    rw [buildSector1_eval _ b _ _ hdt hwgt]
    have fcol : (applyEdit (Edit.detailed_filament_type v) (parseFields b)).color_rgba = getSlice (b.getD 5 []) 0 4 := rfl
    have hcol : (getSlice (b.getD 5 []) 0 4).take 4 = getSlice (b.getD 5 []) 0 4 :=
      List.take_of_length_le (le_of_eq (getSlice_length _ 0 4 (by omega) (by omega)))
    have fdia : (applyEdit (Edit.detailed_filament_type v) (parseFields b)).filament_diameter_mm
        = F32.ofList (getSlice (b.getD 5 []) 8 12) := rfl
    have hdia : (F32.ofList (getSlice (b.getD 5 []) 8 12)).toList = getSlice (b.getD 5 []) 8 12 :=
      F32_ofList_toList _ (getSlice_length _ 8 12 (by omega) (by omega)) hf.1
    rw [fcol, hcol, wr_id _ 5 0 4 _ (by omega) (by rw [hX2 5 (by omega)]),
      wr_id _ 5 4 6 _ (by omega) (by rw [hX2 5 (by omega)]),
      fdia, hdia, wr_id _ 5 8 12 _ (by omega) (by rw [hX2 5 (by omega)])]
  · exact buildBlock6_id b _ _ hv (hX2 6 (by omega)) rfl rfl rfl rfl rfl rfl
  · exact buildSector2_id b _ _ hv h5 hw hf.2 (hX2 8 (by omega)) (hX2 9 (by omega))
      (hX2 10 (by omega)) rfl rfl rfl rfl
  · exact buildSector3_id b _ _ hv h6 h7 (hX2 12 (by omega)) (hX2 13 (by omega))
      (hX2 14 (by omega)) rfl rfl rfl
  · exact buildSector4_id b _ _ hv (hX2 16 (by omega)) rfl rfl rfl
  · exact rsa_stage_idg b _ _ hv
      (fun j hj => hX2 j (by
        have hd : ∀ k ∈ RSA_DATA_BLOCKS, ¬((4 : Nat) = k) := by decide
        exact hd j hj)) rfl

/-- Building after editing `color_rgba` (at least four bytes) writes exactly
block 5 bytes 0-3. -/
theorem editBuild_color_rgba (b : Blocks) (v : List Nat) (hv : validImage b)
    (hc : canonImage b) (hw : widthStable b) (hf : f32Stable b) (hva : 4 ≤ v.length) :
    build_tag_blocks (applyEdit (Edit.color_rgba v) (parseFields b))
      = some (wr 5 0 4 (v.take 4) b) := by
  obtain ⟨h1, h2, h3, h4, h5, h6, h7⟩ := hc
  have hb64 : b.length = 64 := hv.1
  obtain ⟨hl4, -⟩ := validImage_block b hv 4 (by omega)
  obtain ⟨hl5, hb5⟩ := validImage_block b hv 5 (by omega)
  have hX2 : ∀ j, (5 : Nat) ≠ j →
      (wr 5 0 4 (v.take 4) b).getD j [] = b.getD j [] :=
    fun j hj => wr_getD_ne b 5 0 4 _ j hj
  have hVlen : (v.take 4).length = 4 - 0 := by
    rw [List.length_take]
    omega
  apply build_chain _ b b (wr 5 0 4 (v.take 4) b) (wr 5 0 4 (v.take 4) b) (wr 5 0 4 (v.take 4) b) (wr 5 0 4 (v.take 4) b) (wr 5 0 4 (v.take 4) b) _ (buildBase_edit b _ hv)
  · exact buildSector0_id b b _ hv h1 h2 h3 rfl rfl rfl rfl rfl rfl rfl rfl
  ·
    have hdt : encodeAscii (applyEdit (Edit.color_rgba v) (parseFields b)).detailed_filament_type
        = some ((getSlice (b.getD 4 []) 0 16).takeWhile (fun c => c ≠ 0)) :=
      encodeAscii_asciiRound _ h4
    have hwgt : u16le (applyEdit (Edit.color_rgba v) (parseFields b)).spool_weight_g
        = some (getSlice (b.getD 5 []) 4 6) :=
      u16le_readU16_slice (b.getD 5 []) 4 hb5 (by omega)
    rw [buildSector1_eval _ b _ _ hdt hwgt]
    have w4 : padTo 16 (((getSlice (b.getD 4 []) 0 16).takeWhile (fun c => c ≠ 0)).take 16)
        = getSlice (b.getD 4 []) 0 16 :=
      padTo_asciiRound _ 16 h4 (getSlice_length _ 0 16 (by omega) (by omega))
    have fcol : (applyEdit (Edit.color_rgba v) (parseFields b)).color_rgba = v := rfl
    have fdia : (applyEdit (Edit.color_rgba v) (parseFields b)).filament_diameter_mm
        = F32.ofList (getSlice (b.getD 5 []) 8 12) := rfl
    have hdia : (F32.ofList (getSlice (b.getD 5 []) 8 12)).toList = getSlice (b.getD 5 []) 8 12 :=
      F32_ofList_toList _ (getSlice_length _ 8 12 (by omega) (by omega)) hf.1
    have hsl46 : getSlice ((wr 5 0 4 (v.take 4) b).getD 5 []) 4 6
        = getSlice (b.getD 5 []) 4 6 :=
      getSlice_wr_right b 5 0 4 _ (by omega) hVlen (by omega) (by omega) 4 6 (by omega)
    have hsl812 : getSlice ((wr 5 0 4 (v.take 4) b).getD 5 []) 8 12
        = getSlice (b.getD 5 []) 8 12 :=
      getSlice_wr_right b 5 0 4 _ (by omega) hVlen (by omega) (by omega) 8 12 (by omega)
    rw [w4, wr_id b 4 0 16 _ (by omega) rfl, fcol,
      wr_id _ 5 4 6 _ (by omega) hsl46.symm,
      fdia, hdia, wr_id _ 5 8 12 _ (by omega) hsl812.symm]
  · exact buildBlock6_id b _ _ hv (hX2 6 (by omega)) rfl rfl rfl rfl rfl rfl
  · exact buildSector2_id b _ _ hv h5 hw hf.2 (hX2 8 (by omega)) (hX2 9 (by omega))
      (hX2 10 (by omega)) rfl rfl rfl rfl
  · exact buildSector3_id b _ _ hv h6 h7 (hX2 12 (by omega)) (hX2 13 (by omega))
      (hX2 14 (by omega)) rfl rfl rfl
  · exact buildSector4_id b _ _ hv (hX2 16 (by omega)) rfl rfl rfl
  · exact rsa_stage_idg b _ _ hv
      (fun j hj => hX2 j (by
        have hd : ∀ k ∈ RSA_DATA_BLOCKS, ¬((5 : Nat) = k) := by decide
        exact hd j hj)) rfl

/-- Building after editing `spool_weight_g` (in u16 range) writes exactly
block 5 bytes 4-5 with the little-endian value. -/
theorem editBuild_spool_weight_g (b : Blocks) (v : Int) (hv : validImage b)
    (hc : canonImage b) (hw : widthStable b) (hf : f32Stable b) (hw0 : 0 ≤ v) (hw1 : v < 65536) :
    build_tag_blocks (applyEdit (Edit.spool_weight_g v) (parseFields b))
      = some (wr 5 4 6 [v.toNat % 256, v.toNat / 256] b) := by
  obtain ⟨h1, h2, h3, h4, h5, h6, h7⟩ := hc
  have hb64 : b.length = 64 := hv.1
  obtain ⟨hl4, -⟩ := validImage_block b hv 4 (by omega)
  obtain ⟨hl5, hb5⟩ := validImage_block b hv 5 (by omega)
  have hX2 : ∀ j, (5 : Nat) ≠ j →
      (wr 5 4 6 ([v.toNat % 256, v.toNat / 256]) b).getD j [] = b.getD j [] :=
    fun j hj => wr_getD_ne b 5 4 6 _ j hj
  apply build_chain _ b b (wr 5 4 6 [v.toNat % 256, v.toNat / 256] b) (wr 5 4 6 [v.toNat % 256, v.toNat / 256] b) (wr 5 4 6 [v.toNat % 256, v.toNat / 256] b) (wr 5 4 6 [v.toNat % 256, v.toNat / 256] b) (wr 5 4 6 [v.toNat % 256, v.toNat / 256] b) _ (buildBase_edit b _ hv)
  · exact buildSector0_id b b _ hv h1 h2 h3 rfl rfl rfl rfl rfl rfl rfl rfl
  ·
    have hdt : encodeAscii (applyEdit (Edit.spool_weight_g v) (parseFields b)).detailed_filament_type
        = some ((getSlice (b.getD 4 []) 0 16).takeWhile (fun c => c ≠ 0)) :=
      encodeAscii_asciiRound _ h4
    have hwgt : u16le (applyEdit (Edit.spool_weight_g v) (parseFields b)).spool_weight_g
        = some [v.toNat % 256, v.toNat / 256] := by
      show u16le v = _
      unfold u16le
      rw [if_pos ⟨hw0, hw1⟩]
    rw [buildSector1_eval _ b _ _ hdt hwgt]
    have w4 : padTo 16 (((getSlice (b.getD 4 []) 0 16).takeWhile (fun c => c ≠ 0)).take 16)
        = getSlice (b.getD 4 []) 0 16 :=
      padTo_asciiRound _ 16 h4 (getSlice_length _ 0 16 (by omega) (by omega))
    have fcol : (applyEdit (Edit.spool_weight_g v) (parseFields b)).color_rgba = getSlice (b.getD 5 []) 0 4 := rfl
    have hcol : (getSlice (b.getD 5 []) 0 4).take 4 = getSlice (b.getD 5 []) 0 4 :=
      List.take_of_length_le (le_of_eq (getSlice_length _ 0 4 (by omega) (by omega)))
    have fdia : (applyEdit (Edit.spool_weight_g v) (parseFields b)).filament_diameter_mm
        = F32.ofList (getSlice (b.getD 5 []) 8 12) := rfl
    have hdia : (F32.ofList (getSlice (b.getD 5 []) 8 12)).toList = getSlice (b.getD 5 []) 8 12 :=
      F32_ofList_toList _ (getSlice_length _ 8 12 (by omega) (by omega)) hf.1
    have hsl812 : getSlice ((wr 5 4 6 [v.toNat % 256, v.toNat / 256] b).getD 5 []) 8 12
        = getSlice (b.getD 5 []) 8 12 :=
      getSlice_wr_right b 5 4 6 [v.toNat % 256, v.toNat / 256] (by omega) rfl (by omega)
        (by omega) 8 12 (by omega)
    rw [w4, wr_id b 4 0 16 _ (by omega) rfl, fcol, hcol, wr_id b 5 0 4 _ (by omega) rfl,
      fdia, hdia, wr_id _ 5 8 12 _ (by omega) hsl812.symm]
  · exact buildBlock6_id b _ _ hv (hX2 6 (by omega)) rfl rfl rfl rfl rfl rfl
  · exact buildSector2_id b _ _ hv h5 hw hf.2 (hX2 8 (by omega)) (hX2 9 (by omega))
      (hX2 10 (by omega)) rfl rfl rfl rfl
  · exact buildSector3_id b _ _ hv h6 h7 (hX2 12 (by omega)) (hX2 13 (by omega))
      (hX2 14 (by omega)) rfl rfl rfl
  · exact buildSector4_id b _ _ hv (hX2 16 (by omega)) rfl rfl rfl
  · exact rsa_stage_idg b _ _ hv
      (fun j hj => hX2 j (by
        have hd : ∀ k ∈ RSA_DATA_BLOCKS, ¬((5 : Nat) = k) := by decide
        exact hd j hj)) rfl

/-- Building after editing `filament_diameter_mm` writes exactly block 5
bytes 8-11 with the four F32 bytes. -/
theorem editBuild_filament_diameter_mm (b : Blocks) (v : F32) (hv : validImage b)
    (hc : canonImage b) (hw : widthStable b) (hf : f32Stable b) :
    build_tag_blocks (applyEdit (Edit.filament_diameter_mm v) (parseFields b))
      = some (wr 5 8 12 v.toList b) := by
  obtain ⟨h1, h2, h3, h4, h5, h6, h7⟩ := hc
  have hb64 : b.length = 64 := hv.1
  obtain ⟨hl4, -⟩ := validImage_block b hv 4 (by omega)
  obtain ⟨hl5, hb5⟩ := validImage_block b hv 5 (by omega)
  have hX2 : ∀ j, (5 : Nat) ≠ j →
      (wr 5 8 12 (v.toList) b).getD j [] = b.getD j [] :=
    fun j hj => wr_getD_ne b 5 8 12 _ j hj
  apply build_chain _ b b (wr 5 8 12 v.toList b) (wr 5 8 12 v.toList b) (wr 5 8 12 v.toList b) (wr 5 8 12 v.toList b) (wr 5 8 12 v.toList b) _ (buildBase_edit b _ hv)
  · exact buildSector0_id b b _ hv h1 h2 h3 rfl rfl rfl rfl rfl rfl rfl rfl
  ·
    have hdt : encodeAscii (applyEdit (Edit.filament_diameter_mm v) (parseFields b)).detailed_filament_type
        = some ((getSlice (b.getD 4 []) 0 16).takeWhile (fun c => c ≠ 0)) :=
      encodeAscii_asciiRound _ h4
    have hwgt : u16le (applyEdit (Edit.filament_diameter_mm v) (parseFields b)).spool_weight_g
        = some (getSlice (b.getD 5 []) 4 6) :=
      u16le_readU16_slice (b.getD 5 []) 4 hb5 (by omega)
    rw [buildSector1_eval _ b _ _ hdt hwgt]
    have w4 : padTo 16 (((getSlice (b.getD 4 []) 0 16).takeWhile (fun c => c ≠ 0)).take 16)
        = getSlice (b.getD 4 []) 0 16 :=
      padTo_asciiRound _ 16 h4 (getSlice_length _ 0 16 (by omega) (by omega))
    have fcol : (applyEdit (Edit.filament_diameter_mm v) (parseFields b)).color_rgba = getSlice (b.getD 5 []) 0 4 := rfl
    have hcol : (getSlice (b.getD 5 []) 0 4).take 4 = getSlice (b.getD 5 []) 0 4 :=
      List.take_of_length_le (le_of_eq (getSlice_length _ 0 4 (by omega) (by omega)))
    have fdia : (applyEdit (Edit.filament_diameter_mm v) (parseFields b)).filament_diameter_mm = v := rfl
    rw [w4, wr_id b 4 0 16 _ (by omega) rfl, fcol, hcol, wr_id b 5 0 4 _ (by omega) rfl,
      wr_id b 5 4 6 _ (by omega) rfl, fdia]
  · exact buildBlock6_id b _ _ hv (hX2 6 (by omega)) rfl rfl rfl rfl rfl rfl
  · exact buildSector2_id b _ _ hv h5 hw hf.2 (hX2 8 (by omega)) (hX2 9 (by omega))
      (hX2 10 (by omega)) rfl rfl rfl rfl
  · exact buildSector3_id b _ _ hv h6 h7 (hX2 12 (by omega)) (hX2 13 (by omega))
      (hX2 14 (by omega)) rfl rfl rfl
  · exact buildSector4_id b _ _ hv (hX2 16 (by omega)) rfl rfl rfl
  · exact rsa_stage_idg b _ _ hv
      (fun j hj => hX2 j (by
        have hd : ∀ k ∈ RSA_DATA_BLOCKS, ¬((5 : Nat) = k) := by decide
        exact hd j hj)) rfl

/-- Building after editing `drying_temp_c` (in u16 range) writes exactly block 6
bytes 0-1 with the little-endian value. -/
theorem editBuild_drying_temp_c (b : Blocks) (v : Int) (hv : validImage b)
    (hc : canonImage b) (hw : widthStable b) (hf : f32Stable b) (hw0 : 0 ≤ v) (hw1 : v < 65536) :
    build_tag_blocks (applyEdit (Edit.drying_temp_c v) (parseFields b))
      = some (wr 6 0 2 [v.toNat % 256, v.toNat / 256] b) := by
  obtain ⟨h1, h2, h3, h4, h5, h6, h7⟩ := hc
  have hb64 : b.length = 64 := hv.1
  obtain ⟨hl6, hb6⟩ := validImage_block b hv 6 (by omega)
  have hX2 : ∀ j, (6 : Nat) ≠ j →
      (wr 6 0 2 ([v.toNat % 256, v.toNat / 256]) b).getD j [] = b.getD j [] :=
    fun j hj => wr_getD_ne b 6 0 2 _ j hj
  apply build_chain _ b b b (wr 6 0 2 [v.toNat % 256, v.toNat / 256] b) (wr 6 0 2 [v.toNat % 256, v.toNat / 256] b) (wr 6 0 2 [v.toNat % 256, v.toNat / 256] b) (wr 6 0 2 [v.toNat % 256, v.toNat / 256] b) _ (buildBase_edit b _ hv)
  · exact buildSector0_id b b _ hv h1 h2 h3 rfl rfl rfl rfl rfl rfl rfl rfl
  · exact buildSector1_id b b _ hv h4 hf.1 rfl rfl rfl rfl rfl rfl
  ·
    have q1 : u16le (applyEdit (Edit.drying_temp_c v) (parseFields b)).drying_temp_c = some [v.toNat % 256, v.toNat / 256] := by
      show u16le v = _
      unfold u16le
      rw [if_pos ⟨hw0, hw1⟩]
    have q2 : u16le (applyEdit (Edit.drying_temp_c v) (parseFields b)).drying_time_h
        = some (getSlice (b.getD 6 []) 2 4) :=
      u16le_readU16_slice (b.getD 6 []) 2 hb6 (by omega)
    have q3 : u16le (applyEdit (Edit.drying_temp_c v) (parseFields b)).bed_temp_type
        = some (getSlice (b.getD 6 []) 4 6) :=
      u16le_readU16_slice (b.getD 6 []) 4 hb6 (by omega)
    have q4 : u16le (applyEdit (Edit.drying_temp_c v) (parseFields b)).bed_temp_c
        = some (getSlice (b.getD 6 []) 6 8) :=
      u16le_readU16_slice (b.getD 6 []) 6 hb6 (by omega)
    have q5 : u16le (applyEdit (Edit.drying_temp_c v) (parseFields b)).max_hotend_temp_c
        = some (getSlice (b.getD 6 []) 8 10) :=
      u16le_readU16_slice (b.getD 6 []) 8 hb6 (by omega)
    have q6 : u16le (applyEdit (Edit.drying_temp_c v) (parseFields b)).min_hotend_temp_c
        = some (getSlice (b.getD 6 []) 10 12) :=
      u16le_readU16_slice (b.getD 6 []) 10 hb6 (by omega)
    rw [buildBlock6_eval _ b _ _ _ _ _ _ q1 q2 q3 q4 q5 q6]
    have hsl1 : getSlice ((wr 6 0 2 [v.toNat % 256, v.toNat / 256] b).getD 6 []) 2 4
        = getSlice (b.getD 6 []) 2 4 :=
      getSlice_wr_right b 6 0 2 [v.toNat % 256, v.toNat / 256] (by omega) rfl (by omega) (by omega)
        2 4 (by omega)
    have hsl2 : getSlice ((wr 6 0 2 [v.toNat % 256, v.toNat / 256] b).getD 6 []) 4 6
        = getSlice (b.getD 6 []) 4 6 :=
      getSlice_wr_right b 6 0 2 [v.toNat % 256, v.toNat / 256] (by omega) rfl (by omega) (by omega)
        4 6 (by omega)
    have hsl3 : getSlice ((wr 6 0 2 [v.toNat % 256, v.toNat / 256] b).getD 6 []) 6 8
        = getSlice (b.getD 6 []) 6 8 :=
      getSlice_wr_right b 6 0 2 [v.toNat % 256, v.toNat / 256] (by omega) rfl (by omega) (by omega)
        6 8 (by omega)
    have hsl4 : getSlice ((wr 6 0 2 [v.toNat % 256, v.toNat / 256] b).getD 6 []) 8 10
        = getSlice (b.getD 6 []) 8 10 :=
      getSlice_wr_right b 6 0 2 [v.toNat % 256, v.toNat / 256] (by omega) rfl (by omega) (by omega)
        8 10 (by omega)
    have hsl5 : getSlice ((wr 6 0 2 [v.toNat % 256, v.toNat / 256] b).getD 6 []) 10 12
        = getSlice (b.getD 6 []) 10 12 :=
      getSlice_wr_right b 6 0 2 [v.toNat % 256, v.toNat / 256] (by omega) rfl (by omega) (by omega)
        10 12 (by omega)
    rw [wr_id _ 6 2 4 _ (by omega) hsl1.symm,
      wr_id _ 6 4 6 _ (by omega) hsl2.symm,
      wr_id _ 6 6 8 _ (by omega) hsl3.symm,
      wr_id _ 6 8 10 _ (by omega) hsl4.symm,
      wr_id _ 6 10 12 _ (by omega) hsl5.symm]
  · exact buildSector2_id b _ _ hv h5 hw hf.2 (hX2 8 (by omega)) (hX2 9 (by omega))
      (hX2 10 (by omega)) rfl rfl rfl rfl
  · exact buildSector3_id b _ _ hv h6 h7 (hX2 12 (by omega)) (hX2 13 (by omega))
      (hX2 14 (by omega)) rfl rfl rfl
  · exact buildSector4_id b _ _ hv (hX2 16 (by omega)) rfl rfl rfl
  · exact rsa_stage_idg b _ _ hv
      (fun j hj => hX2 j (by
        have hd : ∀ k ∈ RSA_DATA_BLOCKS, ¬((6 : Nat) = k) := by decide
        exact hd j hj)) rfl

/-- Building after editing `drying_time_h` (in u16 range) writes exactly block 6
bytes 2-3 with the little-endian value. -/
theorem editBuild_drying_time_h (b : Blocks) (v : Int) (hv : validImage b)
    (hc : canonImage b) (hw : widthStable b) (hf : f32Stable b) (hw0 : 0 ≤ v) (hw1 : v < 65536) :
    build_tag_blocks (applyEdit (Edit.drying_time_h v) (parseFields b))
      = some (wr 6 2 4 [v.toNat % 256, v.toNat / 256] b) := by
  obtain ⟨h1, h2, h3, h4, h5, h6, h7⟩ := hc
  have hb64 : b.length = 64 := hv.1
  obtain ⟨hl6, hb6⟩ := validImage_block b hv 6 (by omega)
  have hX2 : ∀ j, (6 : Nat) ≠ j →
      (wr 6 2 4 ([v.toNat % 256, v.toNat / 256]) b).getD j [] = b.getD j [] :=
    fun j hj => wr_getD_ne b 6 2 4 _ j hj
  apply build_chain _ b b b (wr 6 2 4 [v.toNat % 256, v.toNat / 256] b) (wr 6 2 4 [v.toNat % 256, v.toNat / 256] b) (wr 6 2 4 [v.toNat % 256, v.toNat / 256] b) (wr 6 2 4 [v.toNat % 256, v.toNat / 256] b) _ (buildBase_edit b _ hv)
  · exact buildSector0_id b b _ hv h1 h2 h3 rfl rfl rfl rfl rfl rfl rfl rfl
  · exact buildSector1_id b b _ hv h4 hf.1 rfl rfl rfl rfl rfl rfl
  ·
    have q1 : u16le (applyEdit (Edit.drying_time_h v) (parseFields b)).drying_temp_c
        = some (getSlice (b.getD 6 []) 0 2) :=
      u16le_readU16_slice (b.getD 6 []) 0 hb6 (by omega)
    have q2 : u16le (applyEdit (Edit.drying_time_h v) (parseFields b)).drying_time_h = some [v.toNat % 256, v.toNat / 256] := by
      show u16le v = _
      unfold u16le
      rw [if_pos ⟨hw0, hw1⟩]
    have q3 : u16le (applyEdit (Edit.drying_time_h v) (parseFields b)).bed_temp_type
        = some (getSlice (b.getD 6 []) 4 6) :=
      u16le_readU16_slice (b.getD 6 []) 4 hb6 (by omega)
    have q4 : u16le (applyEdit (Edit.drying_time_h v) (parseFields b)).bed_temp_c
        = some (getSlice (b.getD 6 []) 6 8) :=
      u16le_readU16_slice (b.getD 6 []) 6 hb6 (by omega)
    have q5 : u16le (applyEdit (Edit.drying_time_h v) (parseFields b)).max_hotend_temp_c
        = some (getSlice (b.getD 6 []) 8 10) :=
      u16le_readU16_slice (b.getD 6 []) 8 hb6 (by omega)
    have q6 : u16le (applyEdit (Edit.drying_time_h v) (parseFields b)).min_hotend_temp_c
        = some (getSlice (b.getD 6 []) 10 12) :=
      u16le_readU16_slice (b.getD 6 []) 10 hb6 (by omega)
    rw [buildBlock6_eval _ b _ _ _ _ _ _ q1 q2 q3 q4 q5 q6]
    have hsl2 : getSlice ((wr 6 2 4 [v.toNat % 256, v.toNat / 256] b).getD 6 []) 4 6
        = getSlice (b.getD 6 []) 4 6 :=
      getSlice_wr_right b 6 2 4 [v.toNat % 256, v.toNat / 256] (by omega) rfl (by omega) (by omega)
        4 6 (by omega)
    have hsl3 : getSlice ((wr 6 2 4 [v.toNat % 256, v.toNat / 256] b).getD 6 []) 6 8
        = getSlice (b.getD 6 []) 6 8 :=
      getSlice_wr_right b 6 2 4 [v.toNat % 256, v.toNat / 256] (by omega) rfl (by omega) (by omega)
        6 8 (by omega)
    have hsl4 : getSlice ((wr 6 2 4 [v.toNat % 256, v.toNat / 256] b).getD 6 []) 8 10
        = getSlice (b.getD 6 []) 8 10 :=
      getSlice_wr_right b 6 2 4 [v.toNat % 256, v.toNat / 256] (by omega) rfl (by omega) (by omega)
        8 10 (by omega)
    have hsl5 : getSlice ((wr 6 2 4 [v.toNat % 256, v.toNat / 256] b).getD 6 []) 10 12
        = getSlice (b.getD 6 []) 10 12 :=
      getSlice_wr_right b 6 2 4 [v.toNat % 256, v.toNat / 256] (by omega) rfl (by omega) (by omega)
        10 12 (by omega)
    rw [wr_id b 6 0 2 _ (by omega) rfl,
      wr_id _ 6 4 6 _ (by omega) hsl2.symm,
      wr_id _ 6 6 8 _ (by omega) hsl3.symm,
      wr_id _ 6 8 10 _ (by omega) hsl4.symm,
      wr_id _ 6 10 12 _ (by omega) hsl5.symm]
  · exact buildSector2_id b _ _ hv h5 hw hf.2 (hX2 8 (by omega)) (hX2 9 (by omega))
      (hX2 10 (by omega)) rfl rfl rfl rfl
  · exact buildSector3_id b _ _ hv h6 h7 (hX2 12 (by omega)) (hX2 13 (by omega))
      (hX2 14 (by omega)) rfl rfl rfl
  · exact buildSector4_id b _ _ hv (hX2 16 (by omega)) rfl rfl rfl
  · exact rsa_stage_idg b _ _ hv
      (fun j hj => hX2 j (by
        have hd : ∀ k ∈ RSA_DATA_BLOCKS, ¬((6 : Nat) = k) := by decide
        exact hd j hj)) rfl

/-- Building after editing `bed_temp_type` (in u16 range) writes exactly block 6
bytes 4-5 with the little-endian value. -/
theorem editBuild_bed_temp_type (b : Blocks) (v : Int) (hv : validImage b)
    (hc : canonImage b) (hw : widthStable b) (hf : f32Stable b) (hw0 : 0 ≤ v) (hw1 : v < 65536) :
    build_tag_blocks (applyEdit (Edit.bed_temp_type v) (parseFields b))
      = some (wr 6 4 6 [v.toNat % 256, v.toNat / 256] b) := by
  obtain ⟨h1, h2, h3, h4, h5, h6, h7⟩ := hc
  have hb64 : b.length = 64 := hv.1
  obtain ⟨hl6, hb6⟩ := validImage_block b hv 6 (by omega)
  have hX2 : ∀ j, (6 : Nat) ≠ j →
      (wr 6 4 6 ([v.toNat % 256, v.toNat / 256]) b).getD j [] = b.getD j [] :=
    fun j hj => wr_getD_ne b 6 4 6 _ j hj
  apply build_chain _ b b b (wr 6 4 6 [v.toNat % 256, v.toNat / 256] b) (wr 6 4 6 [v.toNat % 256, v.toNat / 256] b) (wr 6 4 6 [v.toNat % 256, v.toNat / 256] b) (wr 6 4 6 [v.toNat % 256, v.toNat / 256] b) _ (buildBase_edit b _ hv)
  · exact buildSector0_id b b _ hv h1 h2 h3 rfl rfl rfl rfl rfl rfl rfl rfl
  · exact buildSector1_id b b _ hv h4 hf.1 rfl rfl rfl rfl rfl rfl
  ·
    have q1 : u16le (applyEdit (Edit.bed_temp_type v) (parseFields b)).drying_temp_c
        = some (getSlice (b.getD 6 []) 0 2) :=
      u16le_readU16_slice (b.getD 6 []) 0 hb6 (by omega)
    have q2 : u16le (applyEdit (Edit.bed_temp_type v) (parseFields b)).drying_time_h
        = some (getSlice (b.getD 6 []) 2 4) :=
      u16le_readU16_slice (b.getD 6 []) 2 hb6 (by omega)
    have q3 : u16le (applyEdit (Edit.bed_temp_type v) (parseFields b)).bed_temp_type = some [v.toNat % 256, v.toNat / 256] := by
      show u16le v = _
      unfold u16le
      rw [if_pos ⟨hw0, hw1⟩]
    have q4 : u16le (applyEdit (Edit.bed_temp_type v) (parseFields b)).bed_temp_c
        = some (getSlice (b.getD 6 []) 6 8) :=
      u16le_readU16_slice (b.getD 6 []) 6 hb6 (by omega)
    have q5 : u16le (applyEdit (Edit.bed_temp_type v) (parseFields b)).max_hotend_temp_c
        = some (getSlice (b.getD 6 []) 8 10) :=
      u16le_readU16_slice (b.getD 6 []) 8 hb6 (by omega)
    have q6 : u16le (applyEdit (Edit.bed_temp_type v) (parseFields b)).min_hotend_temp_c
        = some (getSlice (b.getD 6 []) 10 12) :=
      u16le_readU16_slice (b.getD 6 []) 10 hb6 (by omega)
    rw [buildBlock6_eval _ b _ _ _ _ _ _ q1 q2 q3 q4 q5 q6]
    have hsl3 : getSlice ((wr 6 4 6 [v.toNat % 256, v.toNat / 256] b).getD 6 []) 6 8
        = getSlice (b.getD 6 []) 6 8 :=
      getSlice_wr_right b 6 4 6 [v.toNat % 256, v.toNat / 256] (by omega) rfl (by omega) (by omega)
        6 8 (by omega)
    have hsl4 : getSlice ((wr 6 4 6 [v.toNat % 256, v.toNat / 256] b).getD 6 []) 8 10
        = getSlice (b.getD 6 []) 8 10 :=
      getSlice_wr_right b 6 4 6 [v.toNat % 256, v.toNat / 256] (by omega) rfl (by omega) (by omega)
        8 10 (by omega)
    have hsl5 : getSlice ((wr 6 4 6 [v.toNat % 256, v.toNat / 256] b).getD 6 []) 10 12
        = getSlice (b.getD 6 []) 10 12 :=
      getSlice_wr_right b 6 4 6 [v.toNat % 256, v.toNat / 256] (by omega) rfl (by omega) (by omega)
        10 12 (by omega)
    rw [wr_id b 6 0 2 _ (by omega) rfl,
      wr_id b 6 2 4 _ (by omega) rfl,
      wr_id _ 6 6 8 _ (by omega) hsl3.symm,
      wr_id _ 6 8 10 _ (by omega) hsl4.symm,
      wr_id _ 6 10 12 _ (by omega) hsl5.symm]
  · exact buildSector2_id b _ _ hv h5 hw hf.2 (hX2 8 (by omega)) (hX2 9 (by omega))
      (hX2 10 (by omega)) rfl rfl rfl rfl
  · exact buildSector3_id b _ _ hv h6 h7 (hX2 12 (by omega)) (hX2 13 (by omega))
      (hX2 14 (by omega)) rfl rfl rfl
  · exact buildSector4_id b _ _ hv (hX2 16 (by omega)) rfl rfl rfl
  · exact rsa_stage_idg b _ _ hv
      (fun j hj => hX2 j (by
        have hd : ∀ k ∈ RSA_DATA_BLOCKS, ¬((6 : Nat) = k) := by decide
        exact hd j hj)) rfl

/-- Building after editing `bed_temp_c` (in u16 range) writes exactly block 6
bytes 6-7 with the little-endian value. -/
theorem editBuild_bed_temp_c (b : Blocks) (v : Int) (hv : validImage b)
    (hc : canonImage b) (hw : widthStable b) (hf : f32Stable b) (hw0 : 0 ≤ v) (hw1 : v < 65536) :
    build_tag_blocks (applyEdit (Edit.bed_temp_c v) (parseFields b))
      = some (wr 6 6 8 [v.toNat % 256, v.toNat / 256] b) := by
  obtain ⟨h1, h2, h3, h4, h5, h6, h7⟩ := hc
  have hb64 : b.length = 64 := hv.1
  obtain ⟨hl6, hb6⟩ := validImage_block b hv 6 (by omega)
  have hX2 : ∀ j, (6 : Nat) ≠ j →
      (wr 6 6 8 ([v.toNat % 256, v.toNat / 256]) b).getD j [] = b.getD j [] :=
    fun j hj => wr_getD_ne b 6 6 8 _ j hj
  apply build_chain _ b b b (wr 6 6 8 [v.toNat % 256, v.toNat / 256] b) (wr 6 6 8 [v.toNat % 256, v.toNat / 256] b) (wr 6 6 8 [v.toNat % 256, v.toNat / 256] b) (wr 6 6 8 [v.toNat % 256, v.toNat / 256] b) _ (buildBase_edit b _ hv)
  · exact buildSector0_id b b _ hv h1 h2 h3 rfl rfl rfl rfl rfl rfl rfl rfl
  · exact buildSector1_id b b _ hv h4 hf.1 rfl rfl rfl rfl rfl rfl
  ·
    have q1 : u16le (applyEdit (Edit.bed_temp_c v) (parseFields b)).drying_temp_c
        = some (getSlice (b.getD 6 []) 0 2) :=
      u16le_readU16_slice (b.getD 6 []) 0 hb6 (by omega)
    have q2 : u16le (applyEdit (Edit.bed_temp_c v) (parseFields b)).drying_time_h
        = some (getSlice (b.getD 6 []) 2 4) :=
      u16le_readU16_slice (b.getD 6 []) 2 hb6 (by omega)
    have q3 : u16le (applyEdit (Edit.bed_temp_c v) (parseFields b)).bed_temp_type
        = some (getSlice (b.getD 6 []) 4 6) :=
      u16le_readU16_slice (b.getD 6 []) 4 hb6 (by omega)
    have q4 : u16le (applyEdit (Edit.bed_temp_c v) (parseFields b)).bed_temp_c = some [v.toNat % 256, v.toNat / 256] := by
      show u16le v = _
      unfold u16le
      rw [if_pos ⟨hw0, hw1⟩]
    have q5 : u16le (applyEdit (Edit.bed_temp_c v) (parseFields b)).max_hotend_temp_c
        = some (getSlice (b.getD 6 []) 8 10) :=
      u16le_readU16_slice (b.getD 6 []) 8 hb6 (by omega)
    have q6 : u16le (applyEdit (Edit.bed_temp_c v) (parseFields b)).min_hotend_temp_c
        = some (getSlice (b.getD 6 []) 10 12) :=
      u16le_readU16_slice (b.getD 6 []) 10 hb6 (by omega)
    rw [buildBlock6_eval _ b _ _ _ _ _ _ q1 q2 q3 q4 q5 q6]
    have hsl4 : getSlice ((wr 6 6 8 [v.toNat % 256, v.toNat / 256] b).getD 6 []) 8 10
        = getSlice (b.getD 6 []) 8 10 :=
      getSlice_wr_right b 6 6 8 [v.toNat % 256, v.toNat / 256] (by omega) rfl (by omega) (by omega)
        8 10 (by omega)
    have hsl5 : getSlice ((wr 6 6 8 [v.toNat % 256, v.toNat / 256] b).getD 6 []) 10 12
        = getSlice (b.getD 6 []) 10 12 :=
      getSlice_wr_right b 6 6 8 [v.toNat % 256, v.toNat / 256] (by omega) rfl (by omega) (by omega)
        10 12 (by omega)
    rw [wr_id b 6 0 2 _ (by omega) rfl,
      wr_id b 6 2 4 _ (by omega) rfl,
      wr_id b 6 4 6 _ (by omega) rfl,
      wr_id _ 6 8 10 _ (by omega) hsl4.symm,
      wr_id _ 6 10 12 _ (by omega) hsl5.symm]
  · exact buildSector2_id b _ _ hv h5 hw hf.2 (hX2 8 (by omega)) (hX2 9 (by omega))
      (hX2 10 (by omega)) rfl rfl rfl rfl
  · exact buildSector3_id b _ _ hv h6 h7 (hX2 12 (by omega)) (hX2 13 (by omega))
      (hX2 14 (by omega)) rfl rfl rfl
  · exact buildSector4_id b _ _ hv (hX2 16 (by omega)) rfl rfl rfl
  · exact rsa_stage_idg b _ _ hv
      (fun j hj => hX2 j (by
        have hd : ∀ k ∈ RSA_DATA_BLOCKS, ¬((6 : Nat) = k) := by decide
        exact hd j hj)) rfl

/-- Building after editing `max_hotend_temp_c` (in u16 range) writes exactly block 6
bytes 8-9 with the little-endian value. -/
theorem editBuild_max_hotend_temp_c (b : Blocks) (v : Int) (hv : validImage b)
    (hc : canonImage b) (hw : widthStable b) (hf : f32Stable b) (hw0 : 0 ≤ v) (hw1 : v < 65536) :
    build_tag_blocks (applyEdit (Edit.max_hotend_temp_c v) (parseFields b))
      = some (wr 6 8 10 [v.toNat % 256, v.toNat / 256] b) := by
  obtain ⟨h1, h2, h3, h4, h5, h6, h7⟩ := hc
  have hb64 : b.length = 64 := hv.1
  obtain ⟨hl6, hb6⟩ := validImage_block b hv 6 (by omega)
  have hX2 : ∀ j, (6 : Nat) ≠ j →
      (wr 6 8 10 ([v.toNat % 256, v.toNat / 256]) b).getD j [] = b.getD j [] :=
    fun j hj => wr_getD_ne b 6 8 10 _ j hj
  apply build_chain _ b b b (wr 6 8 10 [v.toNat % 256, v.toNat / 256] b) (wr 6 8 10 [v.toNat % 256, v.toNat / 256] b) (wr 6 8 10 [v.toNat % 256, v.toNat / 256] b) (wr 6 8 10 [v.toNat % 256, v.toNat / 256] b) _ (buildBase_edit b _ hv)
  · exact buildSector0_id b b _ hv h1 h2 h3 rfl rfl rfl rfl rfl rfl rfl rfl
  · exact buildSector1_id b b _ hv h4 hf.1 rfl rfl rfl rfl rfl rfl
  ·
    have q1 : u16le (applyEdit (Edit.max_hotend_temp_c v) (parseFields b)).drying_temp_c
        = some (getSlice (b.getD 6 []) 0 2) :=
      u16le_readU16_slice (b.getD 6 []) 0 hb6 (by omega)
    have q2 : u16le (applyEdit (Edit.max_hotend_temp_c v) (parseFields b)).drying_time_h
        = some (getSlice (b.getD 6 []) 2 4) :=
      u16le_readU16_slice (b.getD 6 []) 2 hb6 (by omega)
    have q3 : u16le (applyEdit (Edit.max_hotend_temp_c v) (parseFields b)).bed_temp_type
        = some (getSlice (b.getD 6 []) 4 6) :=
      u16le_readU16_slice (b.getD 6 []) 4 hb6 (by omega)
    have q4 : u16le (applyEdit (Edit.max_hotend_temp_c v) (parseFields b)).bed_temp_c
        = some (getSlice (b.getD 6 []) 6 8) :=
      u16le_readU16_slice (b.getD 6 []) 6 hb6 (by omega)
    have q5 : u16le (applyEdit (Edit.max_hotend_temp_c v) (parseFields b)).max_hotend_temp_c = some [v.toNat % 256, v.toNat / 256] := by
      show u16le v = _
      unfold u16le
      rw [if_pos ⟨hw0, hw1⟩]
    have q6 : u16le (applyEdit (Edit.max_hotend_temp_c v) (parseFields b)).min_hotend_temp_c
        = some (getSlice (b.getD 6 []) 10 12) :=
      u16le_readU16_slice (b.getD 6 []) 10 hb6 (by omega)
    rw [buildBlock6_eval _ b _ _ _ _ _ _ q1 q2 q3 q4 q5 q6]
    have hsl5 : getSlice ((wr 6 8 10 [v.toNat % 256, v.toNat / 256] b).getD 6 []) 10 12
        = getSlice (b.getD 6 []) 10 12 :=
      getSlice_wr_right b 6 8 10 [v.toNat % 256, v.toNat / 256] (by omega) rfl (by omega) (by omega)
        10 12 (by omega)
    rw [wr_id b 6 0 2 _ (by omega) rfl,
      wr_id b 6 2 4 _ (by omega) rfl,
      wr_id b 6 4 6 _ (by omega) rfl,
      wr_id b 6 6 8 _ (by omega) rfl,
      wr_id _ 6 10 12 _ (by omega) hsl5.symm]
  · exact buildSector2_id b _ _ hv h5 hw hf.2 (hX2 8 (by omega)) (hX2 9 (by omega))
      (hX2 10 (by omega)) rfl rfl rfl rfl
  · exact buildSector3_id b _ _ hv h6 h7 (hX2 12 (by omega)) (hX2 13 (by omega))
      (hX2 14 (by omega)) rfl rfl rfl
  · exact buildSector4_id b _ _ hv (hX2 16 (by omega)) rfl rfl rfl
  · exact rsa_stage_idg b _ _ hv
      (fun j hj => hX2 j (by
        have hd : ∀ k ∈ RSA_DATA_BLOCKS, ¬((6 : Nat) = k) := by decide
        exact hd j hj)) rfl

/-- Building after editing `min_hotend_temp_c` (in u16 range) writes exactly block 6
bytes 10-11 with the little-endian value. -/
theorem editBuild_min_hotend_temp_c (b : Blocks) (v : Int) (hv : validImage b)
    (hc : canonImage b) (hw : widthStable b) (hf : f32Stable b) (hw0 : 0 ≤ v) (hw1 : v < 65536) :
    build_tag_blocks (applyEdit (Edit.min_hotend_temp_c v) (parseFields b))
      = some (wr 6 10 12 [v.toNat % 256, v.toNat / 256] b) := by
  obtain ⟨h1, h2, h3, h4, h5, h6, h7⟩ := hc
  have hb64 : b.length = 64 := hv.1
  obtain ⟨hl6, hb6⟩ := validImage_block b hv 6 (by omega)
  have hX2 : ∀ j, (6 : Nat) ≠ j →
      (wr 6 10 12 ([v.toNat % 256, v.toNat / 256]) b).getD j [] = b.getD j [] :=
    fun j hj => wr_getD_ne b 6 10 12 _ j hj
  apply build_chain _ b b b (wr 6 10 12 [v.toNat % 256, v.toNat / 256] b) (wr 6 10 12 [v.toNat % 256, v.toNat / 256] b) (wr 6 10 12 [v.toNat % 256, v.toNat / 256] b) (wr 6 10 12 [v.toNat % 256, v.toNat / 256] b) _ (buildBase_edit b _ hv)
  · exact buildSector0_id b b _ hv h1 h2 h3 rfl rfl rfl rfl rfl rfl rfl rfl
  · exact buildSector1_id b b _ hv h4 hf.1 rfl rfl rfl rfl rfl rfl
  ·
    have q1 : u16le (applyEdit (Edit.min_hotend_temp_c v) (parseFields b)).drying_temp_c
        = some (getSlice (b.getD 6 []) 0 2) :=
      u16le_readU16_slice (b.getD 6 []) 0 hb6 (by omega)
    have q2 : u16le (applyEdit (Edit.min_hotend_temp_c v) (parseFields b)).drying_time_h
        = some (getSlice (b.getD 6 []) 2 4) :=
      u16le_readU16_slice (b.getD 6 []) 2 hb6 (by omega)
    have q3 : u16le (applyEdit (Edit.min_hotend_temp_c v) (parseFields b)).bed_temp_type
        = some (getSlice (b.getD 6 []) 4 6) :=
      u16le_readU16_slice (b.getD 6 []) 4 hb6 (by omega)
    have q4 : u16le (applyEdit (Edit.min_hotend_temp_c v) (parseFields b)).bed_temp_c
        = some (getSlice (b.getD 6 []) 6 8) :=
      u16le_readU16_slice (b.getD 6 []) 6 hb6 (by omega)
    have q5 : u16le (applyEdit (Edit.min_hotend_temp_c v) (parseFields b)).max_hotend_temp_c
        = some (getSlice (b.getD 6 []) 8 10) :=
      u16le_readU16_slice (b.getD 6 []) 8 hb6 (by omega)
    have q6 : u16le (applyEdit (Edit.min_hotend_temp_c v) (parseFields b)).min_hotend_temp_c = some [v.toNat % 256, v.toNat / 256] := by
      show u16le v = _
      unfold u16le
      rw [if_pos ⟨hw0, hw1⟩]
    rw [buildBlock6_eval _ b _ _ _ _ _ _ q1 q2 q3 q4 q5 q6]
    rw [wr_id b 6 0 2 _ (by omega) rfl,
      wr_id b 6 2 4 _ (by omega) rfl,
      wr_id b 6 4 6 _ (by omega) rfl,
      wr_id b 6 6 8 _ (by omega) rfl,
      wr_id b 6 8 10 _ (by omega) rfl]
  · exact buildSector2_id b _ _ hv h5 hw hf.2 (hX2 8 (by omega)) (hX2 9 (by omega))
      (hX2 10 (by omega)) rfl rfl rfl rfl
  · exact buildSector3_id b _ _ hv h6 h7 (hX2 12 (by omega)) (hX2 13 (by omega))
      (hX2 14 (by omega)) rfl rfl rfl
  · exact buildSector4_id b _ _ hv (hX2 16 (by omega)) rfl rfl rfl
  · exact rsa_stage_idg b _ _ hv
      (fun j hj => hX2 j (by
        have hd : ∀ k ∈ RSA_DATA_BLOCKS, ¬((6 : Nat) = k) := by decide
        exact hd j hj)) rfl

/-- Building after editing `xcam_info` to a non-empty value writes exactly
block 8 bytes 0-11. -/
theorem editBuild_xcam_info (b : Blocks) (v : List Nat) (hv : validImage b)
    (hc : canonImage b) (hw : widthStable b) (hf : f32Stable b) (hve : v ≠ []) :
    build_tag_blocks (applyEdit (Edit.xcam_info v) (parseFields b))
      = some (wr 8 0 12 (padTo 12 (v.take 12)) b) := by
  obtain ⟨h1, h2, h3, h4, h5, h6, h7⟩ := hc
  have hb64 : b.length = 64 := hv.1
  obtain ⟨hl8, -⟩ := validImage_block b hv 8 (by omega)
  obtain ⟨hl9, -⟩ := validImage_block b hv 9 (by omega)
  obtain ⟨hl10, hb10⟩ := validImage_block b hv 10 (by omega)
  have hX2 : ∀ j, (8 : Nat) ≠ j →
      (wr 8 0 12 (padTo 12 (v.take 12)) b).getD j [] = b.getD j [] :=
    fun j hj => wr_getD_ne b 8 0 12 _ j hj
  have hVlen : (padTo 12 (v.take 12)).length = 12 - 0 := padTo_take_length v 12
  apply build_chain _ b b b b (wr 8 0 12 (padTo 12 (v.take 12)) b) (wr 8 0 12 (padTo 12 (v.take 12)) b) (wr 8 0 12 (padTo 12 (v.take 12)) b) _ (buildBase_edit b _ hv)
  · exact buildSector0_id b b _ hv h1 h2 h3 rfl rfl rfl rfl rfl rfl rfl rfl
  · exact buildSector1_id b b _ hv h4 hf.1 rfl rfl rfl rfl rfl rfl
  · exact buildBlock6_id b b _ hv rfl rfl rfl rfl rfl rfl rfl
  ·
    have htu : encodeAscii (applyEdit (Edit.xcam_info v) (parseFields b)).tray_uid
        = some ((getSlice (b.getD 9 []) 0 16).takeWhile (fun c => c ≠ 0)) :=
      encodeAscii_asciiRound _ h5
    have hwid : (truncF (mulF100 (fl53 (readU16 (b.getD 10 []) 4).toNat 100)) : Int)
        = readU16 (b.getD 10 []) 4 := by
      have hws := hw
      unfold widthStable pyWidthRoundTrip at hws
      rw [hws]
      exact Int.toNat_of_nonneg (readU16_nonneg _ _)
    have hwv : u16le (truncF (mulF100 (applyEdit (Edit.xcam_info v) (parseFields b)).spool_width_mm) : Int)
        = some (getSlice (b.getD 10 []) 4 6) := by
      show u16le (truncF (mulF100 (fl53 (readU16 (b.getD 10 []) 4).toNat 100)) : Int) = _
      rw [hwid]
      exact u16le_readU16_slice (b.getD 10 []) 4 hb10 (by omega)
    rw [buildSector2_eval _ b _ _ htu hwv]
    have fx : (applyEdit (Edit.xcam_info v) (parseFields b)).xcam_info = v := rfl
    have fnoz : (applyEdit (Edit.xcam_info v) (parseFields b)).nozzle_diameter
        = F32.ofList (getSlice (b.getD 8 []) 12 16) := rfl
    have hnoz : (F32.ofList (getSlice (b.getD 8 []) 12 16)).toList = getSlice (b.getD 8 []) 12 16 :=
      F32_ofList_toList _ (getSlice_length _ 12 16 (by omega) (by omega)) hf.2
    have w9 : padTo 16 (((getSlice (b.getD 9 []) 0 16).takeWhile (fun c => c ≠ 0)).take 16)
        = getSlice (b.getD 9 []) 0 16 :=
      padTo_asciiRound _ 16 h5 (getSlice_length _ 0 16 (by omega) (by omega))
    have hsl1216 : getSlice ((wr 8 0 12 (padTo 12 (v.take 12)) b).getD 8 []) 12 16
        = getSlice (b.getD 8 []) 12 16 :=
      getSlice_wr_right b 8 0 12 (padTo 12 (v.take 12)) (by omega) hVlen (by omega)
        (by omega) 12 16 (by omega)
    rw [fx, if_pos hve, fnoz, hnoz, wr_id _ 8 12 16 _ (by omega) hsl1216.symm,
      w9, wr_id _ 9 0 16 _ (by omega) (by rw [hX2 9 (by omega)]),
      wr_id _ 10 4 6 _ (by omega) (by rw [hX2 10 (by omega)])]
  · exact buildSector3_id b _ _ hv h6 h7 (hX2 12 (by omega)) (hX2 13 (by omega))
      (hX2 14 (by omega)) rfl rfl rfl
  · exact buildSector4_id b _ _ hv (hX2 16 (by omega)) rfl rfl rfl
  · exact rsa_stage_idg b _ _ hv
      (fun j hj => hX2 j (by
        have hd : ∀ k ∈ RSA_DATA_BLOCKS, ¬((8 : Nat) = k) := by decide
        exact hd j hj)) rfl

/-- Editing `xcam_info` to the empty value leaves the rebuilt image
unchanged. -/
theorem editBuild_xcam_info_nil (b : Blocks) (hv : validImage b)
    (hc : canonImage b) (hw : widthStable b) (hf : f32Stable b) :
    build_tag_blocks (applyEdit (Edit.xcam_info []) (parseFields b)) = some b := by
  obtain ⟨h1, h2, h3, h4, h5, h6, h7⟩ := hc
  have hb64 : b.length = 64 := hv.1
  obtain ⟨hl8, -⟩ := validImage_block b hv 8 (by omega)
  obtain ⟨hl9, -⟩ := validImage_block b hv 9 (by omega)
  obtain ⟨hl10, hb10⟩ := validImage_block b hv 10 (by omega)
  have hX2 : ∀ j, (8 : Nat) ≠ j → (b : Blocks).getD j [] = b.getD j [] :=
    fun j _ => rfl
  apply build_chain _ b b b b b b b _ (buildBase_edit b _ hv)
  · exact buildSector0_id b b _ hv h1 h2 h3 rfl rfl rfl rfl rfl rfl rfl rfl
  · exact buildSector1_id b b _ hv h4 hf.1 rfl rfl rfl rfl rfl rfl
  · exact buildBlock6_id b b _ hv rfl rfl rfl rfl rfl rfl rfl
  ·
    have htu : encodeAscii (applyEdit (Edit.xcam_info []) (parseFields b)).tray_uid
        = some ((getSlice (b.getD 9 []) 0 16).takeWhile (fun c => c ≠ 0)) :=
      encodeAscii_asciiRound _ h5
    have hwid : (truncF (mulF100 (fl53 (readU16 (b.getD 10 []) 4).toNat 100)) : Int)
        = readU16 (b.getD 10 []) 4 := by
      have hws := hw
      unfold widthStable pyWidthRoundTrip at hws
      rw [hws]
      exact Int.toNat_of_nonneg (readU16_nonneg _ _)
    have hwv : u16le (truncF (mulF100 (applyEdit (Edit.xcam_info []) (parseFields b)).spool_width_mm) : Int)
        = some (getSlice (b.getD 10 []) 4 6) := by
      show u16le (truncF (mulF100 (fl53 (readU16 (b.getD 10 []) 4).toNat 100)) : Int) = _
      rw [hwid]
      exact u16le_readU16_slice (b.getD 10 []) 4 hb10 (by omega)
    rw [buildSector2_eval _ b _ _ htu hwv]
    have fx : (applyEdit (Edit.xcam_info []) (parseFields b)).xcam_info = ([] : List Nat) := rfl
    have fnoz : (applyEdit (Edit.xcam_info []) (parseFields b)).nozzle_diameter
        = F32.ofList (getSlice (b.getD 8 []) 12 16) := rfl
    have hnoz : (F32.ofList (getSlice (b.getD 8 []) 12 16)).toList = getSlice (b.getD 8 []) 12 16 :=
      F32_ofList_toList _ (getSlice_length _ 12 16 (by omega) (by omega)) hf.2
    have w9 : padTo 16 (((getSlice (b.getD 9 []) 0 16).takeWhile (fun c => c ≠ 0)).take 16)
        = getSlice (b.getD 9 []) 0 16 :=
      padTo_asciiRound _ 16 h5 (getSlice_length _ 0 16 (by omega) (by omega))
    rw [fx]
    rw [if_neg (show ¬(([] : List Nat) ≠ []) from fun hh => hh rfl)]
    rw [fnoz, hnoz, wr_id b 8 12 16 _ (by omega) rfl,
      w9, wr_id b 9 0 16 _ (by omega) rfl,
      wr_id b 10 4 6 _ (by omega) rfl]
  · exact buildSector3_id b _ _ hv h6 h7 (hX2 12 (by omega)) (hX2 13 (by omega))
      (hX2 14 (by omega)) rfl rfl rfl
  · exact buildSector4_id b _ _ hv (hX2 16 (by omega)) rfl rfl rfl
  · exact rsa_stage_idg b _ _ hv
      (fun j hj => hX2 j (by
        have hd : ∀ k ∈ RSA_DATA_BLOCKS, ¬((8 : Nat) = k) := by decide
        exact hd j hj)) rfl

/-- Building after editing `nozzle_diameter` writes exactly block 8
bytes 12-15 with the four F32 bytes. -/
theorem editBuild_nozzle_diameter (b : Blocks) (v : F32) (hv : validImage b)
    (hc : canonImage b) (hw : widthStable b) (hf : f32Stable b) :
    build_tag_blocks (applyEdit (Edit.nozzle_diameter v) (parseFields b))
      = some (wr 8 12 16 v.toList b) := by
  obtain ⟨h1, h2, h3, h4, h5, h6, h7⟩ := hc
  have hb64 : b.length = 64 := hv.1
  obtain ⟨hl8, -⟩ := validImage_block b hv 8 (by omega)
  obtain ⟨hl9, -⟩ := validImage_block b hv 9 (by omega)
  obtain ⟨hl10, hb10⟩ := validImage_block b hv 10 (by omega)
  have hX2 : ∀ j, (8 : Nat) ≠ j →
      (wr 8 12 16 (v.toList) b).getD j [] = b.getD j [] :=
    fun j hj => wr_getD_ne b 8 12 16 _ j hj
  apply build_chain _ b b b b (wr 8 12 16 v.toList b) (wr 8 12 16 v.toList b) (wr 8 12 16 v.toList b) _ (buildBase_edit b _ hv)
  · exact buildSector0_id b b _ hv h1 h2 h3 rfl rfl rfl rfl rfl rfl rfl rfl
  · exact buildSector1_id b b _ hv h4 hf.1 rfl rfl rfl rfl rfl rfl
  · exact buildBlock6_id b b _ hv rfl rfl rfl rfl rfl rfl rfl
  ·
    have htu : encodeAscii (applyEdit (Edit.nozzle_diameter v) (parseFields b)).tray_uid
        = some ((getSlice (b.getD 9 []) 0 16).takeWhile (fun c => c ≠ 0)) :=
      encodeAscii_asciiRound _ h5
    have hwid : (truncF (mulF100 (fl53 (readU16 (b.getD 10 []) 4).toNat 100)) : Int)
        = readU16 (b.getD 10 []) 4 := by
      have hws := hw
      unfold widthStable pyWidthRoundTrip at hws
      rw [hws]
      exact Int.toNat_of_nonneg (readU16_nonneg _ _)
    have hwv : u16le (truncF (mulF100 (applyEdit (Edit.nozzle_diameter v) (parseFields b)).spool_width_mm) : Int)
        = some (getSlice (b.getD 10 []) 4 6) := by
      show u16le (truncF (mulF100 (fl53 (readU16 (b.getD 10 []) 4).toNat 100)) : Int) = _
      rw [hwid]
      exact u16le_readU16_slice (b.getD 10 []) 4 hb10 (by omega)
    rw [buildSector2_eval _ b _ _ htu hwv]
    have fx : (applyEdit (Edit.nozzle_diameter v) (parseFields b)).xcam_info = getSlice (b.getD 8 []) 0 12 := rfl
    have hxne : getSlice (b.getD 8 []) 0 12 ≠ [] :=
      getSlice_ne_nil _ 0 12 (by omega) (by omega)
    have px : padTo 12 ((getSlice (b.getD 8 []) 0 12).take 12) = getSlice (b.getD 8 []) 0 12 := by
      rw [padTo_take_self]
      exact getSlice_length _ 0 12 (by omega) (by omega)
    have fnoz : (applyEdit (Edit.nozzle_diameter v) (parseFields b)).nozzle_diameter = v := rfl
    have w9 : padTo 16 (((getSlice (b.getD 9 []) 0 16).takeWhile (fun c => c ≠ 0)).take 16)
        = getSlice (b.getD 9 []) 0 16 :=
      padTo_asciiRound _ 16 h5 (getSlice_length _ 0 16 (by omega) (by omega))
    rw [fx, if_pos hxne, px, wr_id b 8 0 12 _ (by omega) rfl, fnoz,
      w9, wr_id _ 9 0 16 _ (by omega) (by rw [hX2 9 (by omega)]),
      wr_id _ 10 4 6 _ (by omega) (by rw [hX2 10 (by omega)])]
  · exact buildSector3_id b _ _ hv h6 h7 (hX2 12 (by omega)) (hX2 13 (by omega))
      (hX2 14 (by omega)) rfl rfl rfl
  · exact buildSector4_id b _ _ hv (hX2 16 (by omega)) rfl rfl rfl
  · exact rsa_stage_idg b _ _ hv
      (fun j hj => hX2 j (by
        have hd : ∀ k ∈ RSA_DATA_BLOCKS, ¬((8 : Nat) = k) := by decide
        exact hd j hj)) rfl

/-- Building after editing `tray_uid` writes exactly block 9 bytes 0-15. -/
theorem editBuild_tray_uid (b : Blocks) (v : List Nat) (hv : validImage b)
    (hc : canonImage b) (hw : widthStable b) (hf : f32Stable b) (hva : v.all (fun c => c < 128) = true) :
    build_tag_blocks (applyEdit (Edit.tray_uid v) (parseFields b))
      = some (wr 9 0 16 (padTo 16 (v.take 16)) b) := by
  obtain ⟨h1, h2, h3, h4, h5, h6, h7⟩ := hc
  have hb64 : b.length = 64 := hv.1
  obtain ⟨hl8, -⟩ := validImage_block b hv 8 (by omega)
  obtain ⟨hl9, -⟩ := validImage_block b hv 9 (by omega)
  obtain ⟨hl10, hb10⟩ := validImage_block b hv 10 (by omega)
  have hX2 : ∀ j, (9 : Nat) ≠ j →
      (wr 9 0 16 (padTo 16 (v.take 16)) b).getD j [] = b.getD j [] :=
    fun j hj => wr_getD_ne b 9 0 16 _ j hj
  apply build_chain _ b b b b (wr 9 0 16 (padTo 16 (v.take 16)) b) (wr 9 0 16 (padTo 16 (v.take 16)) b) (wr 9 0 16 (padTo 16 (v.take 16)) b) _ (buildBase_edit b _ hv)
  · exact buildSector0_id b b _ hv h1 h2 h3 rfl rfl rfl rfl rfl rfl rfl rfl
  · exact buildSector1_id b b _ hv h4 hf.1 rfl rfl rfl rfl rfl rfl
  · exact buildBlock6_id b b _ hv rfl rfl rfl rfl rfl rfl rfl
  ·
    have htu : encodeAscii (applyEdit (Edit.tray_uid v) (parseFields b)).tray_uid = some v := by
      show encodeAscii v = some v
      unfold encodeAscii
      rw [if_pos hva]
    have hwid : (truncF (mulF100 (fl53 (readU16 (b.getD 10 []) 4).toNat 100)) : Int)
        = readU16 (b.getD 10 []) 4 := by
      have hws := hw
      unfold widthStable pyWidthRoundTrip at hws
      rw [hws]
      exact Int.toNat_of_nonneg (readU16_nonneg _ _)
    have hwv : u16le (truncF (mulF100 (applyEdit (Edit.tray_uid v) (parseFields b)).spool_width_mm) : Int)
        = some (getSlice (b.getD 10 []) 4 6) := by
      show u16le (truncF (mulF100 (fl53 (readU16 (b.getD 10 []) 4).toNat 100)) : Int) = _
      rw [hwid]
      exact u16le_readU16_slice (b.getD 10 []) 4 hb10 (by omega)
    rw [buildSector2_eval _ b _ _ htu hwv]
    have fx : (applyEdit (Edit.tray_uid v) (parseFields b)).xcam_info = getSlice (b.getD 8 []) 0 12 := rfl
    have hxne : getSlice (b.getD 8 []) 0 12 ≠ [] :=
      getSlice_ne_nil _ 0 12 (by omega) (by omega)
    have px : padTo 12 ((getSlice (b.getD 8 []) 0 12).take 12) = getSlice (b.getD 8 []) 0 12 := by
      rw [padTo_take_self]
      exact getSlice_length _ 0 12 (by omega) (by omega)
    have fnoz : (applyEdit (Edit.tray_uid v) (parseFields b)).nozzle_diameter
        = F32.ofList (getSlice (b.getD 8 []) 12 16) := rfl
    have hnoz : (F32.ofList (getSlice (b.getD 8 []) 12 16)).toList = getSlice (b.getD 8 []) 12 16 :=
      F32_ofList_toList _ (getSlice_length _ 12 16 (by omega) (by omega)) hf.2
    rw [fx, if_pos hxne, px, wr_id b 8 0 12 _ (by omega) rfl,
      fnoz, hnoz, wr_id b 8 12 16 _ (by omega) rfl,
      wr_id _ 10 4 6 _ (by omega) (by rw [hX2 10 (by omega)])]
  · exact buildSector3_id b _ _ hv h6 h7 (hX2 12 (by omega)) (hX2 13 (by omega))
      (hX2 14 (by omega)) rfl rfl rfl
  · exact buildSector4_id b _ _ hv (hX2 16 (by omega)) rfl rfl rfl
  · exact rsa_stage_idg b _ _ hv
      (fun j hj => hX2 j (by
        have hd : ∀ k ∈ RSA_DATA_BLOCKS, ¬((9 : Nat) = k) := by decide
        exact hd j hj)) rfl

/-- Building after editing `spool_width_mm` writes exactly block 10
bytes 4-5 with the little-endian truncation of 100 times the value. -/
theorem editBuild_spool_width_mm (b : Blocks) (v : PyF) (hv : validImage b)
    (hc : canonImage b) (hw : widthStable b) (hf : f32Stable b) (hwv0 : truncF (mulF100 v) < 65536) :
    build_tag_blocks (applyEdit (Edit.spool_width_mm v) (parseFields b))
      = some (wr 10 4 6 [truncF (mulF100 v) % 256, truncF (mulF100 v) / 256] b) := by
  obtain ⟨h1, h2, h3, h4, h5, h6, h7⟩ := hc
  have hb64 : b.length = 64 := hv.1
  obtain ⟨hl8, -⟩ := validImage_block b hv 8 (by omega)
  obtain ⟨hl9, -⟩ := validImage_block b hv 9 (by omega)
  obtain ⟨hl10, hb10⟩ := validImage_block b hv 10 (by omega)
  have hX2 : ∀ j, (10 : Nat) ≠ j →
      (wr 10 4 6 ([truncF (mulF100 v) % 256, truncF (mulF100 v) / 256]) b).getD j [] = b.getD j [] :=
    fun j hj => wr_getD_ne b 10 4 6 _ j hj
  apply build_chain _ b b b b (wr 10 4 6 [truncF (mulF100 v) % 256, truncF (mulF100 v) / 256] b) (wr 10 4 6 [truncF (mulF100 v) % 256, truncF (mulF100 v) / 256] b) (wr 10 4 6 [truncF (mulF100 v) % 256, truncF (mulF100 v) / 256] b) _ (buildBase_edit b _ hv)
  · exact buildSector0_id b b _ hv h1 h2 h3 rfl rfl rfl rfl rfl rfl rfl rfl
  · exact buildSector1_id b b _ hv h4 hf.1 rfl rfl rfl rfl rfl rfl
  · exact buildBlock6_id b b _ hv rfl rfl rfl rfl rfl rfl rfl
  ·
    have htu : encodeAscii (applyEdit (Edit.spool_width_mm v) (parseFields b)).tray_uid
        = some ((getSlice (b.getD 9 []) 0 16).takeWhile (fun c => c ≠ 0)) :=
      encodeAscii_asciiRound _ h5
    have hwv : u16le (truncF (mulF100 (applyEdit (Edit.spool_width_mm v) (parseFields b)).spool_width_mm) : Int)
        = some [truncF (mulF100 v) % 256, truncF (mulF100 v) / 256] := by
      show u16le ((truncF (mulF100 v) : Nat) : Int) = _
      unfold u16le
      rw [if_pos ⟨Int.natCast_nonneg _, by exact_mod_cast hwv0⟩]
      simp
    rw [buildSector2_eval _ b _ _ htu hwv]
    have fx : (applyEdit (Edit.spool_width_mm v) (parseFields b)).xcam_info = getSlice (b.getD 8 []) 0 12 := rfl
    have hxne : getSlice (b.getD 8 []) 0 12 ≠ [] :=
      getSlice_ne_nil _ 0 12 (by omega) (by omega)
    have px : padTo 12 ((getSlice (b.getD 8 []) 0 12).take 12) = getSlice (b.getD 8 []) 0 12 := by
      rw [padTo_take_self]
      exact getSlice_length _ 0 12 (by omega) (by omega)
    have fnoz : (applyEdit (Edit.spool_width_mm v) (parseFields b)).nozzle_diameter
        = F32.ofList (getSlice (b.getD 8 []) 12 16) := rfl
    have hnoz : (F32.ofList (getSlice (b.getD 8 []) 12 16)).toList = getSlice (b.getD 8 []) 12 16 :=
      F32_ofList_toList _ (getSlice_length _ 12 16 (by omega) (by omega)) hf.2
    have w9 : padTo 16 (((getSlice (b.getD 9 []) 0 16).takeWhile (fun c => c ≠ 0)).take 16)
        = getSlice (b.getD 9 []) 0 16 :=
      padTo_asciiRound _ 16 h5 (getSlice_length _ 0 16 (by omega) (by omega))
    rw [fx, if_pos hxne, px, wr_id b 8 0 12 _ (by omega) rfl,
      fnoz, hnoz, wr_id b 8 12 16 _ (by omega) rfl,
      w9, wr_id b 9 0 16 _ (by omega) rfl]
  · exact buildSector3_id b _ _ hv h6 h7 (hX2 12 (by omega)) (hX2 13 (by omega))
      (hX2 14 (by omega)) rfl rfl rfl
  · exact buildSector4_id b _ _ hv (hX2 16 (by omega)) rfl rfl rfl
  · exact rsa_stage_idg b _ _ hv
      (fun j hj => hX2 j (by
        have hd : ∀ k ∈ RSA_DATA_BLOCKS, ¬((10 : Nat) = k) := by decide
        exact hd j hj)) rfl

/-- Building after editing `production_datetime` writes exactly block 12
bytes 0-15. -/
theorem editBuild_production_datetime (b : Blocks) (v : List Nat) (hv : validImage b)
    (hc : canonImage b) (hw : widthStable b) (hf : f32Stable b) (hva : v.all (fun c => c < 128) = true) :
    build_tag_blocks (applyEdit (Edit.production_datetime v) (parseFields b))
      = some (wr 12 0 16 (padTo 16 (v.take 16)) b) := by
  obtain ⟨h1, h2, h3, h4, h5, h6, h7⟩ := hc
  have hb64 : b.length = 64 := hv.1
  obtain ⟨hl12, -⟩ := validImage_block b hv 12 (by omega)
  obtain ⟨hl13, -⟩ := validImage_block b hv 13 (by omega)
  obtain ⟨hl14, hb14⟩ := validImage_block b hv 14 (by omega)
  have hX2 : ∀ j, (12 : Nat) ≠ j →
      (wr 12 0 16 (padTo 16 (v.take 16)) b).getD j [] = b.getD j [] :=
    fun j hj => wr_getD_ne b 12 0 16 _ j hj
  apply build_chain _ b b b b b (wr 12 0 16 (padTo 16 (v.take 16)) b) (wr 12 0 16 (padTo 16 (v.take 16)) b) _ (buildBase_edit b _ hv)
  · exact buildSector0_id b b _ hv h1 h2 h3 rfl rfl rfl rfl rfl rfl rfl rfl
  · exact buildSector1_id b b _ hv h4 hf.1 rfl rfl rfl rfl rfl rfl
  · exact buildBlock6_id b b _ hv rfl rfl rfl rfl rfl rfl rfl
  · exact buildSector2_id b b _ hv h5 hw hf.2 rfl rfl rfl rfl rfl rfl rfl
  ·
    have hpd : encodeAscii (applyEdit (Edit.production_datetime v) (parseFields b)).production_datetime = some v := by
      show encodeAscii v = some v
      unfold encodeAscii
      rw [if_pos hva]
    have hsp : encodeAscii (applyEdit (Edit.production_datetime v) (parseFields b)).short_production_datetime
        = some ((getSlice (b.getD 13 []) 0 16).takeWhile (fun c => c ≠ 0)) :=
      encodeAscii_asciiRound _ h7
    have hfl : u16le (applyEdit (Edit.production_datetime v) (parseFields b)).filament_length_m
        = some (getSlice (b.getD 14 []) 4 6) :=
      u16le_readU16_slice (b.getD 14 []) 4 hb14 (by omega)
    rw [buildSector3_eval _ b _ _ _ hpd hsp hfl]
    have w13 : padTo 16 (((getSlice (b.getD 13 []) 0 16).takeWhile (fun c => c ≠ 0)).take 16)
        = getSlice (b.getD 13 []) 0 16 :=
      padTo_asciiRound _ 16 h7 (getSlice_length _ 0 16 (by omega) (by omega))
    rw [w13, wr_id _ 13 0 16 _ (by omega) (by rw [hX2 13 (by omega)]),
      wr_id _ 14 4 6 _ (by omega) (by rw [hX2 14 (by omega)])]
  · exact buildSector4_id b _ _ hv (hX2 16 (by omega)) rfl rfl rfl
  · exact rsa_stage_idg b _ _ hv
      (fun j hj => hX2 j (by
        have hd : ∀ k ∈ RSA_DATA_BLOCKS, ¬((12 : Nat) = k) := by decide
        exact hd j hj)) rfl

/-- Building after editing `short_production_datetime` writes exactly
block 13 bytes 0-15. -/
theorem editBuild_short_production_datetime (b : Blocks) (v : List Nat) (hv : validImage b)
    (hc : canonImage b) (hw : widthStable b) (hf : f32Stable b) (hva : v.all (fun c => c < 128) = true) :
    build_tag_blocks (applyEdit (Edit.short_production_datetime v) (parseFields b))
      = some (wr 13 0 16 (padTo 16 (v.take 16)) b) := by
  obtain ⟨h1, h2, h3, h4, h5, h6, h7⟩ := hc
  have hb64 : b.length = 64 := hv.1
  obtain ⟨hl12, -⟩ := validImage_block b hv 12 (by omega)
  obtain ⟨hl13, -⟩ := validImage_block b hv 13 (by omega)
  obtain ⟨hl14, hb14⟩ := validImage_block b hv 14 (by omega)
  have hX2 : ∀ j, (13 : Nat) ≠ j →
      (wr 13 0 16 (padTo 16 (v.take 16)) b).getD j [] = b.getD j [] :=
    fun j hj => wr_getD_ne b 13 0 16 _ j hj
  apply build_chain _ b b b b b (wr 13 0 16 (padTo 16 (v.take 16)) b) (wr 13 0 16 (padTo 16 (v.take 16)) b) _ (buildBase_edit b _ hv)
  · exact buildSector0_id b b _ hv h1 h2 h3 rfl rfl rfl rfl rfl rfl rfl rfl
  · exact buildSector1_id b b _ hv h4 hf.1 rfl rfl rfl rfl rfl rfl
  · exact buildBlock6_id b b _ hv rfl rfl rfl rfl rfl rfl rfl
  · exact buildSector2_id b b _ hv h5 hw hf.2 rfl rfl rfl rfl rfl rfl rfl
  ·
    have hpd : encodeAscii (applyEdit (Edit.short_production_datetime v) (parseFields b)).production_datetime
        = some ((getSlice (b.getD 12 []) 0 16).takeWhile (fun c => c ≠ 0)) :=
      encodeAscii_asciiRound _ h6
    have hsp : encodeAscii (applyEdit (Edit.short_production_datetime v) (parseFields b)).short_production_datetime = some v := by
      show encodeAscii v = some v
      unfold encodeAscii
      rw [if_pos hva]
    have hfl : u16le (applyEdit (Edit.short_production_datetime v) (parseFields b)).filament_length_m
        = some (getSlice (b.getD 14 []) 4 6) :=
      u16le_readU16_slice (b.getD 14 []) 4 hb14 (by omega)
    rw [buildSector3_eval _ b _ _ _ hpd hsp hfl]
    have w12 : padTo 16 (((getSlice (b.getD 12 []) 0 16).takeWhile (fun c => c ≠ 0)).take 16)
        = getSlice (b.getD 12 []) 0 16 :=
      padTo_asciiRound _ 16 h6 (getSlice_length _ 0 16 (by omega) (by omega))
    rw [w12, wr_id b 12 0 16 _ (by omega) rfl,
      wr_id _ 14 4 6 _ (by omega) (by rw [hX2 14 (by omega)])]
  · exact buildSector4_id b _ _ hv (hX2 16 (by omega)) rfl rfl rfl
  · exact rsa_stage_idg b _ _ hv
      (fun j hj => hX2 j (by
        have hd : ∀ k ∈ RSA_DATA_BLOCKS, ¬((13 : Nat) = k) := by decide
        exact hd j hj)) rfl

/-- Building after editing `filament_length_m` (in u16 range) writes exactly
block 14 bytes 4-5 with the little-endian value. -/
theorem editBuild_filament_length_m (b : Blocks) (v : Int) (hv : validImage b)
    (hc : canonImage b) (hw : widthStable b) (hf : f32Stable b) (hw0 : 0 ≤ v) (hw1 : v < 65536) :
    build_tag_blocks (applyEdit (Edit.filament_length_m v) (parseFields b))
      = some (wr 14 4 6 [v.toNat % 256, v.toNat / 256] b) := by
  obtain ⟨h1, h2, h3, h4, h5, h6, h7⟩ := hc
  have hb64 : b.length = 64 := hv.1
  obtain ⟨hl12, -⟩ := validImage_block b hv 12 (by omega)
  obtain ⟨hl13, -⟩ := validImage_block b hv 13 (by omega)
  obtain ⟨hl14, hb14⟩ := validImage_block b hv 14 (by omega)
  have hX2 : ∀ j, (14 : Nat) ≠ j →
      (wr 14 4 6 ([v.toNat % 256, v.toNat / 256]) b).getD j [] = b.getD j [] :=
    fun j hj => wr_getD_ne b 14 4 6 _ j hj
  apply build_chain _ b b b b b (wr 14 4 6 [v.toNat % 256, v.toNat / 256] b) (wr 14 4 6 [v.toNat % 256, v.toNat / 256] b) _ (buildBase_edit b _ hv)
  · exact buildSector0_id b b _ hv h1 h2 h3 rfl rfl rfl rfl rfl rfl rfl rfl
  · exact buildSector1_id b b _ hv h4 hf.1 rfl rfl rfl rfl rfl rfl
  · exact buildBlock6_id b b _ hv rfl rfl rfl rfl rfl rfl rfl
  · exact buildSector2_id b b _ hv h5 hw hf.2 rfl rfl rfl rfl rfl rfl rfl
  ·
    have hpd : encodeAscii (applyEdit (Edit.filament_length_m v) (parseFields b)).production_datetime
        = some ((getSlice (b.getD 12 []) 0 16).takeWhile (fun c => c ≠ 0)) :=
      encodeAscii_asciiRound _ h6
    have hsp : encodeAscii (applyEdit (Edit.filament_length_m v) (parseFields b)).short_production_datetime
        = some ((getSlice (b.getD 13 []) 0 16).takeWhile (fun c => c ≠ 0)) :=
      encodeAscii_asciiRound _ h7
    have hfl : u16le (applyEdit (Edit.filament_length_m v) (parseFields b)).filament_length_m = some [v.toNat % 256, v.toNat / 256] := by
      show u16le v = _
      unfold u16le
      rw [if_pos ⟨hw0, hw1⟩]
    rw [buildSector3_eval _ b _ _ _ hpd hsp hfl]
    have w12 : padTo 16 (((getSlice (b.getD 12 []) 0 16).takeWhile (fun c => c ≠ 0)).take 16)
        = getSlice (b.getD 12 []) 0 16 :=
      padTo_asciiRound _ 16 h6 (getSlice_length _ 0 16 (by omega) (by omega))
    have w13 : padTo 16 (((getSlice (b.getD 13 []) 0 16).takeWhile (fun c => c ≠ 0)).take 16)
        = getSlice (b.getD 13 []) 0 16 :=
      padTo_asciiRound _ 16 h7 (getSlice_length _ 0 16 (by omega) (by omega))
    rw [w12, wr_id b 12 0 16 _ (by omega) rfl,
      w13, wr_id b 13 0 16 _ (by omega) rfl]
  · exact buildSector4_id b _ _ hv (hX2 16 (by omega)) rfl rfl rfl
  · exact rsa_stage_idg b _ _ hv
      (fun j hj => hX2 j (by
        have hd : ∀ k ∈ RSA_DATA_BLOCKS, ¬((14 : Nat) = k) := by decide
        exact hd j hj)) rfl

/-- Building after editing `color_format` (in u16 range) writes exactly
block 16 bytes 0-1 (the parsed secondary colour is written back unchanged). -/
theorem editBuild_color_format (b : Blocks) (v : Int) (hv : validImage b)
    (hc : canonImage b) (hw : widthStable b) (hf : f32Stable b) (hw0 : 0 ≤ v) (hw1 : v < 65536) :
    build_tag_blocks (applyEdit (Edit.color_format v) (parseFields b))
      = some (wr 16 0 2 [v.toNat % 256, v.toNat / 256] b) := by
  obtain ⟨h1, h2, h3, h4, h5, h6, h7⟩ := hc
  have hb64 : b.length = 64 := hv.1
  obtain ⟨hl16, hb16⟩ := validImage_block b hv 16 (by omega)
  have hX2 : ∀ j, (16 : Nat) ≠ j →
      (wr 16 0 2 ([v.toNat % 256, v.toNat / 256]) b).getD j [] = b.getD j [] :=
    fun j hj => wr_getD_ne b 16 0 2 _ j hj
  apply build_chain _ b b b b b b (wr 16 0 2 [v.toNat % 256, v.toNat / 256] b) _ (buildBase_edit b _ hv)
  · exact buildSector0_id b b _ hv h1 h2 h3 rfl rfl rfl rfl rfl rfl rfl rfl
  · exact buildSector1_id b b _ hv h4 hf.1 rfl rfl rfl rfl rfl rfl
  · exact buildBlock6_id b b _ hv rfl rfl rfl rfl rfl rfl rfl
  · exact buildSector2_id b b _ hv h5 hw hf.2 rfl rfl rfl rfl rfl rfl rfl
  · exact buildSector3_id b b _ hv h6 h7 rfl rfl rfl rfl rfl rfl
  ·
    have hcf : u16le (applyEdit (Edit.color_format v) (parseFields b)).color_format = some [v.toNat % 256, v.toNat / 256] := by
      show u16le v = _
      unfold u16le
      rw [if_pos ⟨hw0, hw1⟩]
    have hcc : u16le (applyEdit (Edit.color_format v) (parseFields b)).color_count
        = some (getSlice (b.getD 16 []) 2 4) :=
      u16le_readU16_slice (b.getD 16 []) 2 hb16 (by omega)
    rw [buildSector4_eval _ b _ _ hcf hcc]
    have fsec : (applyEdit (Edit.color_format v) (parseFields b)).secondary_color_abgr
        = (if readU16 (b.getD 16 []) 0 = 2 ∧ 8 ≤ (b.getD 16 []).length then
            getSlice (b.getD 16 []) 4 8 else []) := rfl
    have hsl24 : getSlice ((wr 16 0 2 [v.toNat % 256, v.toNat / 256] b).getD 16 []) 2 4
        = getSlice (b.getD 16 []) 2 4 :=
      getSlice_wr_right b 16 0 2 [v.toNat % 256, v.toNat / 256] (by omega) rfl (by omega) (by omega) 2 4 (by omega)
    have hsl48 : getSlice ((wr 16 0 2 [v.toNat % 256, v.toNat / 256] b).getD 16 []) 4 8
        = getSlice (b.getD 16 []) 4 8 :=
      getSlice_wr_right b 16 0 2 [v.toNat % 256, v.toNat / 256] (by omega) rfl (by omega) (by omega) 4 8 (by omega)
    rw [fsec]
    by_cases hgate : readU16 (b.getD 16 []) 0 = 2 ∧ 8 ≤ (b.getD 16 []).length
    · rw [if_pos hgate]
      have hsne : getSlice (b.getD 16 []) 4 8 ≠ [] :=
        getSlice_ne_nil _ 4 8 (by omega) (by omega)
      have htk : (getSlice (b.getD 16 []) 4 8).take 4 = getSlice (b.getD 16 []) 4 8 :=
        List.take_of_length_le (le_of_eq (getSlice_length _ 4 8 (by omega) (by omega)))
      rw [if_pos hsne, htk, wr_id _ 16 2 4 _ (by omega) hsl24.symm,
        wr_id _ 16 4 8 _ (by omega) hsl48.symm]
    · rw [if_neg hgate]
      rw [if_neg (show ¬(([] : List Nat) ≠ []) from fun hh => hh rfl)]
      rw [wr_id _ 16 2 4 _ (by omega) hsl24.symm]
  · exact rsa_stage_idg b _ _ hv
      (fun j hj => hX2 j (by
        have hd : ∀ k ∈ RSA_DATA_BLOCKS, ¬((16 : Nat) = k) := by decide
        exact hd j hj)) rfl

/-- Building after editing `color_count` (in u16 range) writes exactly
block 16 bytes 2-3. -/
theorem editBuild_color_count (b : Blocks) (v : Int) (hv : validImage b)
    (hc : canonImage b) (hw : widthStable b) (hf : f32Stable b) (hw0 : 0 ≤ v) (hw1 : v < 65536) :
    build_tag_blocks (applyEdit (Edit.color_count v) (parseFields b))
      = some (wr 16 2 4 [v.toNat % 256, v.toNat / 256] b) := by
  obtain ⟨h1, h2, h3, h4, h5, h6, h7⟩ := hc
  have hb64 : b.length = 64 := hv.1
  obtain ⟨hl16, hb16⟩ := validImage_block b hv 16 (by omega)
  have hX2 : ∀ j, (16 : Nat) ≠ j →
      (wr 16 2 4 ([v.toNat % 256, v.toNat / 256]) b).getD j [] = b.getD j [] :=
    fun j hj => wr_getD_ne b 16 2 4 _ j hj
  apply build_chain _ b b b b b b (wr 16 2 4 [v.toNat % 256, v.toNat / 256] b) _ (buildBase_edit b _ hv)
  · exact buildSector0_id b b _ hv h1 h2 h3 rfl rfl rfl rfl rfl rfl rfl rfl
  · exact buildSector1_id b b _ hv h4 hf.1 rfl rfl rfl rfl rfl rfl
  · exact buildBlock6_id b b _ hv rfl rfl rfl rfl rfl rfl rfl
  · exact buildSector2_id b b _ hv h5 hw hf.2 rfl rfl rfl rfl rfl rfl rfl
  · exact buildSector3_id b b _ hv h6 h7 rfl rfl rfl rfl rfl rfl
  ·
    have hcf : u16le (applyEdit (Edit.color_count v) (parseFields b)).color_format
        = some (getSlice (b.getD 16 []) 0 2) :=
      u16le_readU16_slice (b.getD 16 []) 0 hb16 (by omega)
    have hcc : u16le (applyEdit (Edit.color_count v) (parseFields b)).color_count = some [v.toNat % 256, v.toNat / 256] := by
      show u16le v = _
      unfold u16le
      rw [if_pos ⟨hw0, hw1⟩]
    rw [buildSector4_eval _ b _ _ hcf hcc]
    have fsec : (applyEdit (Edit.color_count v) (parseFields b)).secondary_color_abgr
        = (if readU16 (b.getD 16 []) 0 = 2 ∧ 8 ≤ (b.getD 16 []).length then
            getSlice (b.getD 16 []) 4 8 else []) := rfl
    have hsl48 : getSlice ((wr 16 2 4 [v.toNat % 256, v.toNat / 256] b).getD 16 []) 4 8
        = getSlice (b.getD 16 []) 4 8 :=
      getSlice_wr_right b 16 2 4 [v.toNat % 256, v.toNat / 256] (by omega) rfl (by omega) (by omega) 4 8 (by omega)
    rw [fsec, wr_id b 16 0 2 _ (by omega) rfl]
    by_cases hgate : readU16 (b.getD 16 []) 0 = 2 ∧ 8 ≤ (b.getD 16 []).length
    · rw [if_pos hgate]
      have hsne : getSlice (b.getD 16 []) 4 8 ≠ [] :=
        getSlice_ne_nil _ 4 8 (by omega) (by omega)
      have htk : (getSlice (b.getD 16 []) 4 8).take 4 = getSlice (b.getD 16 []) 4 8 :=
        List.take_of_length_le (le_of_eq (getSlice_length _ 4 8 (by omega) (by omega)))
      rw [if_pos hsne, htk, wr_id _ 16 4 8 _ (by omega) hsl48.symm]
    · rw [if_neg hgate]
      rw [if_neg (show ¬(([] : List Nat) ≠ []) from fun hh => hh rfl)]
  · exact rsa_stage_idg b _ _ hv
      (fun j hj => hX2 j (by
        have hd : ∀ k ∈ RSA_DATA_BLOCKS, ¬((16 : Nat) = k) := by decide
        exact hd j hj)) rfl

/-- Building after editing `secondary_color_abgr` to a value of at least
four bytes writes exactly block 16 bytes 4-7. -/
theorem editBuild_secondary_color_abgr (b : Blocks) (v : List Nat) (hv : validImage b)
    (hc : canonImage b) (hw : widthStable b) (hf : f32Stable b) (hv4 : 4 ≤ v.length) :
    build_tag_blocks (applyEdit (Edit.secondary_color_abgr v) (parseFields b))
      = some (wr 16 4 8 (v.take 4) b) := by
  obtain ⟨h1, h2, h3, h4, h5, h6, h7⟩ := hc
  have hb64 : b.length = 64 := hv.1
  obtain ⟨hl16, hb16⟩ := validImage_block b hv 16 (by omega)
  have hX2 : ∀ j, (16 : Nat) ≠ j →
      (wr 16 4 8 (v.take 4) b).getD j [] = b.getD j [] :=
    fun j hj => wr_getD_ne b 16 4 8 _ j hj
  apply build_chain _ b b b b b b (wr 16 4 8 (v.take 4) b) _ (buildBase_edit b _ hv)
  · exact buildSector0_id b b _ hv h1 h2 h3 rfl rfl rfl rfl rfl rfl rfl rfl
  · exact buildSector1_id b b _ hv h4 hf.1 rfl rfl rfl rfl rfl rfl
  · exact buildBlock6_id b b _ hv rfl rfl rfl rfl rfl rfl rfl
  · exact buildSector2_id b b _ hv h5 hw hf.2 rfl rfl rfl rfl rfl rfl rfl
  · exact buildSector3_id b b _ hv h6 h7 rfl rfl rfl rfl rfl rfl
  ·
    have hcf : u16le (applyEdit (Edit.secondary_color_abgr v) (parseFields b)).color_format
        = some (getSlice (b.getD 16 []) 0 2) :=
      u16le_readU16_slice (b.getD 16 []) 0 hb16 (by omega)
    have hcc : u16le (applyEdit (Edit.secondary_color_abgr v) (parseFields b)).color_count
        = some (getSlice (b.getD 16 []) 2 4) :=
      u16le_readU16_slice (b.getD 16 []) 2 hb16 (by omega)
    rw [buildSector4_eval _ b _ _ hcf hcc]
    have fsec : (applyEdit (Edit.secondary_color_abgr v) (parseFields b)).secondary_color_abgr = v := rfl
    have hve : v ≠ [] := by
      intro hcon
      rw [hcon] at hv4
      simp at hv4
    rw [fsec, if_pos hve, wr_id b 16 0 2 _ (by omega) rfl,
      wr_id b 16 2 4 _ (by omega) rfl]
  · exact rsa_stage_idg b _ _ hv
      (fun j hj => hX2 j (by
        have hd : ∀ k ∈ RSA_DATA_BLOCKS, ¬((16 : Nat) = k) := by decide
        exact hd j hj)) rfl

/-- Editing `secondary_color_abgr` to the empty value leaves the rebuilt
image unchanged. -/
theorem editBuild_secondary_color_abgr_nil (b : Blocks) (hv : validImage b)
    (hc : canonImage b) (hw : widthStable b) (hf : f32Stable b) :
    build_tag_blocks (applyEdit (Edit.secondary_color_abgr []) (parseFields b)) = some b := by
  obtain ⟨h1, h2, h3, h4, h5, h6, h7⟩ := hc
  have hb64 : b.length = 64 := hv.1
  obtain ⟨hl16, hb16⟩ := validImage_block b hv 16 (by omega)
  have hX2 : ∀ j, (16 : Nat) ≠ j → (b : Blocks).getD j [] = b.getD j [] :=
    fun j _ => rfl
  apply build_chain _ b b b b b b b _ (buildBase_edit b _ hv)
  · exact buildSector0_id b b _ hv h1 h2 h3 rfl rfl rfl rfl rfl rfl rfl rfl
  · exact buildSector1_id b b _ hv h4 hf.1 rfl rfl rfl rfl rfl rfl
  · exact buildBlock6_id b b _ hv rfl rfl rfl rfl rfl rfl rfl
  · exact buildSector2_id b b _ hv h5 hw hf.2 rfl rfl rfl rfl rfl rfl rfl
  · exact buildSector3_id b b _ hv h6 h7 rfl rfl rfl rfl rfl rfl
  ·
    have hcf : u16le (applyEdit (Edit.secondary_color_abgr []) (parseFields b)).color_format
        = some (getSlice (b.getD 16 []) 0 2) :=
      u16le_readU16_slice (b.getD 16 []) 0 hb16 (by omega)
    have hcc : u16le (applyEdit (Edit.secondary_color_abgr []) (parseFields b)).color_count
        = some (getSlice (b.getD 16 []) 2 4) :=
      u16le_readU16_slice (b.getD 16 []) 2 hb16 (by omega)
    rw [buildSector4_eval _ b _ _ hcf hcc]
    have fsec : (applyEdit (Edit.secondary_color_abgr []) (parseFields b)).secondary_color_abgr = ([] : List Nat) := rfl
    rw [fsec]
    rw [if_neg (show ¬(([] : List Nat) ≠ []) from fun hh => hh rfl)]
    rw [wr_id b 16 0 2 _ (by omega) rfl, wr_id b 16 2 4 _ (by omega) rfl]
  · exact rsa_stage_idg b _ _ hv
      (fun j hj => hX2 j (by
        have hd : ∀ k ∈ RSA_DATA_BLOCKS, ¬((16 : Nat) = k) := by decide
        exact hd j hj)) rfl

/-- Building after editing `rsa_signature` to a non-empty value runs the RSA
write loop on the (256-byte padded, truncated) new signature and nothing else. -/
theorem editBuild_rsa_signature (b : Blocks) (v : List Nat) (hv : validImage b)
    (hc : canonImage b) (hw : widthStable b) (hf : f32Stable b) (hve : v ≠ []) :
    build_tag_blocks (applyEdit (Edit.rsa_signature v) (parseFields b))
      = some (rsaWrite (padTo 256 (v.take 256)) b) := by
  obtain ⟨h1, h2, h3, h4, h5, h6, h7⟩ := hc
  have hb64 : b.length = 64 := hv.1
  obtain ⟨hl16, hb16⟩ := validImage_block b hv 16 (by omega)
  apply build_chain _ b b b b b b b _ (buildBase_edit b _ hv)
  · exact buildSector0_id b b _ hv h1 h2 h3 rfl rfl rfl rfl rfl rfl rfl rfl
  · exact buildSector1_id b b _ hv h4 hf.1 rfl rfl rfl rfl rfl rfl
  · exact buildBlock6_id b b _ hv rfl rfl rfl rfl rfl rfl rfl
  · exact buildSector2_id b b _ hv h5 hw hf.2 rfl rfl rfl rfl rfl rfl rfl
  · exact buildSector3_id b b _ hv h6 h7 rfl rfl rfl rfl rfl rfl
  · exact buildSector4_id b b _ hv rfl rfl rfl rfl
  ·
    have fr : (applyEdit (Edit.rsa_signature v) (parseFields b)).rsa_signature = v := rfl
    unfold buildRsa
    rw [fr, if_pos hve]

/-- Editing `rsa_signature` to the empty value skips the RSA write loop and
leaves the rebuilt image unchanged. -/
theorem editBuild_rsa_signature_nil (b : Blocks) (hv : validImage b)
    (hc : canonImage b) (hw : widthStable b) (hf : f32Stable b) :
    build_tag_blocks (applyEdit (Edit.rsa_signature []) (parseFields b)) = some b := by
  obtain ⟨h1, h2, h3, h4, h5, h6, h7⟩ := hc
  have hb64 : b.length = 64 := hv.1
  obtain ⟨hl16, hb16⟩ := validImage_block b hv 16 (by omega)
  apply build_chain _ b b b b b b b _ (buildBase_edit b _ hv)
  · exact buildSector0_id b b _ hv h1 h2 h3 rfl rfl rfl rfl rfl rfl rfl rfl
  · exact buildSector1_id b b _ hv h4 hf.1 rfl rfl rfl rfl rfl rfl
  · exact buildBlock6_id b b _ hv rfl rfl rfl rfl rfl rfl rfl
  · exact buildSector2_id b b _ hv h5 hw hf.2 rfl rfl rfl rfl rfl rfl rfl
  · exact buildSector3_id b b _ hv h6 h7 rfl rfl rfl rfl rfl rfl
  · exact buildSector4_id b b _ hv rfl rfl rfl rfl
  ·
    have fr : (applyEdit (Edit.rsa_signature []) (parseFields b)).rsa_signature = ([] : List Nat) := rfl
    unfold buildRsa
    rw [fr]
    rw [if_neg (show ¬(([] : List Nat) ≠ []) from fun hh => hh rfl)]

/-- The byte effect CPython was verified to have on an f32 signaling NaN in
the `unpack("<f")`/`pack("<f")` round trip (`0100807f` → `0100c07f`, quiet
bit 22 set), as `quietF32` models it. -/
theorem quietF32_snan :
    quietF32 [0x01, 0x00, 0x80, 0x7f] = [0x01, 0x00, 0xC0, 0x7f] ∧
    (F32.ofList [0x01, 0x00, 0x80, 0x7f]).toList = [0x01, 0x00, 0xC0, 0x7f] :=
  ⟨by decide, by decide⟩

set_option maxRecDepth 40000 in
/-- Why the round-trip and clone-preservation theorems need `f32Stable`: on a
valid, canonical, width-stable image whose diameter region is a signaling
NaN, an unrelated edit (spool weight) changes those four bytes — the model
reproduces the program's quieting. -/
theorem snan_edit_changes_diameter :
    validImage imgSNaN ∧ canonImage imgSNaN ∧ widthStable imgSNaN ∧
    ¬ f32Stable imgSNaN ∧
    ((build_tag_blocks (applyEdit (Edit.spool_weight_g 777) (parseFields imgSNaN))).map
        (fun b2 => getSlice (b2.getD 5 []) 8 12)) = some [0x01, 0x00, 0xC0, 0x7f] ∧
    getSlice (imgSNaN.getD 5 []) 8 12 = [0x01, 0x00, 0x80, 0x7f] :=
  ⟨by decide, by decide, by decide, by decide, by decide, by decide⟩

/-! ## Claim theorems -/

/-- C1: clone preservation, amended.  On a structurally valid, canonical,
width-stable image whose two f32 regions are also stable under CPython's
`unpack("<f")`/`pack("<f")` round trip (no signaling-NaN patterns), editing
one field of the parsed record and rebuilding succeeds and changes bytes
only inside the edited field's byte range; for every edit other than the
signature itself, the RSA signature region is byte-identical.  (On
non-canonical images the property fails: see the counterexample.) -/
theorem c1_clone_preservation (b : Blocks) (e : Edit) (hv : validImage b)
    (hc : canonImage b) (hw : widthStable b) (hf : f32Stable b) (he : editOk e = true) :
    ∃ b2, build_tag_blocks (applyEdit e (parseFields b)) = some b2 ∧
      (∀ i p, i < 64 → p < 16 → editTouches e i p = false →
        (b2.getD i []).getD p 0 = (b.getD i []).getD p 0) ∧
      ((∀ w, e ≠ Edit.rsa_signature w) →
        ∀ j ∈ RSA_DATA_BLOCKS, b2.getD j [] = b.getD j []) := by
  cases e with
  | uid v =>
    obtain ⟨hl0, -⟩ := validImage_block b hv 0 (by omega)
    by_cases hve : v = []
    · subst hve
      exact ⟨b, editBuild_uid_nil b hv hc hw hf, fun i p _ _ _ => rfl, fun _ j _ => rfl⟩
    · refine ⟨_, editBuild_uid b v hv hc hw hf hve, ?_, ?_⟩
      · intro i p hi hp ht0
        refine wr_frame b 0 0 4 _ hv.1 (by omega) (padTo_take_length v 4) (by omega) (by omega) i p ?_
        rintro ⟨rfl, hps, hpr⟩
        have hT : editTouches (Edit.uid v) 0 p = true := by
          simp only [editTouches, Bool.and_eq_true, decide_eq_true_eq, true_and, and_true]
          omega
        rw [hT] at ht0
        simp at ht0
      · intro _ j hj
        refine wr_getD_ne b 0 0 4 _ j ?_
        have hd : ∀ k ∈ RSA_DATA_BLOCKS, ¬((0 : Nat) = k) := by decide
        exact hd j hj
  | manufacturer_data v =>
    obtain ⟨hl0, -⟩ := validImage_block b hv 0 (by omega)
    by_cases hve : v = []
    · subst hve
      exact ⟨b, editBuild_manufacturer_data_nil b hv hc hw hf, fun i p _ _ _ => rfl, fun _ j _ => rfl⟩
    · refine ⟨_, editBuild_manufacturer_data b v hv hc hw hf hve, ?_, ?_⟩
      · intro i p hi hp ht0
        refine wr_frame b 0 4 16 _ hv.1 (by omega) (padTo_take_length v 12) (by omega) (by omega) i p ?_
        rintro ⟨rfl, hps, hpr⟩
        have hT : editTouches (Edit.manufacturer_data v) 0 p = true := by
          simp only [editTouches, Bool.and_eq_true, decide_eq_true_eq, true_and, and_true]
          omega
        rw [hT] at ht0
        simp at ht0
      · intro _ j hj
        refine wr_getD_ne b 0 4 16 _ j ?_
        have hd : ∀ k ∈ RSA_DATA_BLOCKS, ¬((0 : Nat) = k) := by decide
        exact hd j hj
  | material_variant_id v =>
    obtain ⟨hl1, -⟩ := validImage_block b hv 1 (by omega)
    refine ⟨_, editBuild_material_variant_id b v hv hc hw hf he, ?_, ?_⟩
    · intro i p hi hp ht0
      refine wr_frame b 1 0 8 _ hv.1 (by omega) (padTo_take_length v 8) (by omega) (by omega) i p ?_
      rintro ⟨rfl, hps, hpr⟩
      have hT : editTouches (Edit.material_variant_id v) 1 p = true := by
        simp only [editTouches, Bool.and_eq_true, decide_eq_true_eq, true_and, and_true]
        omega
      rw [hT] at ht0
      simp at ht0
    · intro _ j hj
      refine wr_getD_ne b 1 0 8 _ j ?_
      have hd : ∀ k ∈ RSA_DATA_BLOCKS, ¬((1 : Nat) = k) := by decide
      exact hd j hj
  | material_id v =>
    obtain ⟨hl1, -⟩ := validImage_block b hv 1 (by omega)
    refine ⟨_, editBuild_material_id b v hv hc hw hf he, ?_, ?_⟩
    · intro i p hi hp ht0
      refine wr_frame b 1 8 16 _ hv.1 (by omega) (padTo_take_length v 8) (by omega) (by omega) i p ?_
      rintro ⟨rfl, hps, hpr⟩
      have hT : editTouches (Edit.material_id v) 1 p = true := by
        simp only [editTouches, Bool.and_eq_true, decide_eq_true_eq, true_and, and_true]
        omega
      rw [hT] at ht0
      simp at ht0
    · intro _ j hj
      refine wr_getD_ne b 1 8 16 _ j ?_
      have hd : ∀ k ∈ RSA_DATA_BLOCKS, ¬((1 : Nat) = k) := by decide
      exact hd j hj
  | filament_type v =>
    obtain ⟨hl2, -⟩ := validImage_block b hv 2 (by omega)
    refine ⟨_, editBuild_filament_type b v hv hc hw hf he, ?_, ?_⟩
    · intro i p hi hp ht0
      refine wr_frame b 2 0 16 _ hv.1 (by omega) (padTo_take_length v 16) (by omega) (by omega) i p ?_
      rintro ⟨rfl, hps, hpr⟩
      have hT : editTouches (Edit.filament_type v) 2 p = true := by
        simp only [editTouches, Bool.and_eq_true, decide_eq_true_eq, true_and, and_true]
        omega
      rw [hT] at ht0
      simp at ht0
    · intro _ j hj
      refine wr_getD_ne b 2 0 16 _ j ?_
      have hd : ∀ k ∈ RSA_DATA_BLOCKS, ¬((2 : Nat) = k) := by decide
      exact hd j hj
  | detailed_filament_type v =>
    obtain ⟨hl4, -⟩ := validImage_block b hv 4 (by omega)
    refine ⟨_, editBuild_detailed_filament_type b v hv hc hw hf he, ?_, ?_⟩
    · intro i p hi hp ht0
      refine wr_frame b 4 0 16 _ hv.1 (by omega) (padTo_take_length v 16) (by omega) (by omega) i p ?_
      rintro ⟨rfl, hps, hpr⟩
      have hT : editTouches (Edit.detailed_filament_type v) 4 p = true := by
        simp only [editTouches, Bool.and_eq_true, decide_eq_true_eq, true_and, and_true]
        omega
      rw [hT] at ht0
      simp at ht0
    · intro _ j hj
      refine wr_getD_ne b 4 0 16 _ j ?_
      have hd : ∀ k ∈ RSA_DATA_BLOCKS, ¬((4 : Nat) = k) := by decide
      exact hd j hj
  | color_rgba v =>
    obtain ⟨hl5, -⟩ := validImage_block b hv 5 (by omega)
    have hva : 4 ≤ v.length := of_decide_eq_true he
    refine ⟨_, editBuild_color_rgba b v hv hc hw hf hva, ?_, ?_⟩
    · intro i p hi hp ht0
      refine wr_frame b 5 0 4 _ hv.1 (by omega) (by rw [List.length_take]; omega) (by omega) (by omega) i p ?_
      rintro ⟨rfl, hps, hpr⟩
      have hT : editTouches (Edit.color_rgba v) 5 p = true := by
        simp only [editTouches, Bool.and_eq_true, decide_eq_true_eq, true_and, and_true]
        omega
      rw [hT] at ht0
      simp at ht0
    · intro _ j hj
      refine wr_getD_ne b 5 0 4 _ j ?_
      have hd : ∀ k ∈ RSA_DATA_BLOCKS, ¬((5 : Nat) = k) := by decide
      exact hd j hj
  | spool_weight_g v =>
    obtain ⟨hl5, -⟩ := validImage_block b hv 5 (by omega)
    simp only [editOk, Bool.and_eq_true, decide_eq_true_eq] at he
    obtain ⟨hw0, hw1⟩ := he
    refine ⟨_, editBuild_spool_weight_g b v hv hc hw hf hw0 hw1, ?_, ?_⟩
    · intro i p hi hp ht0
      refine wr_frame b 5 4 6 [v.toNat % 256, v.toNat / 256] hv.1 (by omega) rfl (by omega) (by omega) i p ?_
      rintro ⟨rfl, hps, hpr⟩
      have hT : editTouches (Edit.spool_weight_g v) 5 p = true := by
        simp only [editTouches, Bool.and_eq_true, decide_eq_true_eq, true_and, and_true]
        omega
      rw [hT] at ht0
      simp at ht0
    · intro _ j hj
      refine wr_getD_ne b 5 4 6 _ j ?_
      have hd : ∀ k ∈ RSA_DATA_BLOCKS, ¬((5 : Nat) = k) := by decide
      exact hd j hj
  | filament_diameter_mm v =>
    obtain ⟨hl5, -⟩ := validImage_block b hv 5 (by omega)
    refine ⟨_, editBuild_filament_diameter_mm b v hv hc hw hf, ?_, ?_⟩
    · intro i p hi hp ht0
      refine wr_frame b 5 8 12 v.toList hv.1 (by omega) rfl (by omega) (by omega) i p ?_
      rintro ⟨rfl, hps, hpr⟩
      have hT : editTouches (Edit.filament_diameter_mm v) 5 p = true := by
        simp only [editTouches, Bool.and_eq_true, decide_eq_true_eq, true_and, and_true]
        omega
      rw [hT] at ht0
      simp at ht0
    · intro _ j hj
      refine wr_getD_ne b 5 8 12 _ j ?_
      have hd : ∀ k ∈ RSA_DATA_BLOCKS, ¬((5 : Nat) = k) := by decide
      exact hd j hj
  | drying_temp_c v =>
    obtain ⟨hl6, -⟩ := validImage_block b hv 6 (by omega)
    simp only [editOk, Bool.and_eq_true, decide_eq_true_eq] at he
    obtain ⟨hw0, hw1⟩ := he
    refine ⟨_, editBuild_drying_temp_c b v hv hc hw hf hw0 hw1, ?_, ?_⟩
    · intro i p hi hp ht0
      refine wr_frame b 6 0 2 [v.toNat % 256, v.toNat / 256] hv.1 (by omega) rfl (by omega) (by omega) i p ?_
      rintro ⟨rfl, hps, hpr⟩
      have hT : editTouches (Edit.drying_temp_c v) 6 p = true := by
        simp only [editTouches, Bool.and_eq_true, decide_eq_true_eq, true_and, and_true]
        omega
      rw [hT] at ht0
      simp at ht0
    · intro _ j hj
      refine wr_getD_ne b 6 0 2 _ j ?_
      have hd : ∀ k ∈ RSA_DATA_BLOCKS, ¬((6 : Nat) = k) := by decide
      exact hd j hj
  | drying_time_h v =>
    obtain ⟨hl6, -⟩ := validImage_block b hv 6 (by omega)
    simp only [editOk, Bool.and_eq_true, decide_eq_true_eq] at he
    obtain ⟨hw0, hw1⟩ := he
    refine ⟨_, editBuild_drying_time_h b v hv hc hw hf hw0 hw1, ?_, ?_⟩
    · intro i p hi hp ht0
      refine wr_frame b 6 2 4 [v.toNat % 256, v.toNat / 256] hv.1 (by omega) rfl (by omega) (by omega) i p ?_
      rintro ⟨rfl, hps, hpr⟩
      have hT : editTouches (Edit.drying_time_h v) 6 p = true := by
        simp only [editTouches, Bool.and_eq_true, decide_eq_true_eq, true_and, and_true]
        omega
      rw [hT] at ht0
      simp at ht0
    · intro _ j hj
      refine wr_getD_ne b 6 2 4 _ j ?_
      have hd : ∀ k ∈ RSA_DATA_BLOCKS, ¬((6 : Nat) = k) := by decide
      exact hd j hj
  | bed_temp_type v =>
    obtain ⟨hl6, -⟩ := validImage_block b hv 6 (by omega)
    simp only [editOk, Bool.and_eq_true, decide_eq_true_eq] at he
    obtain ⟨hw0, hw1⟩ := he
    refine ⟨_, editBuild_bed_temp_type b v hv hc hw hf hw0 hw1, ?_, ?_⟩
    · intro i p hi hp ht0
      refine wr_frame b 6 4 6 [v.toNat % 256, v.toNat / 256] hv.1 (by omega) rfl (by omega) (by omega) i p ?_
      rintro ⟨rfl, hps, hpr⟩
      have hT : editTouches (Edit.bed_temp_type v) 6 p = true := by
        simp only [editTouches, Bool.and_eq_true, decide_eq_true_eq, true_and, and_true]
        omega
      rw [hT] at ht0
      simp at ht0
    · intro _ j hj
      refine wr_getD_ne b 6 4 6 _ j ?_
      have hd : ∀ k ∈ RSA_DATA_BLOCKS, ¬((6 : Nat) = k) := by decide
      exact hd j hj
  | bed_temp_c v =>
    obtain ⟨hl6, -⟩ := validImage_block b hv 6 (by omega)
    simp only [editOk, Bool.and_eq_true, decide_eq_true_eq] at he
    obtain ⟨hw0, hw1⟩ := he
    refine ⟨_, editBuild_bed_temp_c b v hv hc hw hf hw0 hw1, ?_, ?_⟩
    · intro i p hi hp ht0
      refine wr_frame b 6 6 8 [v.toNat % 256, v.toNat / 256] hv.1 (by omega) rfl (by omega) (by omega) i p ?_
      rintro ⟨rfl, hps, hpr⟩
      have hT : editTouches (Edit.bed_temp_c v) 6 p = true := by
        simp only [editTouches, Bool.and_eq_true, decide_eq_true_eq, true_and, and_true]
        omega
      rw [hT] at ht0
      simp at ht0
    · intro _ j hj
      refine wr_getD_ne b 6 6 8 _ j ?_
      have hd : ∀ k ∈ RSA_DATA_BLOCKS, ¬((6 : Nat) = k) := by decide
      exact hd j hj
  | max_hotend_temp_c v =>
    obtain ⟨hl6, -⟩ := validImage_block b hv 6 (by omega)
    simp only [editOk, Bool.and_eq_true, decide_eq_true_eq] at he
    obtain ⟨hw0, hw1⟩ := he
    refine ⟨_, editBuild_max_hotend_temp_c b v hv hc hw hf hw0 hw1, ?_, ?_⟩
    · intro i p hi hp ht0
      refine wr_frame b 6 8 10 [v.toNat % 256, v.toNat / 256] hv.1 (by omega) rfl (by omega) (by omega) i p ?_
      rintro ⟨rfl, hps, hpr⟩
      have hT : editTouches (Edit.max_hotend_temp_c v) 6 p = true := by
        simp only [editTouches, Bool.and_eq_true, decide_eq_true_eq, true_and, and_true]
        omega
      rw [hT] at ht0
      simp at ht0
    · intro _ j hj
      refine wr_getD_ne b 6 8 10 _ j ?_
      have hd : ∀ k ∈ RSA_DATA_BLOCKS, ¬((6 : Nat) = k) := by decide
      exact hd j hj
  | min_hotend_temp_c v =>
    obtain ⟨hl6, -⟩ := validImage_block b hv 6 (by omega)
    simp only [editOk, Bool.and_eq_true, decide_eq_true_eq] at he
    obtain ⟨hw0, hw1⟩ := he
    refine ⟨_, editBuild_min_hotend_temp_c b v hv hc hw hf hw0 hw1, ?_, ?_⟩
    · intro i p hi hp ht0
      refine wr_frame b 6 10 12 [v.toNat % 256, v.toNat / 256] hv.1 (by omega) rfl (by omega) (by omega) i p ?_
      rintro ⟨rfl, hps, hpr⟩
      have hT : editTouches (Edit.min_hotend_temp_c v) 6 p = true := by
        simp only [editTouches, Bool.and_eq_true, decide_eq_true_eq, true_and, and_true]
        omega
      rw [hT] at ht0
      simp at ht0
    · intro _ j hj
      refine wr_getD_ne b 6 10 12 _ j ?_
      have hd : ∀ k ∈ RSA_DATA_BLOCKS, ¬((6 : Nat) = k) := by decide
      exact hd j hj
  | xcam_info v =>
    obtain ⟨hl8, -⟩ := validImage_block b hv 8 (by omega)
    by_cases hve : v = []
    · subst hve
      exact ⟨b, editBuild_xcam_info_nil b hv hc hw hf, fun i p _ _ _ => rfl, fun _ j _ => rfl⟩
    · refine ⟨_, editBuild_xcam_info b v hv hc hw hf hve, ?_, ?_⟩
      · intro i p hi hp ht0
        refine wr_frame b 8 0 12 _ hv.1 (by omega) (padTo_take_length v 12) (by omega) (by omega) i p ?_
        rintro ⟨rfl, hps, hpr⟩
        have hT : editTouches (Edit.xcam_info v) 8 p = true := by
          simp only [editTouches, Bool.and_eq_true, decide_eq_true_eq, true_and, and_true]
          omega
        rw [hT] at ht0
        simp at ht0
      · intro _ j hj
        refine wr_getD_ne b 8 0 12 _ j ?_
        have hd : ∀ k ∈ RSA_DATA_BLOCKS, ¬((8 : Nat) = k) := by decide
        exact hd j hj
  | nozzle_diameter v =>
    obtain ⟨hl8, -⟩ := validImage_block b hv 8 (by omega)
    refine ⟨_, editBuild_nozzle_diameter b v hv hc hw hf, ?_, ?_⟩
    · intro i p hi hp ht0
      refine wr_frame b 8 12 16 v.toList hv.1 (by omega) rfl (by omega) (by omega) i p ?_
      rintro ⟨rfl, hps, hpr⟩
      have hT : editTouches (Edit.nozzle_diameter v) 8 p = true := by
        simp only [editTouches, Bool.and_eq_true, decide_eq_true_eq, true_and, and_true]
        omega
      rw [hT] at ht0
      simp at ht0
    · intro _ j hj
      refine wr_getD_ne b 8 12 16 _ j ?_
      have hd : ∀ k ∈ RSA_DATA_BLOCKS, ¬((8 : Nat) = k) := by decide
      exact hd j hj
  | tray_uid v =>
    obtain ⟨hl9, -⟩ := validImage_block b hv 9 (by omega)
    refine ⟨_, editBuild_tray_uid b v hv hc hw hf he, ?_, ?_⟩
    · intro i p hi hp ht0
      refine wr_frame b 9 0 16 _ hv.1 (by omega) (padTo_take_length v 16) (by omega) (by omega) i p ?_
      rintro ⟨rfl, hps, hpr⟩
      have hT : editTouches (Edit.tray_uid v) 9 p = true := by
        simp only [editTouches, Bool.and_eq_true, decide_eq_true_eq, true_and, and_true]
        omega
      rw [hT] at ht0
      simp at ht0
    · intro _ j hj
      refine wr_getD_ne b 9 0 16 _ j ?_
      have hd : ∀ k ∈ RSA_DATA_BLOCKS, ¬((9 : Nat) = k) := by decide
      exact hd j hj
  | spool_width_mm v =>
    obtain ⟨hl10, -⟩ := validImage_block b hv 10 (by omega)
    have hwv0 : truncF (mulF100 v) < 65536 := of_decide_eq_true he
    refine ⟨_, editBuild_spool_width_mm b v hv hc hw hf hwv0, ?_, ?_⟩
    · intro i p hi hp ht0
      refine wr_frame b 10 4 6 [truncF (mulF100 v) % 256, truncF (mulF100 v) / 256] hv.1 (by omega) rfl (by omega) (by omega) i p ?_
      rintro ⟨rfl, hps, hpr⟩
      have hT : editTouches (Edit.spool_width_mm v) 10 p = true := by
        simp only [editTouches, Bool.and_eq_true, decide_eq_true_eq, true_and, and_true]
        omega
      rw [hT] at ht0
      simp at ht0
    · intro _ j hj
      refine wr_getD_ne b 10 4 6 _ j ?_
      have hd : ∀ k ∈ RSA_DATA_BLOCKS, ¬((10 : Nat) = k) := by decide
      exact hd j hj
  | production_datetime v =>
    obtain ⟨hl12, -⟩ := validImage_block b hv 12 (by omega)
    refine ⟨_, editBuild_production_datetime b v hv hc hw hf he, ?_, ?_⟩
    · intro i p hi hp ht0
      refine wr_frame b 12 0 16 _ hv.1 (by omega) (padTo_take_length v 16) (by omega) (by omega) i p ?_
      rintro ⟨rfl, hps, hpr⟩
      have hT : editTouches (Edit.production_datetime v) 12 p = true := by
        simp only [editTouches, Bool.and_eq_true, decide_eq_true_eq, true_and, and_true]
        omega
      rw [hT] at ht0
      simp at ht0
    · intro _ j hj
      refine wr_getD_ne b 12 0 16 _ j ?_
      have hd : ∀ k ∈ RSA_DATA_BLOCKS, ¬((12 : Nat) = k) := by decide
      exact hd j hj
  | short_production_datetime v =>
    obtain ⟨hl13, -⟩ := validImage_block b hv 13 (by omega)
    refine ⟨_, editBuild_short_production_datetime b v hv hc hw hf he, ?_, ?_⟩
    · intro i p hi hp ht0
      refine wr_frame b 13 0 16 _ hv.1 (by omega) (padTo_take_length v 16) (by omega) (by omega) i p ?_
      rintro ⟨rfl, hps, hpr⟩
      have hT : editTouches (Edit.short_production_datetime v) 13 p = true := by
        simp only [editTouches, Bool.and_eq_true, decide_eq_true_eq, true_and, and_true]
        omega
      rw [hT] at ht0
      simp at ht0
    · intro _ j hj
      refine wr_getD_ne b 13 0 16 _ j ?_
      have hd : ∀ k ∈ RSA_DATA_BLOCKS, ¬((13 : Nat) = k) := by decide
      exact hd j hj
  | filament_length_m v =>
    obtain ⟨hl14, -⟩ := validImage_block b hv 14 (by omega)
    simp only [editOk, Bool.and_eq_true, decide_eq_true_eq] at he
    obtain ⟨hw0, hw1⟩ := he
    refine ⟨_, editBuild_filament_length_m b v hv hc hw hf hw0 hw1, ?_, ?_⟩
    · intro i p hi hp ht0
      refine wr_frame b 14 4 6 [v.toNat % 256, v.toNat / 256] hv.1 (by omega) rfl (by omega) (by omega) i p ?_
      rintro ⟨rfl, hps, hpr⟩
      have hT : editTouches (Edit.filament_length_m v) 14 p = true := by
        simp only [editTouches, Bool.and_eq_true, decide_eq_true_eq, true_and, and_true]
        omega
      rw [hT] at ht0
      simp at ht0
    · intro _ j hj
      refine wr_getD_ne b 14 4 6 _ j ?_
      have hd : ∀ k ∈ RSA_DATA_BLOCKS, ¬((14 : Nat) = k) := by decide
      exact hd j hj
  | color_format v =>
    obtain ⟨hl16, -⟩ := validImage_block b hv 16 (by omega)
    simp only [editOk, Bool.and_eq_true, decide_eq_true_eq] at he
    obtain ⟨hw0, hw1⟩ := he
    refine ⟨_, editBuild_color_format b v hv hc hw hf hw0 hw1, ?_, ?_⟩
    · intro i p hi hp ht0
      refine wr_frame b 16 0 2 [v.toNat % 256, v.toNat / 256] hv.1 (by omega) rfl (by omega) (by omega) i p ?_
      rintro ⟨rfl, hps, hpr⟩
      have hT : editTouches (Edit.color_format v) 16 p = true := by
        simp only [editTouches, Bool.and_eq_true, decide_eq_true_eq, true_and, and_true]
        omega
      rw [hT] at ht0
      simp at ht0
    · intro _ j hj
      refine wr_getD_ne b 16 0 2 _ j ?_
      have hd : ∀ k ∈ RSA_DATA_BLOCKS, ¬((16 : Nat) = k) := by decide
      exact hd j hj
  | color_count v =>
    obtain ⟨hl16, -⟩ := validImage_block b hv 16 (by omega)
    simp only [editOk, Bool.and_eq_true, decide_eq_true_eq] at he
    obtain ⟨hw0, hw1⟩ := he
    refine ⟨_, editBuild_color_count b v hv hc hw hf hw0 hw1, ?_, ?_⟩
    · intro i p hi hp ht0
      refine wr_frame b 16 2 4 [v.toNat % 256, v.toNat / 256] hv.1 (by omega) rfl (by omega) (by omega) i p ?_
      rintro ⟨rfl, hps, hpr⟩
      have hT : editTouches (Edit.color_count v) 16 p = true := by
        simp only [editTouches, Bool.and_eq_true, decide_eq_true_eq, true_and, and_true]
        omega
      rw [hT] at ht0
      simp at ht0
    · intro _ j hj
      refine wr_getD_ne b 16 2 4 _ j ?_
      have hd : ∀ k ∈ RSA_DATA_BLOCKS, ¬((16 : Nat) = k) := by decide
      exact hd j hj
  | secondary_color_abgr v =>
    obtain ⟨hl16, -⟩ := validImage_block b hv 16 (by omega)
    by_cases hve : v = []
    · subst hve
      exact ⟨b, editBuild_secondary_color_abgr_nil b hv hc hw hf, fun i p _ _ _ => rfl, fun _ j _ => rfl⟩
    · have hor : v.length = 0 ∨ 4 ≤ v.length := by simpa [editOk] using he
      have hv4 : 4 ≤ v.length := by
        rcases hor with h | h
        · exact absurd (List.length_eq_zero.mp h) hve
        · exact h
      refine ⟨_, editBuild_secondary_color_abgr b v hv hc hw hf hv4, ?_, ?_⟩
      · intro i p hi hp ht0
        refine wr_frame b 16 4 8 _ hv.1 (by omega) (by rw [List.length_take]; omega) (by omega) (by omega) i p ?_
        rintro ⟨rfl, hps, hpr⟩
        have hT : editTouches (Edit.secondary_color_abgr v) 16 p = true := by
          simp only [editTouches, Bool.and_eq_true, decide_eq_true_eq, true_and, and_true]
          omega
        rw [hT] at ht0
        simp at ht0
      · intro _ j hj
        refine wr_getD_ne b 16 4 8 _ j ?_
        have hd : ∀ k ∈ RSA_DATA_BLOCKS, ¬((16 : Nat) = k) := by decide
        exact hd j hj
  | rsa_signature v =>
    by_cases hve : v = []
    · subst hve
      exact ⟨b, editBuild_rsa_signature_nil b hv hc hw hf, fun i p _ _ _ => rfl, fun _ j _ => rfl⟩
    · refine ⟨_, editBuild_rsa_signature b v hv hc hw hf hve, ?_, ?_⟩
      · intro i p hi hp ht0
        have hsig : (padTo 256 (v.take 256)).length = 256 := padTo_take_length v 256
        by_cases hin : i ∈ RSA_WRITE_BLOCKS
        · exfalso
          have hT : editTouches (Edit.rsa_signature v) i p = true := by
            simp only [editTouches, Bool.and_eq_true, decide_eq_true_eq, true_and, and_true]
            exact ⟨hin, hp⟩
          rw [hT] at ht0
          simp at ht0
        · have hfr : (rsaWrite (padTo 256 (v.take 256)) b).getD i [] = b.getD i [] := by
            unfold rsaWrite
            apply rsaFold_getD_frame
            intro q hqm
            by_cases hqw : q.2 ∈ RSA_WRITE_BLOCKS
            · exact Or.inl (fun hcq => hin (hcq ▸ hqw))
            · right
              have h16 : 16 ≤ q.1 := by
                have hq : ∀ r ∈ RSA_DATA_BLOCKS.enum, r.2 ∉ RSA_WRITE_BLOCKS → 16 ≤ r.1 := by
                  decide
                exact hq q hqm hqw
              have hdnil : (padTo 256 (v.take 256)).drop (16 * q.1) = [] := by
                apply List.drop_eq_nil_of_le
                omega
              rw [hdnil]
              simp
          rw [hfr]
      · intro hne
        exact absurd rfl (hne v)

/-! ## Helper lemmas for the remaining claims -/

theorem u16le_length (v : Int) (l : List Nat) (h : u16le v = some l) : l.length = 2 := by
  unfold u16le at h
  by_cases hc : 0 ≤ v ∧ v < 65536
  · rw [if_pos hc] at h
    cases h
    rfl
  · rw [if_neg hc] at h
    cases h

theorem entryOfPath_bin (p : String) (e : TagEntry) (h : entryOfPath p = some e) :
    e.bin_path = "" := by
  unfold entryOfPath at h
  by_cases h1 : p.endsWith "-dump.json"
  · rw [if_pos h1] at h
    by_cases h2 : 4 ≤ (p.splitOn "/").length
    · rw [if_pos h2] at h
      cases h
      rfl
    · rw [if_neg h2] at h
      cases h
  · rw [if_neg h1] at h
    cases h

theorem rsa_parse_first16 (b : Blocks) (hv : validImage b) :
    (parseFields b).rsa_signature
      = ((RSA_DATA_BLOCKS.take 16).map (fun i => b.getD i [])).flatten := by
  rw [parseFields_rsa]
  have hsplit := (List.take_append_drop 16 (RSA_DATA_BLOCKS.map (fun i => b.getD i []))).symm
  have hlen : ((RSA_DATA_BLOCKS.map (fun i => b.getD i [])).take 16).flatten.length = 256 := by
    rw [List.length_flatten]
    have h1 : ((RSA_DATA_BLOCKS.map (fun i => b.getD i [])).take 16).map List.length
        = ((RSA_DATA_BLOCKS.map (fun i => b.getD i [])).map List.length).take 16 := by
      rw [List.map_take]
    rw [h1]
    have h2 : (RSA_DATA_BLOCKS.map (fun i => b.getD i [])).map List.length
        = RSA_DATA_BLOCKS.map (fun _ => 16) := by
      rw [List.map_map]
      exact List.map_congr_left (fun i hi => by
        have hi64 : i < 64 := by
          have hj : ∀ j ∈ RSA_DATA_BLOCKS, j < 64 := by decide
          exact hj i hi
        exact (validImage_block b hv i hi64).1)
    rw [h2]
    decide
  conv_lhs => rw [hsplit]
  rw [List.flatten_append, List.take_left' hlen, List.map_take]

set_option maxRecDepth 40000 in
/-- C1 witness fixture: the all-zero image is valid, canonical and
width-stable, and the PLA filament-type edit is well formed. -/
theorem c1_clone_preservation_witness :
    ∃ b2, build_tag_blocks
        (applyEdit (Edit.filament_type [80, 76, 65]) (parseFields zeroImage)) = some b2 ∧
      (∀ i p, i < 64 → p < 16 →
        editTouches (Edit.filament_type [80, 76, 65]) i p = false →
        (b2.getD i []).getD p 0 = (zeroImage.getD i []).getD p 0) ∧
      ((∀ w, Edit.filament_type [80, 76, 65] ≠ Edit.rsa_signature w) →
        ∀ j ∈ RSA_DATA_BLOCKS, b2.getD j [] = zeroImage.getD j []) :=
  c1_clone_preservation zeroImage (Edit.filament_type [80, 76, 65])
    (by decide) (by decide) (by decide) (by decide) (by decide)

set_option maxRecDepth 40000 in
/-- C1 counterexample: on a valid but non-canonical image (a stray byte after
the first NUL of the detailed-type region), editing only the spool weight
changes a byte far outside the edited field's range. -/
theorem c1_counterexample :
    validImage imgJunk ∧
    editTouches (Edit.spool_weight_g 777) 4 2 = false ∧
    ((build_tag_blocks (applyEdit (Edit.spool_weight_g 777) (parseFields imgJunk))).map
        (fun b2 => (b2.getD 4 []).getD 2 0)) = some 0 ∧
    (imgJunk.getD 4 []).getD 2 0 = 66 :=
  ⟨by decide, by decide, by decide, by decide⟩

/-- C2: round trip, amended.  On a structurally valid image whose ASCII
regions are canonical, whose width word is stable under the float round
trip, and whose two f32 regions carry no signaling-NaN pattern (which
CPython's `unpack("<f")`/`pack("<f")` would quiet), parsing succeeds and
rebuilding the parsed record reproduces the image byte for byte (on all
blocks, sector trailers included, since build starts from the raw blocks). -/
theorem c2_round_trip (b : Blocks) (hv : validImage b) (hc : canonImage b)
    (hw : widthStable b) (hf : f32Stable b) :
    parse_tag_dump b = some (parseFields b) ∧
    build_tag_blocks (parseFields b) = some b :=
  ⟨parse_tag_dump_valid b hv, build_parse_id b hv hc hw hf⟩

set_option maxRecDepth 40000 in
/-- C2 witness: the canonical fixture image round-trips byte for byte. -/
theorem c2_round_trip_witness :
    parse_tag_dump imgCanon = some (parseFields imgCanon) ∧
    build_tag_blocks (parseFields imgCanon) = some imgCanon :=
  c2_round_trip imgCanon (by decide) (by decide) (by decide) (by decide)

set_option maxRecDepth 40000 in
/-- C2 counterexample: a valid 64x16 image with a byte after the first NUL of
an ASCII region loses that byte in the round trip, although block 4 is not a
sector trailer. -/
theorem c2_counterexample :
    validImage imgJunk ∧ is_sector_trailer 4 = false ∧
    ((parse_tag_dump imgJunk).bind build_tag_blocks).map
        (fun b2 => (b2.getD 4 []).getD 2 0) = some 0 ∧
    (imgJunk.getD 4 []).getD 2 0 = 66 :=
  ⟨by decide, by decide, by decide, by decide⟩

/-- C3: key derivation.  For every UID (the empty one included) the result
is the in-order partition of the 96-byte HKDF-SHA256 output into 16 chunks
of 6 bytes, with the fixed 16-byte master salt and the 7-byte context
"RFID-A" plus NUL; determinism and totality are inherent to the model being
a function. -/
theorem c3_derive_keys (uid : List Nat) :
    (derive_keys uid).length = 16 ∧
    (∀ k ∈ derive_keys uid, k.length = 6) ∧
    derive_keys uid
      = (List.range 16).map (fun i => ((hkdfOutput96 uid).drop (6 * i)).take 6) ∧
    (hkdfOutput96 uid).length = 96 ∧
    hkdfOutput96 uid = hkdfExpand (hkdfExtract MASTER_KEY uid) CONTEXT 96 ∧
    MASTER_KEY.length = 16 ∧
    CONTEXT = [0x52, 0x46, 0x49, 0x44, 0x2D, 0x41, 0x00] := by
  refine ⟨?_, ?_, rfl, hkdfOutput96_length uid, rfl, rfl, rfl⟩
  · have h := derive_keys_shape uid
    have h2 := congrArg List.length h
    simpa using h2
  · intro k hk
    have h := derive_keys_shape uid
    have hmem : k.length ∈ (derive_keys uid).map List.length :=
      List.mem_map_of_mem List.length hk
    rw [h] at hmem
    exact List.eq_of_mem_replicate hmem

/-- C4: secondary-colour gating, amended.  Parse yields a non-empty
secondary colour only when the stored colour format is 2, and build's
sector-16 stage is gated on the *field* being non-empty: with an empty
secondary field only bytes 0-3 of block 16 are written, so bytes 4-7 are
untouched.  (Build does not itself check the format: see the
counterexample.) -/
theorem c4_secondary_gating :
    (∀ b : Blocks, (parseFields b).color_format ≠ 2 →
        (parseFields b).secondary_color_abgr = []) ∧
    (∀ (fd : FilamentData) (x : Blocks) (cf cc : List Nat),
        u16le fd.color_format = some cf → u16le fd.color_count = some cc →
        fd.secondary_color_abgr = [] →
        buildSector4 fd x = some (wr 16 2 4 cc (wr 16 0 2 cf x))) ∧
    (∀ (x : Blocks) (cf cc : List Nat), validImage x →
        cf.length = 2 → cc.length = 2 →
        ∀ p, 4 ≤ p → p < 16 →
          ((wr 16 2 4 cc (wr 16 0 2 cf x)).getD 16 []).getD p 0
            = (x.getD 16 []).getD p 0) := by
  refine ⟨?_, ?_, ?_⟩
  · intro b hne
    rw [parseFields_secondary]
    rw [if_neg]
    rintro ⟨h2, -⟩
    exact hne (by rw [parseFields_cfmt]; exact h2)
  · intro fd x cf cc hcf hcc hsec
    rw [buildSector4_eval fd x cf cc hcf hcc, hsec]
    rw [if_neg (show ¬(([] : List Nat) ≠ []) from fun hh => hh rfl)]
  · intro x cf cc hvx hcfl hccl p hp4 hp16
    have hx64 : x.length = 64 := hvx.1
    have hl16 := (validImage_block x hvx 16 (by omega)).1
    have hw1 : (wr 16 0 2 cf x).length = 64 := by
      rw [wr_length, hvx.1]
    have hg : (wr 16 0 2 cf x).getD 16 [] = setSlice (x.getD 16 []) 0 2 cf :=
      wr_getD_self x 16 0 2 cf (by omega)
    have hsl : ((wr 16 0 2 cf x).getD 16 []).length = 16 := by
      rw [hg, setSlice_length _ 0 2 cf (by omega) (by omega) (by omega)]
      exact hl16
    have e2 : ((wr 16 2 4 cc (wr 16 0 2 cf x)).getD 16 []).getD p 0
        = ((wr 16 0 2 cf x).getD 16 []).getD p 0 :=
      wr_frame (wr 16 0 2 cf x) 16 2 4 cc hw1 (by omega) (by omega) (by omega)
        (by omega) 16 p (by rintro ⟨-, h1, h2⟩; omega)
    have e1 : ((wr 16 0 2 cf x).getD 16 []).getD p 0 = (x.getD 16 []).getD p 0 :=
      wr_frame x 16 0 2 cf hvx.1 (by omega) (by omega) (by omega) (by omega) 16 p
        (by rintro ⟨-, h1, h2⟩; omega)
    rw [e2, e1]

set_option maxRecDepth 40000 in
/-- C4 witness: on the all-zero image the stored colour format is 0, so the
parsed secondary colour is empty. -/
theorem c4_secondary_gating_witness :
    (parseFields zeroImage).secondary_color_abgr = [] :=
  c4_secondary_gating.1 zeroImage (by decide)

set_option maxRecDepth 40000 in
/-- C4 counterexample: a record whose colour format is 0 but whose secondary
colour field is non-empty still gets the four bytes written into block 16
bytes 4-7 — build gates on the field, not on the format. -/
theorem c4_counterexample :
    fdSecondaryStray.color_format ≠ 2 ∧
    (build_tag_blocks fdSecondaryStray).map (fun b2 => getSlice (b2.getD 16 []) 4 8)
      = some [1, 2, 3, 4] ∧
    getSlice (fdSecondaryStray.raw_blocks.getD 16 []) 4 8 = [0, 0, 0, 0] :=
  ⟨by decide, by decide, by decide⟩

set_option maxRecDepth 40000 in
/-- C5: the spool-width word is *not* stored as `round(mm * 100)` but as
`int(mm * 100)` (truncation): on the stored word 29 the parse/build round
trip yields 28, while banker's rounding (what the specification prescribes)
would reproduce 29. -/
theorem c5_width_truncation :
    readU16 (imgWidth29.getD 10 []) 4 = 29 ∧
    pyWidthRoundTrip 29 = 28 ∧
    pyWidthRoundTripRounded 29 = 29 ∧
    ((parse_tag_dump imgWidth29).bind build_tag_blocks).map
        (fun b2 => readU16 (b2.getD 10 []) 4) = some 28 :=
  ⟨by decide, by decide, by decide, by decide⟩

set_option maxRecDepth 40000 in
/-- C6: accepting a new connection does *not* cancel the pending slots of
the previous connection: after `connect` with a second socket the slot
registered under the first connection is still pending and still in the
table, while `disconnect` (shown for contrast) does cancel it. -/
theorem c6_connect_leaves_pending :
    (request_read_send (bridgeConnect bridgeInit 1)).map (fun p =>
      ((bridgeConnect p.1 2).phone, (bridgeConnect p.1 2).pending_reads,
       (bridgeConnect p.1 2).futures,
       (bridgeDisconnect p.1).pending_reads, (bridgeDisconnect p.1).futures))
      = some (some 2, [1], [(1, SlotState.pending)], [], [(1, SlotState.cancelled)]) := by
  rfl

/-- C7: correlation-slot cleanup, amended.  A successful response, a timeout
and a disconnect all remove the slot id from the pending table, but an
incoming ERROR message fails the pending futures *without* removing their
ids from the tables. -/
theorem c7_slot_cleanup (st : BridgeState) (rid : Nat) (m : String) :
    (handle_message st (BridgeMsg.tagData rid)).pending_reads
      = st.pending_reads.erase rid ∧
    (handle_message st (BridgeMsg.writeResult rid)).pending_writes
      = st.pending_writes.erase rid ∧
    (request_read_timeout st rid).pending_reads = st.pending_reads.erase rid ∧
    (request_write_timeout st rid).pending_writes = st.pending_writes.erase rid ∧
    (bridgeDisconnect st).pending_reads = [] ∧
    (bridgeDisconnect st).pending_writes = [] ∧
    (handle_message st (BridgeMsg.errorMsg m)).pending_reads = st.pending_reads ∧
    (handle_message st (BridgeMsg.errorMsg m)).pending_writes = st.pending_writes := by
  refine ⟨?_, ?_, rfl, rfl, rfl, rfl, rfl, rfl⟩
  · show (if rid ∈ st.pending_reads then
        { st with
          futures := resolveFuture st.futures rid,
          pending_reads := st.pending_reads.erase rid } else st).pending_reads
      = st.pending_reads.erase rid
    by_cases hm : rid ∈ st.pending_reads
    · rw [if_pos hm]
    · rw [if_neg hm, List.erase_of_not_mem hm]
  · show (if rid ∈ st.pending_writes then
        { st with
          futures := resolveFuture st.futures rid,
          pending_writes := st.pending_writes.erase rid } else st).pending_writes
      = st.pending_writes.erase rid
    by_cases hm : rid ∈ st.pending_writes
    · rw [if_pos hm]
    · rw [if_neg hm, List.erase_of_not_mem hm]

set_option maxRecDepth 40000 in
/-- C7 counterexample: after an ERROR message the failed request's id is
still in the pending-reads table. -/
theorem c7_counterexample :
    (request_read_send (bridgeConnect bridgeInit 1)).map (fun p =>
      ((handle_message p.1 (BridgeMsg.errorMsg "boom")).pending_reads,
       (handle_message p.1 (BridgeMsg.errorMsg "boom")).futures))
      = some ([1], [(1, SlotState.failed "boom")]) := by
  rfl

/-- C8: encoder purity, amended.  Every transport encoder is a pure function
of `build_tag_blocks fd` — two records on which build agrees encode
identically on every output format.  (They are *not* functions of the raw
block array alone: build re-derives blocks from the record's fields; see the
counterexample.) -/
theorem c8_encoder_purity (fd1 fd2 : FilamentData)
    (h : build_tag_blocks fd1 = build_tag_blocks fd2) :
    build_blocks fd1 = build_blocks fd2 ∧
    build_binary fd1 = build_binary fd2 ∧
    build_hex fd1 = build_hex fd2 ∧
    build_base64 fd1 = build_base64 fd2 ∧
    build_base64_blocks fd1 = build_base64_blocks fd2 ∧
    build_hex_blocks fd1 = build_hex_blocks fd2 ∧
    build_proxmark3_dump fd1 = build_proxmark3_dump fd2 := by
  refine ⟨?_, ?_, ?_, ?_, ?_, ?_, ?_⟩ <;>
    simp only [build_blocks, build_binary, build_hex, build_base64, build_base64_blocks,
      build_hex_blocks, build_proxmark3_dump, h]

/-- C8 witness: the purity congruence applied to one record twice. -/
theorem c8_encoder_purity_witness :
    build_blocks fdPlain = build_blocks fdPlain ∧
    build_binary fdPlain = build_binary fdPlain ∧
    build_hex fdPlain = build_hex fdPlain ∧
    build_base64 fdPlain = build_base64 fdPlain ∧
    build_base64_blocks fdPlain = build_base64_blocks fdPlain ∧
    build_hex_blocks fdPlain = build_hex_blocks fdPlain ∧
    build_proxmark3_dump fdPlain = build_proxmark3_dump fdPlain :=
  c8_encoder_purity fdPlain fdPlain rfl

set_option maxRecDepth 40000 in
/-- C8 counterexample: two records with identical raw block arrays but
different filament-type fields produce different hex encodings. -/
theorem c8_counterexample :
    fdPlain.raw_blocks = fdPETG.raw_blocks ∧
    build_hex fdPlain ≠ build_hex fdPETG :=
  ⟨rfl, by decide⟩

/-- C9: catalog snapshot stability.  Rebuilding the entry list from the
persisted `to_dict` snapshot reproduces the entries (order and all fields,
`bin_path` being empty on freshly indexed entries) and hence an equal
material index. -/
theorem c9_catalog_stability (paths : List String) :
    rebuildFromCache ((loadEntries paths).map TagEntry.to_dict) = loadEntries paths ∧
    buildMaterialIndex (rebuildFromCache ((loadEntries paths).map TagEntry.to_dict))
      = buildMaterialIndex (loadEntries paths) := by
  have h1 : rebuildFromCache ((loadEntries paths).map TagEntry.to_dict)
      = loadEntries paths := by
    unfold rebuildFromCache
    rw [List.map_map]
    have hbin : ∀ e ∈ loadEntries paths, e.bin_path = "" := by
      intro e he
      obtain ⟨p, -, hp⟩ := List.mem_filterMap.mp he
      exact entryOfPath_bin p e hp
    have hid : ∀ e ∈ loadEntries paths,
        ((fun d : TagEntryDict =>
            (⟨d.material, d.subtype, d.color, d.uid, d.json_path, ""⟩ : TagEntry))
          ∘ TagEntry.to_dict) e = id e := by
      intro e he
      cases e with
      | mk m s c u j bp =>
        have hb : bp = "" := hbin _ he
        show (⟨m, s, c, u, j, ""⟩ : TagEntry) = ⟨m, s, c, u, j, bp⟩
        rw [hb]
    rw [List.map_congr_left hid, List.map_id]
  exact ⟨h1, by rw [h1]⟩

/-- C10: the RSA signature field covers exactly the first 16 of the 18 data
blocks of sectors 10-15: parse reads only those (blocks 40-60, never 61-62),
and the write loop with a 256-byte signature writes exactly those 16 blocks
and leaves blocks 61 and 62 unchanged. -/
theorem c10_rsa_bounds (b : Blocks) (sig : List Nat) (hv : validImage b)
    (hs : sig.length = 256) :
    (parseFields b).rsa_signature
      = ((RSA_DATA_BLOCKS.take 16).map (fun i => b.getD i [])).flatten ∧
    (∀ k j, (k, j) ∈ RSA_DATA_BLOCKS.enum → k < 16 →
        (rsaWrite sig b).getD j [] = (sig.drop (16 * k)).take 16) ∧
    (rsaWrite sig b).getD 61 [] = b.getD 61 [] ∧
    (rsaWrite sig b).getD 62 [] = b.getD 62 [] := by
  have hb64 : b.length = 64 := hv.1
  refine ⟨rsa_parse_first16 b hv, ?_, ?_, ?_⟩
  · intro k j hm hk
    unfold rsaWrite
    refine rsaFold_getD_find sig RSA_DATA_BLOCKS.enum b k j hm (by decide) ?_ ?_
    · simp only [List.length_take, List.length_drop, hs]
      omega
    · have hq : ∀ q ∈ RSA_DATA_BLOCKS.enum, q.2 < 64 := by decide
      have h2 := hq (k, j) hm
      omega
  · unfold rsaWrite
    apply rsaFold_getD_frame
    intro q hq
    by_cases h61 : q.2 = 61
    · right
      have h16 : q.1 = 16 := by
        have hqe : ∀ r ∈ RSA_DATA_BLOCKS.enum, r.2 = 61 → r.1 = 16 := by decide
        exact hqe q hq h61
      rw [h16]
      have hdnil : sig.drop (16 * 16) = [] := List.drop_eq_nil_of_le (by omega)
      rw [hdnil]
      simp
    · exact Or.inl h61
  · unfold rsaWrite
    apply rsaFold_getD_frame
    intro q hq
    by_cases h62 : q.2 = 62
    · right
      have h17 : q.1 = 17 := by
        have hqe : ∀ r ∈ RSA_DATA_BLOCKS.enum, r.2 = 62 → r.1 = 17 := by decide
        exact hqe q hq h62
      rw [h17]
      have hdnil : sig.drop (16 * 17) = [] := List.drop_eq_nil_of_le (by omega)
      rw [hdnil]
      simp
    · exact Or.inl h62

set_option maxRecDepth 40000 in
/-- C10 witness: the bounds theorem applied to the all-zero image and an
all-ones 256-byte signature. -/
theorem c10_rsa_bounds_witness :
    (rsaWrite (List.replicate 256 1) zeroImage).getD 61 []
      = zeroImage.getD 61 [] ∧
    (rsaWrite (List.replicate 256 1) zeroImage).getD 62 []
      = zeroImage.getD 62 [] :=
  ⟨(c10_rsa_bounds zeroImage (List.replicate 256 1) (by decide) (by decide)).2.2.1,
   (c10_rsa_bounds zeroImage (List.replicate 256 1) (by decide) (by decide)).2.2.2⟩

end BambuRFID
